import Mathlib

set_option maxRecDepth 200000
set_option maxHeartbeats 4000000




/-!
Shallow embedding of the webgl-play sources relevant to the frozen claims:
* the builtin type/function/operator catalogue (`js/glsl/builtins.js`,
  provided as `src/unnamed/part_000`, third document),
* the JavaScript runtime-error location extraction of `js/app/app.js`
  (both copies contained in `src/unnamed/part_000`),
* the IndexedDB-backed document store (`src/js/app/store.js`).

Machine integers do not occur in the modelled code paths; JavaScript numbers
appearing here are array indices and parsed decimal literals, modelled as
`Nat`/`Int`.
-/

namespace WebglPlay

/-- Token kinds of the GLSL tokenizer.  The tokenizer source
(`js/glsl/tokenizer.js`) is not under `src/`; only the token-kind constants
`Tn.T_*` referenced by `builtins.js` are modelled, as an enumeration (their
numeric values are only used as distinct dictionary keys). -/
inductive Tok where
  | T_VOID | T_FLOAT | T_INT | T_BOOL
  | T_VEC2 | T_VEC3 | T_VEC4
  | T_BVEC2 | T_BVEC3 | T_BVEC4
  | T_IVEC2 | T_IVEC3 | T_IVEC4
  | T_MAT2 | T_MAT3 | T_MAT4
  | T_SAMPLER2D | T_SAMPLERCUBE
  | T_PLUS | T_DASH | T_STAR | T_SLASH
  | T_LEFT_ANGLE_OP | T_RIGHT_ANGLE | T_LE_OP | T_GE_OP
  | T_EQ_OP | T_NE_OP
  | T_AND_OP | T_OR_OP | T_XOR_OP
  | T_DEC_OP | T_INC_OP | T_BANG
  deriving DecidableEq

open Tok

/-- Modelled from the spec: `dtn.token_name` of the (missing) tokenizer
returns the textual name of an operator token, used by `builtins.js` when it
concatenates operator signatures ("the textual operator/function name",
spec §3; relational operators are `<`, `>`, `<=`, `>=`, equality `==`, `!=`,
logical `&&`, `||`, `^^`). -/
def token_name : Tok → String
  | T_PLUS => "+"
  | T_DASH => "-"
  | T_STAR => "*"
  | T_SLASH => "/"
  | T_LEFT_ANGLE_OP => "<"
  | T_RIGHT_ANGLE => ">"
  | T_LE_OP => "<="
  | T_GE_OP => ">="
  | T_EQ_OP => "=="
  | T_NE_OP => "!="
  | T_AND_OP => "&&"
  | T_OR_OP => "||"
  | T_XOR_OP => "^^"
  | T_DEC_OP => "--"
  | T_INC_OP => "++"
  | T_BANG => "!"
  | _ => "undefined"

/-- `Type._is_vec` of builtins.js. -/
def Type_is_vec : Tok → Bool
  | T_VEC2 | T_VEC3 | T_VEC4
  | T_BVEC2 | T_BVEC3 | T_BVEC4
  | T_IVEC2 | T_IVEC3 | T_IVEC4 => true
  | _ => false

/-- `Type._is_mat` of builtins.js. -/
def Type_is_mat : Tok → Bool
  | T_MAT2 | T_MAT3 | T_MAT4 => true
  | _ => false

/-- `Type._is_scalar` of builtins.js. -/
def Type_is_scalar : Tok → Bool
  | T_FLOAT | T_INT | T_BOOL => true
  | _ => false

/-- `Type._is_int` of builtins.js. -/
def Type_is_int : Tok → Bool
  | T_INT | T_IVEC2 | T_IVEC3 | T_IVEC4 => true
  | _ => false

/-- `Type._is_bool` of builtins.js. -/
def Type_is_bool : Tok → Bool
  | T_BOOL | T_BVEC2 | T_BVEC3 | T_BVEC4 => true
  | _ => false

/-- `Type._is_float` of builtins.js. -/
def Type_is_float : Tok → Bool
  | T_FLOAT | T_VEC2 | T_VEC3 | T_VEC4
  | T_MAT2 | T_MAT3 | T_MAT4 => true
  | _ => false

/-- `Type._length` of builtins.js (default branch returns 0). -/
def Type_length : Tok → Nat
  | T_FLOAT | T_INT | T_BOOL => 1
  | T_VEC2 | T_IVEC2 | T_BVEC2 | T_MAT2 => 2
  | T_VEC3 | T_IVEC3 | T_BVEC3 | T_MAT3 => 3
  | T_VEC4 | T_IVEC4 | T_BVEC4 | T_MAT4 => 4
  | _ => 0

/-- `Type._name` of builtins.js; falls off the switch (JavaScript
`undefined`, modelled as `none`) on non-type tokens. -/
def Type_name : Tok → Option String
  | T_VOID => some "void"
  | T_FLOAT => some "float"
  | T_INT => some "int"
  | T_BOOL => some "bool"
  | T_VEC2 => some "vec2"
  | T_VEC3 => some "vec3"
  | T_VEC4 => some "vec4"
  | T_BVEC2 => some "bvec2"
  | T_BVEC3 => some "bvec3"
  | T_BVEC4 => some "bvec4"
  | T_IVEC2 => some "ivec2"
  | T_IVEC3 => some "ivec3"
  | T_IVEC4 => some "ivec4"
  | T_MAT2 => some "mat2"
  | T_MAT3 => some "mat3"
  | T_MAT4 => some "mat4"
  | T_SAMPLER2D => some "sampler2D"
  | T_SAMPLERCUBE => some "samplerCube"
  | _ => none

/-- The builtin `Type` node of builtins.js (the fields its constructor
assigns; AST bookkeeping fields such as `incomplete = false` and
`is_builtin = true` are constants and omitted). -/
structure Ty where
  id : Tok
  name : Option String
  is_scalar : Bool
  is_vec : Bool
  is_mat : Bool
  is_int : Bool
  is_float : Bool
  is_bool : Bool
  length : Nat
  deriving DecidableEq

/-- The `Type` constructor of builtins.js. -/
def mkType (id : Tok) : Ty :=
  { id := id
    name := Type_name id
    is_scalar := Type_is_scalar id
    is_vec := Type_is_vec id
    is_mat := Type_is_mat id
    is_int := Type_is_int id
    is_float := Type_is_float id
    is_bool := Type_is_bool id
    length := Type_length id }

/-- JavaScript string coercion of a possibly-`undefined` type name
(`undefined` prints as "undefined"); in the modelled builds the name is
always present. -/
def tyName (t : Tok) : String := (Type_name t).getD "undefined"

/-- A builtin function prototype as registered by `define_builtin_function`:
return type, name, and the parameter list (type token paired with the
parameter name, the stride-2 JavaScript array reshaped into pairs). -/
structure BFunc where
  name : String
  ret : Tok
  params : List (Tok × String)
  deriving DecidableEq

/-- Modelled from the spec: `FunctionHeader.signature()` of the (missing)
`js/glsl/ast.js` — "concatenating the textual operator/function name with
the comma-joined parameter type names, e.g. `sin(float)`" (spec §3). -/
def fnSig (name : String) (ptypes : List Tok) : String :=
  name ++ "(" ++ String.intercalate "," (ptypes.map tyName) ++ ")"

/-- The signature of a registered builtin function. -/
def sigOfFn (f : BFunc) : String := fnSig f.name (f.params.map Prod.fst)

/-- The `Operator` objects of builtins.js: binary registrations set
`ret`/`lhs`/`rhs`, unary registrations set `ret`/`expr`; absent JavaScript
fields are `none`. -/
structure Operator where
  op : Tok
  ret : Ty
  lhs : Option Ty := none
  rhs : Option Ty := none
  expr : Option Ty := none
  deriving DecidableEq

/-- JavaScript `o.lhs.name` style access with `undefined` coercion. -/
def optTyName (t : Option Ty) : String := ((t.bind Ty.name).getD "undefined")

/-- Signature string of a binary operator entry
(`dtn.token_name(op) + '(' + o.lhs.name + ',' + o.rhs.name + ')'`). -/
def binOpSig (o : Operator) : String :=
  token_name o.op ++ "(" ++ optTyName o.lhs ++ "," ++ optTyName o.rhs ++ ")"

/-- Signature string of a unary operator entry
(`dtn.token_name(op) + '(' + o.expr.name + ')'`). -/
def unOpSig (o : Operator) : String :=
  token_name o.op ++ "(" ++ optTyName o.expr ++ ")"

/-- JavaScript property assignment `m[k] = v` on a string-keyed object:
overwrites an existing binding in place, otherwise appends. -/
def setk (k : String) (v : Operator) : List (String × Operator) → List (String × Operator)
  | [] => [(k, v)]
  | (k2, v2) :: rest => if k2 = k then (k, v) :: rest else (k2, v2) :: setk k v rest

/-- The catalogue state of builtins.js: `exports.Functions`,
`exports.FunctionMap`, `exports.Operators`, `exports.OperatorMap`
(the `Types`/`TypeMap` tables are total over the 18 builtin type tokens and
are inlined as `mkType`). -/
structure Catalogue where
  Functions : List BFunc
  FunctionMap : List (String × BFunc)
  Operators : List Operator
  OperatorMap : List (String × Operator)
  deriving DecidableEq

/-- The catalogue after `Type._create_builtin` and before any
function/operator registration. -/
def initCatalogue : Catalogue :=
  { Functions := [], FunctionMap := [], Operators := [], OperatorMap := [] }

/-- `define_builtin_function` of builtins.js: builds the signature from the
parameter types, returns unchanged ("first registration wins") when the
signature is already in `FunctionMap`, else appends to `Functions` and binds
the signature in `FunctionMap`. -/
def define_builtin_function (rettype : Tok) (name : String)
    (params : List (Tok × String)) (st : Catalogue) : Catalogue :=
  let sig := fnSig name (params.map Prod.fst)
  if (st.FunctionMap.lookup sig).isSome then st
  else
    let f : BFunc := { name := name, ret := rettype, params := params }
    { st with Functions := st.Functions ++ [f],
              FunctionMap := st.FunctionMap ++ [(sig, f)] }

/-- `define_builtin_function_gen` of builtins.js: for each generic type `g`,
substitutes `g` for every `null` parameter slot and for a `null` return
type, then registers the instance. -/
def define_builtin_function_gen (gentypes : List Tok) (rettype : Option Tok)
    (name : String) (params : List (Option Tok × String)) (st : Catalogue) : Catalogue :=
  gentypes.foldl (fun st g =>
    define_builtin_function (rettype.getD g) name
      (params.map (fun p => (p.1.getD g, p.2))) st) st

/-- `define_builtin_gentype_function` of builtins.js: gentype expansion over
float/vec2/vec3/vec4. -/
def define_builtin_gentype_function (rettype : Option Tok) (name : String)
    (params : List (Option Tok × String)) (st : Catalogue) : Catalogue :=
  define_builtin_function_gen [T_FLOAT, T_VEC2, T_VEC3, T_VEC4] rettype name params st

/-- `define_builtin_mat_function` of builtins.js: expansion over
mat2/mat3/mat4. -/
def define_builtin_mat_function (rettype : Option Tok) (name : String)
    (params : List (Option Tok × String)) (st : Catalogue) : Catalogue :=
  define_builtin_function_gen [T_MAT2, T_MAT3, T_MAT4] rettype name params st

/-- The three relational-vector families of builtins.js's `vmap`. -/
inductive Fam where
  | bvec | vec | ivec
  deriving DecidableEq

/-- builtins.js `vmap`: family and arity index to concrete vector token. -/
def vmap (f : Fam) : List Tok :=
  match f with
  | Fam.bvec => [T_BVEC2, T_BVEC3, T_BVEC4]
  | Fam.vec => [T_VEC2, T_VEC3, T_VEC4]
  | Fam.ivec => [T_IVEC2, T_IVEC3, T_IVEC4]

/-- A return/parameter type spec of `define_builtin_relvec_function`: either
a family name string found in `vmap` or a concrete type token (the
JavaScript `p in vmap` test). -/
inductive RV where
  | fam (f : Fam)
  | tok (t : Tok)
  deriving DecidableEq

/-- Resolving a relvec type spec at arity index `i`
(`vmap[p][i]` when the spec names a family, otherwise unchanged). -/
def resolveRV (rv : RV) (i : Nat) : Tok :=
  match rv with
  | RV.fam f => ((vmap f).get? i).getD T_VOID
  | RV.tok t => t

/-- `define_builtin_relvec_function` of builtins.js: for arity indices
0, 1, 2 substitutes every family marker (return and parameter slots) by the
member of its own family at that index, then registers the instance. -/
def define_builtin_relvec_function (rettype : RV) (name : String)
    (params : List (RV × String)) (st : Catalogue) : Catalogue :=
  (List.range 3).foldl (fun st i =>
    define_builtin_function (resolveRV rettype i) name
      (params.map (fun p => (resolveRV p.1 i, p.2))) st) st

/-- One generated binary operator entry of
`define_builtin_bin_operator_gen`: `null` return/lhs/rhs default to the
generated operand type `g`. -/
def mkBinOp (rettype : Option Tok) (op : Tok) (lhs rhs : Option Tok) (g : Tok) : Operator :=
  { op := op
    ret := mkType (rettype.getD g)
    lhs := some (mkType (lhs.getD g))
    rhs := some (mkType (rhs.getD g)) }

/-- `define_builtin_bin_operator_gen` of builtins.js: for every operator
token and every generated operand type it unconditionally pushes a new entry
onto `Operators` and assigns `OperatorMap[sig]` (no duplicate check:
overwrites an existing binding). -/
def define_builtin_bin_operator_gen (rettype : Option Tok) (optypes : List Tok)
    (lhs rhs : Option Tok) (gens : List Tok) (st : Catalogue) : Catalogue :=
  let news := (optypes.map (fun op => gens.map (mkBinOp rettype op lhs rhs))).flatten
  { st with Operators := st.Operators ++ news,
            OperatorMap := news.foldl (fun m o => setk (binOpSig o) o m) st.OperatorMap }

/-- One generated unary operator entry of
`define_builtin_unary_operator_gen`. -/
def mkUnOp (rettype : Option Tok) (op : Tok) (expr : Option Tok) (g : Tok) : Operator :=
  { op := op
    ret := mkType (rettype.getD g)
    expr := some (mkType (expr.getD g)) }

/-- `define_builtin_unary_operator_gen` of builtins.js: same appending
behaviour as the binary form, keyed by the single operand type. -/
def define_builtin_unary_operator_gen (rettype : Option Tok) (optypes : List Tok)
    (expr : Option Tok) (gens : List Tok) (st : Catalogue) : Catalogue :=
  let news := (optypes.map (fun op => gens.map (mkUnOp rettype op expr))).flatten
  { st with Operators := st.Operators ++ news,
            OperatorMap := news.foldl (fun m o => setk (unOpSig o) o m) st.OperatorMap }

/-- One top-level registration statement of builtins.js (lines 2411-2573),
as data so the build can be quantified over. -/
inductive Call where
  | gentype (rt : Option Tok) (name : String) (ps : List (Option Tok × String))
  | matfn (rt : Option Tok) (name : String) (ps : List (Option Tok × String))
  | relvec (rt : RV) (name : String) (ps : List (RV × String))
  | fn (rt : Tok) (name : String) (ps : List (Tok × String))
  | binop (rt : Option Tok) (ots : List Tok) (lhs rhs : Option Tok) (gens : List Tok)
  | unop (rt : Option Tok) (ots : List Tok) (expr : Option Tok) (gens : List Tok)
  deriving DecidableEq

/-- Executing one registration statement. -/
def execCall (st : Catalogue) : Call → Catalogue
  | Call.gentype rt name ps => define_builtin_gentype_function rt name ps st
  | Call.matfn rt name ps => define_builtin_mat_function rt name ps st
  | Call.relvec rt name ps => define_builtin_relvec_function rt name ps st
  | Call.fn rt name ps => define_builtin_function rt name ps st
  | Call.binop rt ots lhs rhs gens => define_builtin_bin_operator_gen rt ots lhs rhs gens st
  | Call.unop rt ots expr gens => define_builtin_unary_operator_gen rt ots expr gens st

/-- The registration statements of builtins.js lines 2411-2573, in source
order (including the duplicated `T_MAT3` in the scalar-by-matrix gens lists
at lines 2514 and 2520, exactly as written). -/
def buildCalls : List Call := [
  Call.gentype none "radians" [(none, "degrees")],
  Call.gentype none "degrees" [(none, "radians")],
  Call.gentype none "sin" [(none, "angle")],
  Call.gentype none "cos" [(none, "angle")],
  Call.gentype none "tan" [(none, "angle")],
  Call.gentype none "asin" [(none, "x")],
  Call.gentype none "acos" [(none, "x")],
  Call.gentype none "atan" [(none, "y"), (none, "x")],
  Call.gentype none "atan" [(none, "y_over_x")],
  Call.gentype none "pow" [(none, "x"), (none, "y")],
  Call.gentype none "exp" [(none, "x")],
  Call.gentype none "log" [(none, "x")],
  Call.gentype none "exp2" [(none, "x")],
  Call.gentype none "log2" [(none, "x")],
  Call.gentype none "sqrt" [(none, "x")],
  Call.gentype none "inversesqrt" [(none, "x")],
  Call.gentype none "abs" [(none, "x")],
  Call.gentype none "sign" [(none, "x")],
  Call.gentype none "floor" [(none, "x")],
  Call.gentype none "ceil" [(none, "x")],
  Call.gentype none "fract" [(none, "x")],
  Call.gentype none "mod" [(none, "x"), (none, "y")],
  Call.gentype none "min" [(none, "x"), (none, "y")],
  Call.gentype none "min" [(none, "x"), (some T_FLOAT, "y")],
  Call.gentype none "max" [(none, "x"), (none, "y")],
  Call.gentype none "max" [(none, "x"), (some T_FLOAT, "y")],
  Call.gentype none "clamp" [(none, "x"), (none, "minVal"), (none, "maxVal")],
  Call.gentype none "clamp" [(none, "x"), (some T_FLOAT, "minVal"), (some T_FLOAT, "maxVal")],
  Call.gentype none "mix" [(none, "x"), (none, "y"), (none, "a")],
  Call.gentype none "mix" [(none, "x"), (none, "y"), (some T_FLOAT, "a")],
  Call.gentype none "step" [(none, "edge"), (none, "x")],
  Call.gentype none "step" [(some T_FLOAT, "edge"), (none, "x")],
  Call.gentype none "smoothstep" [(none, "edge0"), (none, "edge1"), (none, "x")],
  Call.gentype none "smoothstep" [(some T_FLOAT, "edge0"), (some T_FLOAT, "edge1"), (none, "x")],
  Call.gentype (some T_FLOAT) "length" [(none, "x")],
  Call.gentype (some T_FLOAT) "distance" [(none, "p0"), (none, "p1")],
  Call.gentype (some T_FLOAT) "dot" [(none, "x"), (none, "y")],
  Call.fn T_VEC3 "cross" [(T_VEC3, "x"), (T_VEC3, "y")],
  Call.gentype none "normalize" [(none, "x")],
  Call.gentype none "faceforward" [(none, "N"), (none, "I"), (none, "Nref")],
  Call.gentype none "reflect" [(none, "I"), (none, "N")],
  Call.gentype none "refract" [(none, "I"), (none, "N"), (some T_FLOAT, "eta")],
  Call.matfn none "matrixCompMult" [(none, "x"), (none, "y")],
  Call.relvec (RV.fam Fam.bvec) "lessThan" [(RV.fam Fam.vec, "x"), (RV.fam Fam.vec, "y")],
  Call.relvec (RV.fam Fam.bvec) "lessThan" [(RV.fam Fam.ivec, "x"), (RV.fam Fam.ivec, "y")],
  Call.relvec (RV.fam Fam.bvec) "lessThanEqual" [(RV.fam Fam.vec, "x"), (RV.fam Fam.vec, "y")],
  Call.relvec (RV.fam Fam.bvec) "lessThanEqual" [(RV.fam Fam.ivec, "x"), (RV.fam Fam.ivec, "y")],
  Call.relvec (RV.fam Fam.bvec) "greaterThan" [(RV.fam Fam.vec, "x"), (RV.fam Fam.vec, "y")],
  Call.relvec (RV.fam Fam.bvec) "greaterThan" [(RV.fam Fam.ivec, "x"), (RV.fam Fam.ivec, "y")],
  Call.relvec (RV.fam Fam.bvec) "greaterThanEqual" [(RV.fam Fam.vec, "x"), (RV.fam Fam.vec, "y")],
  Call.relvec (RV.fam Fam.bvec) "greaterThanEqual" [(RV.fam Fam.ivec, "x"), (RV.fam Fam.ivec, "y")],
  Call.relvec (RV.fam Fam.bvec) "equal" [(RV.fam Fam.vec, "x"), (RV.fam Fam.vec, "y")],
  Call.relvec (RV.fam Fam.bvec) "equal" [(RV.fam Fam.ivec, "x"), (RV.fam Fam.ivec, "y")],
  Call.relvec (RV.fam Fam.bvec) "notEqual" [(RV.fam Fam.vec, "x"), (RV.fam Fam.vec, "y")],
  Call.relvec (RV.fam Fam.bvec) "notEqual" [(RV.fam Fam.ivec, "x"), (RV.fam Fam.ivec, "y")],
  Call.relvec (RV.fam Fam.bvec) "notEqual" [(RV.fam Fam.bvec, "x"), (RV.fam Fam.bvec, "y")],
  Call.relvec (RV.tok T_BOOL) "any" [(RV.fam Fam.bvec, "x")],
  Call.relvec (RV.tok T_BOOL) "all" [(RV.fam Fam.bvec, "x")],
  Call.relvec (RV.fam Fam.bvec) "not" [(RV.fam Fam.bvec, "x")],
  Call.fn T_VEC4 "texture2D" [(T_SAMPLER2D, "sampler"), (T_VEC2, "coord")],
  Call.fn T_VEC4 "texture2D" [(T_SAMPLER2D, "sampler"), (T_VEC2, "coord"), (T_FLOAT, "bias")],
  Call.fn T_VEC4 "texture2DProj" [(T_SAMPLER2D, "sampler"), (T_VEC3, "coord")],
  Call.fn T_VEC4 "texture2DProj" [(T_SAMPLER2D, "sampler"), (T_VEC3, "coord"), (T_FLOAT, "bias")],
  Call.fn T_VEC4 "texture2DProj" [(T_SAMPLER2D, "sampler"), (T_VEC4, "coord")],
  Call.fn T_VEC4 "texture2DProj" [(T_SAMPLER2D, "sampler"), (T_VEC4, "coord"), (T_FLOAT, "bias")],
  Call.fn T_VEC4 "texture2DLod" [(T_SAMPLER2D, "sampler"), (T_VEC2, "coord"), (T_FLOAT, "lod")],
  Call.fn T_VEC4 "texture2DProjLod" [(T_SAMPLER2D, "sampler"), (T_VEC3, "coord"), (T_FLOAT, "lod")],
  Call.fn T_VEC4 "texture2DProjLod" [(T_SAMPLER2D, "sampler"), (T_VEC4, "coord"), (T_FLOAT, "lod")],
  Call.fn T_VEC4 "textureCube" [(T_SAMPLERCUBE, "sampler"), (T_VEC3, "coord")],
  Call.fn T_VEC4 "textureCube" [(T_SAMPLERCUBE, "sampler"), (T_VEC3, "coord"), (T_FLOAT, "bias")],
  Call.fn T_VEC4 "textureCubeLod" [(T_SAMPLERCUBE, "sampler"), (T_VEC3, "coord"), (T_FLOAT, "lod")],
  Call.binop none [T_PLUS, T_DASH, T_STAR, T_SLASH] none none
    [T_INT, T_FLOAT, T_VEC2, T_VEC3, T_VEC4, T_MAT2, T_MAT3, T_MAT4, T_IVEC2, T_IVEC3, T_IVEC4],
  Call.binop none [T_PLUS, T_DASH, T_STAR, T_SLASH] (some T_FLOAT) none
    [T_VEC2, T_VEC3, T_VEC4, T_MAT2, T_MAT3, T_MAT3],
  Call.binop none [T_PLUS, T_DASH, T_STAR, T_SLASH] none (some T_FLOAT)
    [T_VEC2, T_VEC3, T_VEC4, T_MAT2, T_MAT3, T_MAT3],
  Call.binop none [T_PLUS, T_DASH, T_STAR, T_SLASH] (some T_INT) none
    [T_IVEC2, T_IVEC3, T_IVEC4],
  Call.binop none [T_PLUS, T_DASH, T_STAR, T_SLASH] none (some T_INT)
    [T_IVEC2, T_IVEC3, T_IVEC4],
  Call.binop none [T_STAR] (some T_MAT2) none [T_VEC2],
  Call.binop none [T_STAR] (some T_MAT3) none [T_VEC3],
  Call.binop none [T_STAR] (some T_MAT4) none [T_VEC4],
  Call.binop none [T_STAR] (some T_VEC2) none [T_MAT2],
  Call.binop none [T_STAR] (some T_VEC3) none [T_MAT3],
  Call.binop none [T_STAR] (some T_VEC4) none [T_MAT4],
  Call.binop (some T_BOOL) [T_LEFT_ANGLE_OP, T_RIGHT_ANGLE, T_LE_OP, T_GE_OP] none none
    [T_FLOAT, T_INT],
  Call.binop (some T_BOOL) [T_EQ_OP, T_NE_OP] none none
    [T_INT, T_FLOAT, T_BOOL, T_VEC2, T_VEC3, T_VEC4, T_MAT2, T_MAT3, T_MAT4, T_IVEC2, T_IVEC3, T_IVEC4],
  Call.binop none [T_AND_OP, T_OR_OP, T_XOR_OP] none none [T_BOOL],
  Call.unop none [T_DASH, T_DEC_OP, T_INC_OP] none
    [T_INT, T_FLOAT, T_VEC2, T_VEC3, T_VEC4, T_MAT2, T_MAT3, T_MAT4, T_IVEC2, T_IVEC3, T_IVEC4],
  Call.unop none [T_BANG] none [T_BOOL]]

/-- The builtin catalogue built exactly once at load of builtins.js. -/
def builtins : Catalogue := buildCalls.foldl execCall initCatalogue

/-- Chunk 0 of `FunctionsList` (split to keep list literals small). -/
def FunctionsList_0 : List BFunc :=
  [{ name := "radians", ret := T_FLOAT, params := [(T_FLOAT, "degrees")] },
   { name := "radians", ret := T_VEC2, params := [(T_VEC2, "degrees")] },
   { name := "radians", ret := T_VEC3, params := [(T_VEC3, "degrees")] },
   { name := "radians", ret := T_VEC4, params := [(T_VEC4, "degrees")] },
   { name := "degrees", ret := T_FLOAT, params := [(T_FLOAT, "radians")] },
   { name := "degrees", ret := T_VEC2, params := [(T_VEC2, "radians")] },
   { name := "degrees", ret := T_VEC3, params := [(T_VEC3, "radians")] },
   { name := "degrees", ret := T_VEC4, params := [(T_VEC4, "radians")] },
   { name := "sin", ret := T_FLOAT, params := [(T_FLOAT, "angle")] },
   { name := "sin", ret := T_VEC2, params := [(T_VEC2, "angle")] },
   { name := "sin", ret := T_VEC3, params := [(T_VEC3, "angle")] },
   { name := "sin", ret := T_VEC4, params := [(T_VEC4, "angle")] },
   { name := "cos", ret := T_FLOAT, params := [(T_FLOAT, "angle")] },
   { name := "cos", ret := T_VEC2, params := [(T_VEC2, "angle")] },
   { name := "cos", ret := T_VEC3, params := [(T_VEC3, "angle")] },
   { name := "cos", ret := T_VEC4, params := [(T_VEC4, "angle")] },
   { name := "tan", ret := T_FLOAT, params := [(T_FLOAT, "angle")] },
   { name := "tan", ret := T_VEC2, params := [(T_VEC2, "angle")] },
   { name := "tan", ret := T_VEC3, params := [(T_VEC3, "angle")] },
   { name := "tan", ret := T_VEC4, params := [(T_VEC4, "angle")] },
   { name := "asin", ret := T_FLOAT, params := [(T_FLOAT, "x")] },
   { name := "asin", ret := T_VEC2, params := [(T_VEC2, "x")] },
   { name := "asin", ret := T_VEC3, params := [(T_VEC3, "x")] },
   { name := "asin", ret := T_VEC4, params := [(T_VEC4, "x")] },
   { name := "acos", ret := T_FLOAT, params := [(T_FLOAT, "x")] },
   { name := "acos", ret := T_VEC2, params := [(T_VEC2, "x")] },
   { name := "acos", ret := T_VEC3, params := [(T_VEC3, "x")] },
   { name := "acos", ret := T_VEC4, params := [(T_VEC4, "x")] },
   { name := "atan", ret := T_FLOAT, params := [(T_FLOAT, "y"), (T_FLOAT, "x")] },
   { name := "atan", ret := T_VEC2, params := [(T_VEC2, "y"), (T_VEC2, "x")] },
   { name := "atan", ret := T_VEC3, params := [(T_VEC3, "y"), (T_VEC3, "x")] },
   { name := "atan", ret := T_VEC4, params := [(T_VEC4, "y"), (T_VEC4, "x")] },
   { name := "atan", ret := T_FLOAT, params := [(T_FLOAT, "y_over_x")] },
   { name := "atan", ret := T_VEC2, params := [(T_VEC2, "y_over_x")] },
   { name := "atan", ret := T_VEC3, params := [(T_VEC3, "y_over_x")] },
   { name := "atan", ret := T_VEC4, params := [(T_VEC4, "y_over_x")] },
   { name := "pow", ret := T_FLOAT, params := [(T_FLOAT, "x"), (T_FLOAT, "y")] },
   { name := "pow", ret := T_VEC2, params := [(T_VEC2, "x"), (T_VEC2, "y")] },
   { name := "pow", ret := T_VEC3, params := [(T_VEC3, "x"), (T_VEC3, "y")] },
   { name := "pow", ret := T_VEC4, params := [(T_VEC4, "x"), (T_VEC4, "y")] }]

/-- Chunk 1 of `FunctionsList` (split to keep list literals small). -/
def FunctionsList_1 : List BFunc :=
  [{ name := "exp", ret := T_FLOAT, params := [(T_FLOAT, "x")] },
   { name := "exp", ret := T_VEC2, params := [(T_VEC2, "x")] },
   { name := "exp", ret := T_VEC3, params := [(T_VEC3, "x")] },
   { name := "exp", ret := T_VEC4, params := [(T_VEC4, "x")] },
   { name := "log", ret := T_FLOAT, params := [(T_FLOAT, "x")] },
   { name := "log", ret := T_VEC2, params := [(T_VEC2, "x")] },
   { name := "log", ret := T_VEC3, params := [(T_VEC3, "x")] },
   { name := "log", ret := T_VEC4, params := [(T_VEC4, "x")] },
   { name := "exp2", ret := T_FLOAT, params := [(T_FLOAT, "x")] },
   { name := "exp2", ret := T_VEC2, params := [(T_VEC2, "x")] },
   { name := "exp2", ret := T_VEC3, params := [(T_VEC3, "x")] },
   { name := "exp2", ret := T_VEC4, params := [(T_VEC4, "x")] },
   { name := "log2", ret := T_FLOAT, params := [(T_FLOAT, "x")] },
   { name := "log2", ret := T_VEC2, params := [(T_VEC2, "x")] },
   { name := "log2", ret := T_VEC3, params := [(T_VEC3, "x")] },
   { name := "log2", ret := T_VEC4, params := [(T_VEC4, "x")] },
   { name := "sqrt", ret := T_FLOAT, params := [(T_FLOAT, "x")] },
   { name := "sqrt", ret := T_VEC2, params := [(T_VEC2, "x")] },
   { name := "sqrt", ret := T_VEC3, params := [(T_VEC3, "x")] },
   { name := "sqrt", ret := T_VEC4, params := [(T_VEC4, "x")] },
   { name := "inversesqrt", ret := T_FLOAT, params := [(T_FLOAT, "x")] },
   { name := "inversesqrt", ret := T_VEC2, params := [(T_VEC2, "x")] },
   { name := "inversesqrt", ret := T_VEC3, params := [(T_VEC3, "x")] },
   { name := "inversesqrt", ret := T_VEC4, params := [(T_VEC4, "x")] },
   { name := "abs", ret := T_FLOAT, params := [(T_FLOAT, "x")] },
   { name := "abs", ret := T_VEC2, params := [(T_VEC2, "x")] },
   { name := "abs", ret := T_VEC3, params := [(T_VEC3, "x")] },
   { name := "abs", ret := T_VEC4, params := [(T_VEC4, "x")] },
   { name := "sign", ret := T_FLOAT, params := [(T_FLOAT, "x")] },
   { name := "sign", ret := T_VEC2, params := [(T_VEC2, "x")] },
   { name := "sign", ret := T_VEC3, params := [(T_VEC3, "x")] },
   { name := "sign", ret := T_VEC4, params := [(T_VEC4, "x")] },
   { name := "floor", ret := T_FLOAT, params := [(T_FLOAT, "x")] },
   { name := "floor", ret := T_VEC2, params := [(T_VEC2, "x")] },
   { name := "floor", ret := T_VEC3, params := [(T_VEC3, "x")] },
   { name := "floor", ret := T_VEC4, params := [(T_VEC4, "x")] },
   { name := "ceil", ret := T_FLOAT, params := [(T_FLOAT, "x")] },
   { name := "ceil", ret := T_VEC2, params := [(T_VEC2, "x")] },
   { name := "ceil", ret := T_VEC3, params := [(T_VEC3, "x")] },
   { name := "ceil", ret := T_VEC4, params := [(T_VEC4, "x")] }]

/-- Chunk 2 of `FunctionsList` (split to keep list literals small). -/
def FunctionsList_2 : List BFunc :=
  [{ name := "fract", ret := T_FLOAT, params := [(T_FLOAT, "x")] },
   { name := "fract", ret := T_VEC2, params := [(T_VEC2, "x")] },
   { name := "fract", ret := T_VEC3, params := [(T_VEC3, "x")] },
   { name := "fract", ret := T_VEC4, params := [(T_VEC4, "x")] },
   { name := "mod", ret := T_FLOAT, params := [(T_FLOAT, "x"), (T_FLOAT, "y")] },
   { name := "mod", ret := T_VEC2, params := [(T_VEC2, "x"), (T_VEC2, "y")] },
   { name := "mod", ret := T_VEC3, params := [(T_VEC3, "x"), (T_VEC3, "y")] },
   { name := "mod", ret := T_VEC4, params := [(T_VEC4, "x"), (T_VEC4, "y")] },
   { name := "min", ret := T_FLOAT, params := [(T_FLOAT, "x"), (T_FLOAT, "y")] },
   { name := "min", ret := T_VEC2, params := [(T_VEC2, "x"), (T_VEC2, "y")] },
   { name := "min", ret := T_VEC3, params := [(T_VEC3, "x"), (T_VEC3, "y")] },
   { name := "min", ret := T_VEC4, params := [(T_VEC4, "x"), (T_VEC4, "y")] },
   { name := "min", ret := T_VEC2, params := [(T_VEC2, "x"), (T_FLOAT, "y")] },
   { name := "min", ret := T_VEC3, params := [(T_VEC3, "x"), (T_FLOAT, "y")] },
   { name := "min", ret := T_VEC4, params := [(T_VEC4, "x"), (T_FLOAT, "y")] },
   { name := "max", ret := T_FLOAT, params := [(T_FLOAT, "x"), (T_FLOAT, "y")] },
   { name := "max", ret := T_VEC2, params := [(T_VEC2, "x"), (T_VEC2, "y")] },
   { name := "max", ret := T_VEC3, params := [(T_VEC3, "x"), (T_VEC3, "y")] },
   { name := "max", ret := T_VEC4, params := [(T_VEC4, "x"), (T_VEC4, "y")] },
   { name := "max", ret := T_VEC2, params := [(T_VEC2, "x"), (T_FLOAT, "y")] },
   { name := "max", ret := T_VEC3, params := [(T_VEC3, "x"), (T_FLOAT, "y")] },
   { name := "max", ret := T_VEC4, params := [(T_VEC4, "x"), (T_FLOAT, "y")] },
   { name := "clamp", ret := T_FLOAT, params := [(T_FLOAT, "x"), (T_FLOAT, "minVal"), (T_FLOAT, "maxVal")] },
   { name := "clamp", ret := T_VEC2, params := [(T_VEC2, "x"), (T_VEC2, "minVal"), (T_VEC2, "maxVal")] },
   { name := "clamp", ret := T_VEC3, params := [(T_VEC3, "x"), (T_VEC3, "minVal"), (T_VEC3, "maxVal")] },
   { name := "clamp", ret := T_VEC4, params := [(T_VEC4, "x"), (T_VEC4, "minVal"), (T_VEC4, "maxVal")] },
   { name := "clamp", ret := T_VEC2, params := [(T_VEC2, "x"), (T_FLOAT, "minVal"), (T_FLOAT, "maxVal")] },
   { name := "clamp", ret := T_VEC3, params := [(T_VEC3, "x"), (T_FLOAT, "minVal"), (T_FLOAT, "maxVal")] },
   { name := "clamp", ret := T_VEC4, params := [(T_VEC4, "x"), (T_FLOAT, "minVal"), (T_FLOAT, "maxVal")] },
   { name := "mix", ret := T_FLOAT, params := [(T_FLOAT, "x"), (T_FLOAT, "y"), (T_FLOAT, "a")] },
   { name := "mix", ret := T_VEC2, params := [(T_VEC2, "x"), (T_VEC2, "y"), (T_VEC2, "a")] },
   { name := "mix", ret := T_VEC3, params := [(T_VEC3, "x"), (T_VEC3, "y"), (T_VEC3, "a")] },
   { name := "mix", ret := T_VEC4, params := [(T_VEC4, "x"), (T_VEC4, "y"), (T_VEC4, "a")] },
   { name := "mix", ret := T_VEC2, params := [(T_VEC2, "x"), (T_VEC2, "y"), (T_FLOAT, "a")] },
   { name := "mix", ret := T_VEC3, params := [(T_VEC3, "x"), (T_VEC3, "y"), (T_FLOAT, "a")] },
   { name := "mix", ret := T_VEC4, params := [(T_VEC4, "x"), (T_VEC4, "y"), (T_FLOAT, "a")] },
   { name := "step", ret := T_FLOAT, params := [(T_FLOAT, "edge"), (T_FLOAT, "x")] },
   { name := "step", ret := T_VEC2, params := [(T_VEC2, "edge"), (T_VEC2, "x")] },
   { name := "step", ret := T_VEC3, params := [(T_VEC3, "edge"), (T_VEC3, "x")] },
   { name := "step", ret := T_VEC4, params := [(T_VEC4, "edge"), (T_VEC4, "x")] }]

/-- Chunk 3 of `FunctionsList` (split to keep list literals small). -/
def FunctionsList_3 : List BFunc :=
  [{ name := "step", ret := T_VEC2, params := [(T_FLOAT, "edge"), (T_VEC2, "x")] },
   { name := "step", ret := T_VEC3, params := [(T_FLOAT, "edge"), (T_VEC3, "x")] },
   { name := "step", ret := T_VEC4, params := [(T_FLOAT, "edge"), (T_VEC4, "x")] },
   { name := "smoothstep", ret := T_FLOAT, params := [(T_FLOAT, "edge0"), (T_FLOAT, "edge1"), (T_FLOAT, "x")] },
   { name := "smoothstep", ret := T_VEC2, params := [(T_VEC2, "edge0"), (T_VEC2, "edge1"), (T_VEC2, "x")] },
   { name := "smoothstep", ret := T_VEC3, params := [(T_VEC3, "edge0"), (T_VEC3, "edge1"), (T_VEC3, "x")] },
   { name := "smoothstep", ret := T_VEC4, params := [(T_VEC4, "edge0"), (T_VEC4, "edge1"), (T_VEC4, "x")] },
   { name := "smoothstep", ret := T_VEC2, params := [(T_FLOAT, "edge0"), (T_FLOAT, "edge1"), (T_VEC2, "x")] },
   { name := "smoothstep", ret := T_VEC3, params := [(T_FLOAT, "edge0"), (T_FLOAT, "edge1"), (T_VEC3, "x")] },
   { name := "smoothstep", ret := T_VEC4, params := [(T_FLOAT, "edge0"), (T_FLOAT, "edge1"), (T_VEC4, "x")] },
   { name := "length", ret := T_FLOAT, params := [(T_FLOAT, "x")] },
   { name := "length", ret := T_FLOAT, params := [(T_VEC2, "x")] },
   { name := "length", ret := T_FLOAT, params := [(T_VEC3, "x")] },
   { name := "length", ret := T_FLOAT, params := [(T_VEC4, "x")] },
   { name := "distance", ret := T_FLOAT, params := [(T_FLOAT, "p0"), (T_FLOAT, "p1")] },
   { name := "distance", ret := T_FLOAT, params := [(T_VEC2, "p0"), (T_VEC2, "p1")] },
   { name := "distance", ret := T_FLOAT, params := [(T_VEC3, "p0"), (T_VEC3, "p1")] },
   { name := "distance", ret := T_FLOAT, params := [(T_VEC4, "p0"), (T_VEC4, "p1")] },
   { name := "dot", ret := T_FLOAT, params := [(T_FLOAT, "x"), (T_FLOAT, "y")] },
   { name := "dot", ret := T_FLOAT, params := [(T_VEC2, "x"), (T_VEC2, "y")] },
   { name := "dot", ret := T_FLOAT, params := [(T_VEC3, "x"), (T_VEC3, "y")] },
   { name := "dot", ret := T_FLOAT, params := [(T_VEC4, "x"), (T_VEC4, "y")] },
   { name := "cross", ret := T_VEC3, params := [(T_VEC3, "x"), (T_VEC3, "y")] },
   { name := "normalize", ret := T_FLOAT, params := [(T_FLOAT, "x")] },
   { name := "normalize", ret := T_VEC2, params := [(T_VEC2, "x")] },
   { name := "normalize", ret := T_VEC3, params := [(T_VEC3, "x")] },
   { name := "normalize", ret := T_VEC4, params := [(T_VEC4, "x")] },
   { name := "faceforward", ret := T_FLOAT, params := [(T_FLOAT, "N"), (T_FLOAT, "I"), (T_FLOAT, "Nref")] },
   { name := "faceforward", ret := T_VEC2, params := [(T_VEC2, "N"), (T_VEC2, "I"), (T_VEC2, "Nref")] },
   { name := "faceforward", ret := T_VEC3, params := [(T_VEC3, "N"), (T_VEC3, "I"), (T_VEC3, "Nref")] },
   { name := "faceforward", ret := T_VEC4, params := [(T_VEC4, "N"), (T_VEC4, "I"), (T_VEC4, "Nref")] },
   { name := "reflect", ret := T_FLOAT, params := [(T_FLOAT, "I"), (T_FLOAT, "N")] },
   { name := "reflect", ret := T_VEC2, params := [(T_VEC2, "I"), (T_VEC2, "N")] },
   { name := "reflect", ret := T_VEC3, params := [(T_VEC3, "I"), (T_VEC3, "N")] },
   { name := "reflect", ret := T_VEC4, params := [(T_VEC4, "I"), (T_VEC4, "N")] },
   { name := "refract", ret := T_FLOAT, params := [(T_FLOAT, "I"), (T_FLOAT, "N"), (T_FLOAT, "eta")] },
   { name := "refract", ret := T_VEC2, params := [(T_VEC2, "I"), (T_VEC2, "N"), (T_FLOAT, "eta")] },
   { name := "refract", ret := T_VEC3, params := [(T_VEC3, "I"), (T_VEC3, "N"), (T_FLOAT, "eta")] },
   { name := "refract", ret := T_VEC4, params := [(T_VEC4, "I"), (T_VEC4, "N"), (T_FLOAT, "eta")] },
   { name := "matrixCompMult", ret := T_MAT2, params := [(T_MAT2, "x"), (T_MAT2, "y")] }]

/-- Chunk 4 of `FunctionsList` (split to keep list literals small). -/
def FunctionsList_4 : List BFunc :=
  [{ name := "matrixCompMult", ret := T_MAT3, params := [(T_MAT3, "x"), (T_MAT3, "y")] },
   { name := "matrixCompMult", ret := T_MAT4, params := [(T_MAT4, "x"), (T_MAT4, "y")] },
   { name := "lessThan", ret := T_BVEC2, params := [(T_VEC2, "x"), (T_VEC2, "y")] },
   { name := "lessThan", ret := T_BVEC3, params := [(T_VEC3, "x"), (T_VEC3, "y")] },
   { name := "lessThan", ret := T_BVEC4, params := [(T_VEC4, "x"), (T_VEC4, "y")] },
   { name := "lessThan", ret := T_BVEC2, params := [(T_IVEC2, "x"), (T_IVEC2, "y")] },
   { name := "lessThan", ret := T_BVEC3, params := [(T_IVEC3, "x"), (T_IVEC3, "y")] },
   { name := "lessThan", ret := T_BVEC4, params := [(T_IVEC4, "x"), (T_IVEC4, "y")] },
   { name := "lessThanEqual", ret := T_BVEC2, params := [(T_VEC2, "x"), (T_VEC2, "y")] },
   { name := "lessThanEqual", ret := T_BVEC3, params := [(T_VEC3, "x"), (T_VEC3, "y")] },
   { name := "lessThanEqual", ret := T_BVEC4, params := [(T_VEC4, "x"), (T_VEC4, "y")] },
   { name := "lessThanEqual", ret := T_BVEC2, params := [(T_IVEC2, "x"), (T_IVEC2, "y")] },
   { name := "lessThanEqual", ret := T_BVEC3, params := [(T_IVEC3, "x"), (T_IVEC3, "y")] },
   { name := "lessThanEqual", ret := T_BVEC4, params := [(T_IVEC4, "x"), (T_IVEC4, "y")] },
   { name := "greaterThan", ret := T_BVEC2, params := [(T_VEC2, "x"), (T_VEC2, "y")] },
   { name := "greaterThan", ret := T_BVEC3, params := [(T_VEC3, "x"), (T_VEC3, "y")] },
   { name := "greaterThan", ret := T_BVEC4, params := [(T_VEC4, "x"), (T_VEC4, "y")] },
   { name := "greaterThan", ret := T_BVEC2, params := [(T_IVEC2, "x"), (T_IVEC2, "y")] },
   { name := "greaterThan", ret := T_BVEC3, params := [(T_IVEC3, "x"), (T_IVEC3, "y")] },
   { name := "greaterThan", ret := T_BVEC4, params := [(T_IVEC4, "x"), (T_IVEC4, "y")] },
   { name := "greaterThanEqual", ret := T_BVEC2, params := [(T_VEC2, "x"), (T_VEC2, "y")] },
   { name := "greaterThanEqual", ret := T_BVEC3, params := [(T_VEC3, "x"), (T_VEC3, "y")] },
   { name := "greaterThanEqual", ret := T_BVEC4, params := [(T_VEC4, "x"), (T_VEC4, "y")] },
   { name := "greaterThanEqual", ret := T_BVEC2, params := [(T_IVEC2, "x"), (T_IVEC2, "y")] },
   { name := "greaterThanEqual", ret := T_BVEC3, params := [(T_IVEC3, "x"), (T_IVEC3, "y")] },
   { name := "greaterThanEqual", ret := T_BVEC4, params := [(T_IVEC4, "x"), (T_IVEC4, "y")] },
   { name := "equal", ret := T_BVEC2, params := [(T_VEC2, "x"), (T_VEC2, "y")] },
   { name := "equal", ret := T_BVEC3, params := [(T_VEC3, "x"), (T_VEC3, "y")] },
   { name := "equal", ret := T_BVEC4, params := [(T_VEC4, "x"), (T_VEC4, "y")] },
   { name := "equal", ret := T_BVEC2, params := [(T_IVEC2, "x"), (T_IVEC2, "y")] },
   { name := "equal", ret := T_BVEC3, params := [(T_IVEC3, "x"), (T_IVEC3, "y")] },
   { name := "equal", ret := T_BVEC4, params := [(T_IVEC4, "x"), (T_IVEC4, "y")] },
   { name := "notEqual", ret := T_BVEC2, params := [(T_VEC2, "x"), (T_VEC2, "y")] },
   { name := "notEqual", ret := T_BVEC3, params := [(T_VEC3, "x"), (T_VEC3, "y")] },
   { name := "notEqual", ret := T_BVEC4, params := [(T_VEC4, "x"), (T_VEC4, "y")] },
   { name := "notEqual", ret := T_BVEC2, params := [(T_IVEC2, "x"), (T_IVEC2, "y")] },
   { name := "notEqual", ret := T_BVEC3, params := [(T_IVEC3, "x"), (T_IVEC3, "y")] },
   { name := "notEqual", ret := T_BVEC4, params := [(T_IVEC4, "x"), (T_IVEC4, "y")] },
   { name := "notEqual", ret := T_BVEC2, params := [(T_BVEC2, "x"), (T_BVEC2, "y")] },
   { name := "notEqual", ret := T_BVEC3, params := [(T_BVEC3, "x"), (T_BVEC3, "y")] }]

/-- Chunk 5 of `FunctionsList` (split to keep list literals small). -/
def FunctionsList_5 : List BFunc :=
  [{ name := "notEqual", ret := T_BVEC4, params := [(T_BVEC4, "x"), (T_BVEC4, "y")] },
   { name := "any", ret := T_BOOL, params := [(T_BVEC2, "x")] },
   { name := "any", ret := T_BOOL, params := [(T_BVEC3, "x")] },
   { name := "any", ret := T_BOOL, params := [(T_BVEC4, "x")] },
   { name := "all", ret := T_BOOL, params := [(T_BVEC2, "x")] },
   { name := "all", ret := T_BOOL, params := [(T_BVEC3, "x")] },
   { name := "all", ret := T_BOOL, params := [(T_BVEC4, "x")] },
   { name := "not", ret := T_BVEC2, params := [(T_BVEC2, "x")] },
   { name := "not", ret := T_BVEC3, params := [(T_BVEC3, "x")] },
   { name := "not", ret := T_BVEC4, params := [(T_BVEC4, "x")] },
   { name := "texture2D", ret := T_VEC4, params := [(T_SAMPLER2D, "sampler"), (T_VEC2, "coord")] },
   { name := "texture2D", ret := T_VEC4, params := [(T_SAMPLER2D, "sampler"), (T_VEC2, "coord"), (T_FLOAT, "bias")] },
   { name := "texture2DProj", ret := T_VEC4, params := [(T_SAMPLER2D, "sampler"), (T_VEC3, "coord")] },
   { name := "texture2DProj", ret := T_VEC4, params := [(T_SAMPLER2D, "sampler"), (T_VEC3, "coord"), (T_FLOAT, "bias")] },
   { name := "texture2DProj", ret := T_VEC4, params := [(T_SAMPLER2D, "sampler"), (T_VEC4, "coord")] },
   { name := "texture2DProj", ret := T_VEC4, params := [(T_SAMPLER2D, "sampler"), (T_VEC4, "coord"), (T_FLOAT, "bias")] },
   { name := "texture2DLod", ret := T_VEC4, params := [(T_SAMPLER2D, "sampler"), (T_VEC2, "coord"), (T_FLOAT, "lod")] },
   { name := "texture2DProjLod", ret := T_VEC4, params := [(T_SAMPLER2D, "sampler"), (T_VEC3, "coord"), (T_FLOAT, "lod")] },
   { name := "texture2DProjLod", ret := T_VEC4, params := [(T_SAMPLER2D, "sampler"), (T_VEC4, "coord"), (T_FLOAT, "lod")] },
   { name := "textureCube", ret := T_VEC4, params := [(T_SAMPLERCUBE, "sampler"), (T_VEC3, "coord")] },
   { name := "textureCube", ret := T_VEC4, params := [(T_SAMPLERCUBE, "sampler"), (T_VEC3, "coord"), (T_FLOAT, "bias")] },
   { name := "textureCubeLod", ret := T_VEC4, params := [(T_SAMPLERCUBE, "sampler"), (T_VEC3, "coord"), (T_FLOAT, "lod")] }]

/-- The `Functions` table of the built catalogue, materialized (see `builtins_eq`). -/
def FunctionsList : List BFunc :=
  FunctionsList_0 ++ FunctionsList_1 ++ FunctionsList_2 ++ FunctionsList_3 ++ FunctionsList_4 ++ FunctionsList_5

/-- Chunk 0 of `FunctionMapList` (split to keep list literals small). -/
def FunctionMapList_0 : List (String × BFunc) :=
  [("radians(float)", { name := "radians", ret := T_FLOAT, params := [(T_FLOAT, "degrees")] }),
   ("radians(vec2)", { name := "radians", ret := T_VEC2, params := [(T_VEC2, "degrees")] }),
   ("radians(vec3)", { name := "radians", ret := T_VEC3, params := [(T_VEC3, "degrees")] }),
   ("radians(vec4)", { name := "radians", ret := T_VEC4, params := [(T_VEC4, "degrees")] }),
   ("degrees(float)", { name := "degrees", ret := T_FLOAT, params := [(T_FLOAT, "radians")] }),
   ("degrees(vec2)", { name := "degrees", ret := T_VEC2, params := [(T_VEC2, "radians")] }),
   ("degrees(vec3)", { name := "degrees", ret := T_VEC3, params := [(T_VEC3, "radians")] }),
   ("degrees(vec4)", { name := "degrees", ret := T_VEC4, params := [(T_VEC4, "radians")] }),
   ("sin(float)", { name := "sin", ret := T_FLOAT, params := [(T_FLOAT, "angle")] }),
   ("sin(vec2)", { name := "sin", ret := T_VEC2, params := [(T_VEC2, "angle")] }),
   ("sin(vec3)", { name := "sin", ret := T_VEC3, params := [(T_VEC3, "angle")] }),
   ("sin(vec4)", { name := "sin", ret := T_VEC4, params := [(T_VEC4, "angle")] }),
   ("cos(float)", { name := "cos", ret := T_FLOAT, params := [(T_FLOAT, "angle")] }),
   ("cos(vec2)", { name := "cos", ret := T_VEC2, params := [(T_VEC2, "angle")] }),
   ("cos(vec3)", { name := "cos", ret := T_VEC3, params := [(T_VEC3, "angle")] }),
   ("cos(vec4)", { name := "cos", ret := T_VEC4, params := [(T_VEC4, "angle")] }),
   ("tan(float)", { name := "tan", ret := T_FLOAT, params := [(T_FLOAT, "angle")] }),
   ("tan(vec2)", { name := "tan", ret := T_VEC2, params := [(T_VEC2, "angle")] }),
   ("tan(vec3)", { name := "tan", ret := T_VEC3, params := [(T_VEC3, "angle")] }),
   ("tan(vec4)", { name := "tan", ret := T_VEC4, params := [(T_VEC4, "angle")] }),
   ("asin(float)", { name := "asin", ret := T_FLOAT, params := [(T_FLOAT, "x")] }),
   ("asin(vec2)", { name := "asin", ret := T_VEC2, params := [(T_VEC2, "x")] }),
   ("asin(vec3)", { name := "asin", ret := T_VEC3, params := [(T_VEC3, "x")] }),
   ("asin(vec4)", { name := "asin", ret := T_VEC4, params := [(T_VEC4, "x")] }),
   ("acos(float)", { name := "acos", ret := T_FLOAT, params := [(T_FLOAT, "x")] }),
   ("acos(vec2)", { name := "acos", ret := T_VEC2, params := [(T_VEC2, "x")] }),
   ("acos(vec3)", { name := "acos", ret := T_VEC3, params := [(T_VEC3, "x")] }),
   ("acos(vec4)", { name := "acos", ret := T_VEC4, params := [(T_VEC4, "x")] }),
   ("atan(float,float)", { name := "atan", ret := T_FLOAT, params := [(T_FLOAT, "y"), (T_FLOAT, "x")] }),
   ("atan(vec2,vec2)", { name := "atan", ret := T_VEC2, params := [(T_VEC2, "y"), (T_VEC2, "x")] }),
   ("atan(vec3,vec3)", { name := "atan", ret := T_VEC3, params := [(T_VEC3, "y"), (T_VEC3, "x")] }),
   ("atan(vec4,vec4)", { name := "atan", ret := T_VEC4, params := [(T_VEC4, "y"), (T_VEC4, "x")] }),
   ("atan(float)", { name := "atan", ret := T_FLOAT, params := [(T_FLOAT, "y_over_x")] }),
   ("atan(vec2)", { name := "atan", ret := T_VEC2, params := [(T_VEC2, "y_over_x")] }),
   ("atan(vec3)", { name := "atan", ret := T_VEC3, params := [(T_VEC3, "y_over_x")] }),
   ("atan(vec4)", { name := "atan", ret := T_VEC4, params := [(T_VEC4, "y_over_x")] }),
   ("pow(float,float)", { name := "pow", ret := T_FLOAT, params := [(T_FLOAT, "x"), (T_FLOAT, "y")] }),
   ("pow(vec2,vec2)", { name := "pow", ret := T_VEC2, params := [(T_VEC2, "x"), (T_VEC2, "y")] }),
   ("pow(vec3,vec3)", { name := "pow", ret := T_VEC3, params := [(T_VEC3, "x"), (T_VEC3, "y")] }),
   ("pow(vec4,vec4)", { name := "pow", ret := T_VEC4, params := [(T_VEC4, "x"), (T_VEC4, "y")] })]

/-- Chunk 1 of `FunctionMapList` (split to keep list literals small). -/
def FunctionMapList_1 : List (String × BFunc) :=
  [("exp(float)", { name := "exp", ret := T_FLOAT, params := [(T_FLOAT, "x")] }),
   ("exp(vec2)", { name := "exp", ret := T_VEC2, params := [(T_VEC2, "x")] }),
   ("exp(vec3)", { name := "exp", ret := T_VEC3, params := [(T_VEC3, "x")] }),
   ("exp(vec4)", { name := "exp", ret := T_VEC4, params := [(T_VEC4, "x")] }),
   ("log(float)", { name := "log", ret := T_FLOAT, params := [(T_FLOAT, "x")] }),
   ("log(vec2)", { name := "log", ret := T_VEC2, params := [(T_VEC2, "x")] }),
   ("log(vec3)", { name := "log", ret := T_VEC3, params := [(T_VEC3, "x")] }),
   ("log(vec4)", { name := "log", ret := T_VEC4, params := [(T_VEC4, "x")] }),
   ("exp2(float)", { name := "exp2", ret := T_FLOAT, params := [(T_FLOAT, "x")] }),
   ("exp2(vec2)", { name := "exp2", ret := T_VEC2, params := [(T_VEC2, "x")] }),
   ("exp2(vec3)", { name := "exp2", ret := T_VEC3, params := [(T_VEC3, "x")] }),
   ("exp2(vec4)", { name := "exp2", ret := T_VEC4, params := [(T_VEC4, "x")] }),
   ("log2(float)", { name := "log2", ret := T_FLOAT, params := [(T_FLOAT, "x")] }),
   ("log2(vec2)", { name := "log2", ret := T_VEC2, params := [(T_VEC2, "x")] }),
   ("log2(vec3)", { name := "log2", ret := T_VEC3, params := [(T_VEC3, "x")] }),
   ("log2(vec4)", { name := "log2", ret := T_VEC4, params := [(T_VEC4, "x")] }),
   ("sqrt(float)", { name := "sqrt", ret := T_FLOAT, params := [(T_FLOAT, "x")] }),
   ("sqrt(vec2)", { name := "sqrt", ret := T_VEC2, params := [(T_VEC2, "x")] }),
   ("sqrt(vec3)", { name := "sqrt", ret := T_VEC3, params := [(T_VEC3, "x")] }),
   ("sqrt(vec4)", { name := "sqrt", ret := T_VEC4, params := [(T_VEC4, "x")] }),
   ("inversesqrt(float)", { name := "inversesqrt", ret := T_FLOAT, params := [(T_FLOAT, "x")] }),
   ("inversesqrt(vec2)", { name := "inversesqrt", ret := T_VEC2, params := [(T_VEC2, "x")] }),
   ("inversesqrt(vec3)", { name := "inversesqrt", ret := T_VEC3, params := [(T_VEC3, "x")] }),
   ("inversesqrt(vec4)", { name := "inversesqrt", ret := T_VEC4, params := [(T_VEC4, "x")] }),
   ("abs(float)", { name := "abs", ret := T_FLOAT, params := [(T_FLOAT, "x")] }),
   ("abs(vec2)", { name := "abs", ret := T_VEC2, params := [(T_VEC2, "x")] }),
   ("abs(vec3)", { name := "abs", ret := T_VEC3, params := [(T_VEC3, "x")] }),
   ("abs(vec4)", { name := "abs", ret := T_VEC4, params := [(T_VEC4, "x")] }),
   ("sign(float)", { name := "sign", ret := T_FLOAT, params := [(T_FLOAT, "x")] }),
   ("sign(vec2)", { name := "sign", ret := T_VEC2, params := [(T_VEC2, "x")] }),
   ("sign(vec3)", { name := "sign", ret := T_VEC3, params := [(T_VEC3, "x")] }),
   ("sign(vec4)", { name := "sign", ret := T_VEC4, params := [(T_VEC4, "x")] }),
   ("floor(float)", { name := "floor", ret := T_FLOAT, params := [(T_FLOAT, "x")] }),
   ("floor(vec2)", { name := "floor", ret := T_VEC2, params := [(T_VEC2, "x")] }),
   ("floor(vec3)", { name := "floor", ret := T_VEC3, params := [(T_VEC3, "x")] }),
   ("floor(vec4)", { name := "floor", ret := T_VEC4, params := [(T_VEC4, "x")] }),
   ("ceil(float)", { name := "ceil", ret := T_FLOAT, params := [(T_FLOAT, "x")] }),
   ("ceil(vec2)", { name := "ceil", ret := T_VEC2, params := [(T_VEC2, "x")] }),
   ("ceil(vec3)", { name := "ceil", ret := T_VEC3, params := [(T_VEC3, "x")] }),
   ("ceil(vec4)", { name := "ceil", ret := T_VEC4, params := [(T_VEC4, "x")] })]

/-- Chunk 2 of `FunctionMapList` (split to keep list literals small). -/
def FunctionMapList_2 : List (String × BFunc) :=
  [("fract(float)", { name := "fract", ret := T_FLOAT, params := [(T_FLOAT, "x")] }),
   ("fract(vec2)", { name := "fract", ret := T_VEC2, params := [(T_VEC2, "x")] }),
   ("fract(vec3)", { name := "fract", ret := T_VEC3, params := [(T_VEC3, "x")] }),
   ("fract(vec4)", { name := "fract", ret := T_VEC4, params := [(T_VEC4, "x")] }),
   ("mod(float,float)", { name := "mod", ret := T_FLOAT, params := [(T_FLOAT, "x"), (T_FLOAT, "y")] }),
   ("mod(vec2,vec2)", { name := "mod", ret := T_VEC2, params := [(T_VEC2, "x"), (T_VEC2, "y")] }),
   ("mod(vec3,vec3)", { name := "mod", ret := T_VEC3, params := [(T_VEC3, "x"), (T_VEC3, "y")] }),
   ("mod(vec4,vec4)", { name := "mod", ret := T_VEC4, params := [(T_VEC4, "x"), (T_VEC4, "y")] }),
   ("min(float,float)", { name := "min", ret := T_FLOAT, params := [(T_FLOAT, "x"), (T_FLOAT, "y")] }),
   ("min(vec2,vec2)", { name := "min", ret := T_VEC2, params := [(T_VEC2, "x"), (T_VEC2, "y")] }),
   ("min(vec3,vec3)", { name := "min", ret := T_VEC3, params := [(T_VEC3, "x"), (T_VEC3, "y")] }),
   ("min(vec4,vec4)", { name := "min", ret := T_VEC4, params := [(T_VEC4, "x"), (T_VEC4, "y")] }),
   ("min(vec2,float)", { name := "min", ret := T_VEC2, params := [(T_VEC2, "x"), (T_FLOAT, "y")] }),
   ("min(vec3,float)", { name := "min", ret := T_VEC3, params := [(T_VEC3, "x"), (T_FLOAT, "y")] }),
   ("min(vec4,float)", { name := "min", ret := T_VEC4, params := [(T_VEC4, "x"), (T_FLOAT, "y")] }),
   ("max(float,float)", { name := "max", ret := T_FLOAT, params := [(T_FLOAT, "x"), (T_FLOAT, "y")] }),
   ("max(vec2,vec2)", { name := "max", ret := T_VEC2, params := [(T_VEC2, "x"), (T_VEC2, "y")] }),
   ("max(vec3,vec3)", { name := "max", ret := T_VEC3, params := [(T_VEC3, "x"), (T_VEC3, "y")] }),
   ("max(vec4,vec4)", { name := "max", ret := T_VEC4, params := [(T_VEC4, "x"), (T_VEC4, "y")] }),
   ("max(vec2,float)", { name := "max", ret := T_VEC2, params := [(T_VEC2, "x"), (T_FLOAT, "y")] }),
   ("max(vec3,float)", { name := "max", ret := T_VEC3, params := [(T_VEC3, "x"), (T_FLOAT, "y")] }),
   ("max(vec4,float)", { name := "max", ret := T_VEC4, params := [(T_VEC4, "x"), (T_FLOAT, "y")] }),
   ("clamp(float,float,float)", { name := "clamp", ret := T_FLOAT, params := [(T_FLOAT, "x"), (T_FLOAT, "minVal"), (T_FLOAT, "maxVal")] }),
   ("clamp(vec2,vec2,vec2)", { name := "clamp", ret := T_VEC2, params := [(T_VEC2, "x"), (T_VEC2, "minVal"), (T_VEC2, "maxVal")] }),
   ("clamp(vec3,vec3,vec3)", { name := "clamp", ret := T_VEC3, params := [(T_VEC3, "x"), (T_VEC3, "minVal"), (T_VEC3, "maxVal")] }),
   ("clamp(vec4,vec4,vec4)", { name := "clamp", ret := T_VEC4, params := [(T_VEC4, "x"), (T_VEC4, "minVal"), (T_VEC4, "maxVal")] }),
   ("clamp(vec2,float,float)", { name := "clamp", ret := T_VEC2, params := [(T_VEC2, "x"), (T_FLOAT, "minVal"), (T_FLOAT, "maxVal")] }),
   ("clamp(vec3,float,float)", { name := "clamp", ret := T_VEC3, params := [(T_VEC3, "x"), (T_FLOAT, "minVal"), (T_FLOAT, "maxVal")] }),
   ("clamp(vec4,float,float)", { name := "clamp", ret := T_VEC4, params := [(T_VEC4, "x"), (T_FLOAT, "minVal"), (T_FLOAT, "maxVal")] }),
   ("mix(float,float,float)", { name := "mix", ret := T_FLOAT, params := [(T_FLOAT, "x"), (T_FLOAT, "y"), (T_FLOAT, "a")] }),
   ("mix(vec2,vec2,vec2)", { name := "mix", ret := T_VEC2, params := [(T_VEC2, "x"), (T_VEC2, "y"), (T_VEC2, "a")] }),
   ("mix(vec3,vec3,vec3)", { name := "mix", ret := T_VEC3, params := [(T_VEC3, "x"), (T_VEC3, "y"), (T_VEC3, "a")] }),
   ("mix(vec4,vec4,vec4)", { name := "mix", ret := T_VEC4, params := [(T_VEC4, "x"), (T_VEC4, "y"), (T_VEC4, "a")] }),
   ("mix(vec2,vec2,float)", { name := "mix", ret := T_VEC2, params := [(T_VEC2, "x"), (T_VEC2, "y"), (T_FLOAT, "a")] }),
   ("mix(vec3,vec3,float)", { name := "mix", ret := T_VEC3, params := [(T_VEC3, "x"), (T_VEC3, "y"), (T_FLOAT, "a")] }),
   ("mix(vec4,vec4,float)", { name := "mix", ret := T_VEC4, params := [(T_VEC4, "x"), (T_VEC4, "y"), (T_FLOAT, "a")] }),
   ("step(float,float)", { name := "step", ret := T_FLOAT, params := [(T_FLOAT, "edge"), (T_FLOAT, "x")] }),
   ("step(vec2,vec2)", { name := "step", ret := T_VEC2, params := [(T_VEC2, "edge"), (T_VEC2, "x")] }),
   ("step(vec3,vec3)", { name := "step", ret := T_VEC3, params := [(T_VEC3, "edge"), (T_VEC3, "x")] }),
   ("step(vec4,vec4)", { name := "step", ret := T_VEC4, params := [(T_VEC4, "edge"), (T_VEC4, "x")] })]

/-- Chunk 3 of `FunctionMapList` (split to keep list literals small). -/
def FunctionMapList_3 : List (String × BFunc) :=
  [("step(float,vec2)", { name := "step", ret := T_VEC2, params := [(T_FLOAT, "edge"), (T_VEC2, "x")] }),
   ("step(float,vec3)", { name := "step", ret := T_VEC3, params := [(T_FLOAT, "edge"), (T_VEC3, "x")] }),
   ("step(float,vec4)", { name := "step", ret := T_VEC4, params := [(T_FLOAT, "edge"), (T_VEC4, "x")] }),
   ("smoothstep(float,float,float)", { name := "smoothstep", ret := T_FLOAT, params := [(T_FLOAT, "edge0"), (T_FLOAT, "edge1"), (T_FLOAT, "x")] }),
   ("smoothstep(vec2,vec2,vec2)", { name := "smoothstep", ret := T_VEC2, params := [(T_VEC2, "edge0"), (T_VEC2, "edge1"), (T_VEC2, "x")] }),
   ("smoothstep(vec3,vec3,vec3)", { name := "smoothstep", ret := T_VEC3, params := [(T_VEC3, "edge0"), (T_VEC3, "edge1"), (T_VEC3, "x")] }),
   ("smoothstep(vec4,vec4,vec4)", { name := "smoothstep", ret := T_VEC4, params := [(T_VEC4, "edge0"), (T_VEC4, "edge1"), (T_VEC4, "x")] }),
   ("smoothstep(float,float,vec2)", { name := "smoothstep", ret := T_VEC2, params := [(T_FLOAT, "edge0"), (T_FLOAT, "edge1"), (T_VEC2, "x")] }),
   ("smoothstep(float,float,vec3)", { name := "smoothstep", ret := T_VEC3, params := [(T_FLOAT, "edge0"), (T_FLOAT, "edge1"), (T_VEC3, "x")] }),
   ("smoothstep(float,float,vec4)", { name := "smoothstep", ret := T_VEC4, params := [(T_FLOAT, "edge0"), (T_FLOAT, "edge1"), (T_VEC4, "x")] }),
   ("length(float)", { name := "length", ret := T_FLOAT, params := [(T_FLOAT, "x")] }),
   ("length(vec2)", { name := "length", ret := T_FLOAT, params := [(T_VEC2, "x")] }),
   ("length(vec3)", { name := "length", ret := T_FLOAT, params := [(T_VEC3, "x")] }),
   ("length(vec4)", { name := "length", ret := T_FLOAT, params := [(T_VEC4, "x")] }),
   ("distance(float,float)", { name := "distance", ret := T_FLOAT, params := [(T_FLOAT, "p0"), (T_FLOAT, "p1")] }),
   ("distance(vec2,vec2)", { name := "distance", ret := T_FLOAT, params := [(T_VEC2, "p0"), (T_VEC2, "p1")] }),
   ("distance(vec3,vec3)", { name := "distance", ret := T_FLOAT, params := [(T_VEC3, "p0"), (T_VEC3, "p1")] }),
   ("distance(vec4,vec4)", { name := "distance", ret := T_FLOAT, params := [(T_VEC4, "p0"), (T_VEC4, "p1")] }),
   ("dot(float,float)", { name := "dot", ret := T_FLOAT, params := [(T_FLOAT, "x"), (T_FLOAT, "y")] }),
   ("dot(vec2,vec2)", { name := "dot", ret := T_FLOAT, params := [(T_VEC2, "x"), (T_VEC2, "y")] }),
   ("dot(vec3,vec3)", { name := "dot", ret := T_FLOAT, params := [(T_VEC3, "x"), (T_VEC3, "y")] }),
   ("dot(vec4,vec4)", { name := "dot", ret := T_FLOAT, params := [(T_VEC4, "x"), (T_VEC4, "y")] }),
   ("cross(vec3,vec3)", { name := "cross", ret := T_VEC3, params := [(T_VEC3, "x"), (T_VEC3, "y")] }),
   ("normalize(float)", { name := "normalize", ret := T_FLOAT, params := [(T_FLOAT, "x")] }),
   ("normalize(vec2)", { name := "normalize", ret := T_VEC2, params := [(T_VEC2, "x")] }),
   ("normalize(vec3)", { name := "normalize", ret := T_VEC3, params := [(T_VEC3, "x")] }),
   ("normalize(vec4)", { name := "normalize", ret := T_VEC4, params := [(T_VEC4, "x")] }),
   ("faceforward(float,float,float)", { name := "faceforward", ret := T_FLOAT, params := [(T_FLOAT, "N"), (T_FLOAT, "I"), (T_FLOAT, "Nref")] }),
   ("faceforward(vec2,vec2,vec2)", { name := "faceforward", ret := T_VEC2, params := [(T_VEC2, "N"), (T_VEC2, "I"), (T_VEC2, "Nref")] }),
   ("faceforward(vec3,vec3,vec3)", { name := "faceforward", ret := T_VEC3, params := [(T_VEC3, "N"), (T_VEC3, "I"), (T_VEC3, "Nref")] }),
   ("faceforward(vec4,vec4,vec4)", { name := "faceforward", ret := T_VEC4, params := [(T_VEC4, "N"), (T_VEC4, "I"), (T_VEC4, "Nref")] }),
   ("reflect(float,float)", { name := "reflect", ret := T_FLOAT, params := [(T_FLOAT, "I"), (T_FLOAT, "N")] }),
   ("reflect(vec2,vec2)", { name := "reflect", ret := T_VEC2, params := [(T_VEC2, "I"), (T_VEC2, "N")] }),
   ("reflect(vec3,vec3)", { name := "reflect", ret := T_VEC3, params := [(T_VEC3, "I"), (T_VEC3, "N")] }),
   ("reflect(vec4,vec4)", { name := "reflect", ret := T_VEC4, params := [(T_VEC4, "I"), (T_VEC4, "N")] }),
   ("refract(float,float,float)", { name := "refract", ret := T_FLOAT, params := [(T_FLOAT, "I"), (T_FLOAT, "N"), (T_FLOAT, "eta")] }),
   ("refract(vec2,vec2,float)", { name := "refract", ret := T_VEC2, params := [(T_VEC2, "I"), (T_VEC2, "N"), (T_FLOAT, "eta")] }),
   ("refract(vec3,vec3,float)", { name := "refract", ret := T_VEC3, params := [(T_VEC3, "I"), (T_VEC3, "N"), (T_FLOAT, "eta")] }),
   ("refract(vec4,vec4,float)", { name := "refract", ret := T_VEC4, params := [(T_VEC4, "I"), (T_VEC4, "N"), (T_FLOAT, "eta")] }),
   ("matrixCompMult(mat2,mat2)", { name := "matrixCompMult", ret := T_MAT2, params := [(T_MAT2, "x"), (T_MAT2, "y")] })]

/-- Chunk 4 of `FunctionMapList` (split to keep list literals small). -/
def FunctionMapList_4 : List (String × BFunc) :=
  [("matrixCompMult(mat3,mat3)", { name := "matrixCompMult", ret := T_MAT3, params := [(T_MAT3, "x"), (T_MAT3, "y")] }),
   ("matrixCompMult(mat4,mat4)", { name := "matrixCompMult", ret := T_MAT4, params := [(T_MAT4, "x"), (T_MAT4, "y")] }),
   ("lessThan(vec2,vec2)", { name := "lessThan", ret := T_BVEC2, params := [(T_VEC2, "x"), (T_VEC2, "y")] }),
   ("lessThan(vec3,vec3)", { name := "lessThan", ret := T_BVEC3, params := [(T_VEC3, "x"), (T_VEC3, "y")] }),
   ("lessThan(vec4,vec4)", { name := "lessThan", ret := T_BVEC4, params := [(T_VEC4, "x"), (T_VEC4, "y")] }),
   ("lessThan(ivec2,ivec2)", { name := "lessThan", ret := T_BVEC2, params := [(T_IVEC2, "x"), (T_IVEC2, "y")] }),
   ("lessThan(ivec3,ivec3)", { name := "lessThan", ret := T_BVEC3, params := [(T_IVEC3, "x"), (T_IVEC3, "y")] }),
   ("lessThan(ivec4,ivec4)", { name := "lessThan", ret := T_BVEC4, params := [(T_IVEC4, "x"), (T_IVEC4, "y")] }),
   ("lessThanEqual(vec2,vec2)", { name := "lessThanEqual", ret := T_BVEC2, params := [(T_VEC2, "x"), (T_VEC2, "y")] }),
   ("lessThanEqual(vec3,vec3)", { name := "lessThanEqual", ret := T_BVEC3, params := [(T_VEC3, "x"), (T_VEC3, "y")] }),
   ("lessThanEqual(vec4,vec4)", { name := "lessThanEqual", ret := T_BVEC4, params := [(T_VEC4, "x"), (T_VEC4, "y")] }),
   ("lessThanEqual(ivec2,ivec2)", { name := "lessThanEqual", ret := T_BVEC2, params := [(T_IVEC2, "x"), (T_IVEC2, "y")] }),
   ("lessThanEqual(ivec3,ivec3)", { name := "lessThanEqual", ret := T_BVEC3, params := [(T_IVEC3, "x"), (T_IVEC3, "y")] }),
   ("lessThanEqual(ivec4,ivec4)", { name := "lessThanEqual", ret := T_BVEC4, params := [(T_IVEC4, "x"), (T_IVEC4, "y")] }),
   ("greaterThan(vec2,vec2)", { name := "greaterThan", ret := T_BVEC2, params := [(T_VEC2, "x"), (T_VEC2, "y")] }),
   ("greaterThan(vec3,vec3)", { name := "greaterThan", ret := T_BVEC3, params := [(T_VEC3, "x"), (T_VEC3, "y")] }),
   ("greaterThan(vec4,vec4)", { name := "greaterThan", ret := T_BVEC4, params := [(T_VEC4, "x"), (T_VEC4, "y")] }),
   ("greaterThan(ivec2,ivec2)", { name := "greaterThan", ret := T_BVEC2, params := [(T_IVEC2, "x"), (T_IVEC2, "y")] }),
   ("greaterThan(ivec3,ivec3)", { name := "greaterThan", ret := T_BVEC3, params := [(T_IVEC3, "x"), (T_IVEC3, "y")] }),
   ("greaterThan(ivec4,ivec4)", { name := "greaterThan", ret := T_BVEC4, params := [(T_IVEC4, "x"), (T_IVEC4, "y")] }),
   ("greaterThanEqual(vec2,vec2)", { name := "greaterThanEqual", ret := T_BVEC2, params := [(T_VEC2, "x"), (T_VEC2, "y")] }),
   ("greaterThanEqual(vec3,vec3)", { name := "greaterThanEqual", ret := T_BVEC3, params := [(T_VEC3, "x"), (T_VEC3, "y")] }),
   ("greaterThanEqual(vec4,vec4)", { name := "greaterThanEqual", ret := T_BVEC4, params := [(T_VEC4, "x"), (T_VEC4, "y")] }),
   ("greaterThanEqual(ivec2,ivec2)", { name := "greaterThanEqual", ret := T_BVEC2, params := [(T_IVEC2, "x"), (T_IVEC2, "y")] }),
   ("greaterThanEqual(ivec3,ivec3)", { name := "greaterThanEqual", ret := T_BVEC3, params := [(T_IVEC3, "x"), (T_IVEC3, "y")] }),
   ("greaterThanEqual(ivec4,ivec4)", { name := "greaterThanEqual", ret := T_BVEC4, params := [(T_IVEC4, "x"), (T_IVEC4, "y")] }),
   ("equal(vec2,vec2)", { name := "equal", ret := T_BVEC2, params := [(T_VEC2, "x"), (T_VEC2, "y")] }),
   ("equal(vec3,vec3)", { name := "equal", ret := T_BVEC3, params := [(T_VEC3, "x"), (T_VEC3, "y")] }),
   ("equal(vec4,vec4)", { name := "equal", ret := T_BVEC4, params := [(T_VEC4, "x"), (T_VEC4, "y")] }),
   ("equal(ivec2,ivec2)", { name := "equal", ret := T_BVEC2, params := [(T_IVEC2, "x"), (T_IVEC2, "y")] }),
   ("equal(ivec3,ivec3)", { name := "equal", ret := T_BVEC3, params := [(T_IVEC3, "x"), (T_IVEC3, "y")] }),
   ("equal(ivec4,ivec4)", { name := "equal", ret := T_BVEC4, params := [(T_IVEC4, "x"), (T_IVEC4, "y")] }),
   ("notEqual(vec2,vec2)", { name := "notEqual", ret := T_BVEC2, params := [(T_VEC2, "x"), (T_VEC2, "y")] }),
   ("notEqual(vec3,vec3)", { name := "notEqual", ret := T_BVEC3, params := [(T_VEC3, "x"), (T_VEC3, "y")] }),
   ("notEqual(vec4,vec4)", { name := "notEqual", ret := T_BVEC4, params := [(T_VEC4, "x"), (T_VEC4, "y")] }),
   ("notEqual(ivec2,ivec2)", { name := "notEqual", ret := T_BVEC2, params := [(T_IVEC2, "x"), (T_IVEC2, "y")] }),
   ("notEqual(ivec3,ivec3)", { name := "notEqual", ret := T_BVEC3, params := [(T_IVEC3, "x"), (T_IVEC3, "y")] }),
   ("notEqual(ivec4,ivec4)", { name := "notEqual", ret := T_BVEC4, params := [(T_IVEC4, "x"), (T_IVEC4, "y")] }),
   ("notEqual(bvec2,bvec2)", { name := "notEqual", ret := T_BVEC2, params := [(T_BVEC2, "x"), (T_BVEC2, "y")] }),
   ("notEqual(bvec3,bvec3)", { name := "notEqual", ret := T_BVEC3, params := [(T_BVEC3, "x"), (T_BVEC3, "y")] })]

/-- Chunk 5 of `FunctionMapList` (split to keep list literals small). -/
def FunctionMapList_5 : List (String × BFunc) :=
  [("notEqual(bvec4,bvec4)", { name := "notEqual", ret := T_BVEC4, params := [(T_BVEC4, "x"), (T_BVEC4, "y")] }),
   ("any(bvec2)", { name := "any", ret := T_BOOL, params := [(T_BVEC2, "x")] }),
   ("any(bvec3)", { name := "any", ret := T_BOOL, params := [(T_BVEC3, "x")] }),
   ("any(bvec4)", { name := "any", ret := T_BOOL, params := [(T_BVEC4, "x")] }),
   ("all(bvec2)", { name := "all", ret := T_BOOL, params := [(T_BVEC2, "x")] }),
   ("all(bvec3)", { name := "all", ret := T_BOOL, params := [(T_BVEC3, "x")] }),
   ("all(bvec4)", { name := "all", ret := T_BOOL, params := [(T_BVEC4, "x")] }),
   ("not(bvec2)", { name := "not", ret := T_BVEC2, params := [(T_BVEC2, "x")] }),
   ("not(bvec3)", { name := "not", ret := T_BVEC3, params := [(T_BVEC3, "x")] }),
   ("not(bvec4)", { name := "not", ret := T_BVEC4, params := [(T_BVEC4, "x")] }),
   ("texture2D(sampler2D,vec2)", { name := "texture2D", ret := T_VEC4, params := [(T_SAMPLER2D, "sampler"), (T_VEC2, "coord")] }),
   ("texture2D(sampler2D,vec2,float)", { name := "texture2D", ret := T_VEC4, params := [(T_SAMPLER2D, "sampler"), (T_VEC2, "coord"), (T_FLOAT, "bias")] }),
   ("texture2DProj(sampler2D,vec3)", { name := "texture2DProj", ret := T_VEC4, params := [(T_SAMPLER2D, "sampler"), (T_VEC3, "coord")] }),
   ("texture2DProj(sampler2D,vec3,float)", { name := "texture2DProj", ret := T_VEC4, params := [(T_SAMPLER2D, "sampler"), (T_VEC3, "coord"), (T_FLOAT, "bias")] }),
   ("texture2DProj(sampler2D,vec4)", { name := "texture2DProj", ret := T_VEC4, params := [(T_SAMPLER2D, "sampler"), (T_VEC4, "coord")] }),
   ("texture2DProj(sampler2D,vec4,float)", { name := "texture2DProj", ret := T_VEC4, params := [(T_SAMPLER2D, "sampler"), (T_VEC4, "coord"), (T_FLOAT, "bias")] }),
   ("texture2DLod(sampler2D,vec2,float)", { name := "texture2DLod", ret := T_VEC4, params := [(T_SAMPLER2D, "sampler"), (T_VEC2, "coord"), (T_FLOAT, "lod")] }),
   ("texture2DProjLod(sampler2D,vec3,float)", { name := "texture2DProjLod", ret := T_VEC4, params := [(T_SAMPLER2D, "sampler"), (T_VEC3, "coord"), (T_FLOAT, "lod")] }),
   ("texture2DProjLod(sampler2D,vec4,float)", { name := "texture2DProjLod", ret := T_VEC4, params := [(T_SAMPLER2D, "sampler"), (T_VEC4, "coord"), (T_FLOAT, "lod")] }),
   ("textureCube(samplerCube,vec3)", { name := "textureCube", ret := T_VEC4, params := [(T_SAMPLERCUBE, "sampler"), (T_VEC3, "coord")] }),
   ("textureCube(samplerCube,vec3,float)", { name := "textureCube", ret := T_VEC4, params := [(T_SAMPLERCUBE, "sampler"), (T_VEC3, "coord"), (T_FLOAT, "bias")] }),
   ("textureCubeLod(samplerCube,vec3,float)", { name := "textureCubeLod", ret := T_VEC4, params := [(T_SAMPLERCUBE, "sampler"), (T_VEC3, "coord"), (T_FLOAT, "lod")] })]

/-- The `FunctionMap` table of the built catalogue, materialized (see `builtins_eq`). -/
def FunctionMapList : List (String × BFunc) :=
  FunctionMapList_0 ++ FunctionMapList_1 ++ FunctionMapList_2 ++ FunctionMapList_3 ++ FunctionMapList_4 ++ FunctionMapList_5

/-- Chunk 0 of `OperatorsList` (split to keep list literals small). -/
def OperatorsList_0 : List Operator :=
  [{ op := T_PLUS, ret := (mkType T_INT), lhs := some (mkType T_INT), rhs := some (mkType T_INT), expr := none },
   { op := T_PLUS, ret := (mkType T_FLOAT), lhs := some (mkType T_FLOAT), rhs := some (mkType T_FLOAT), expr := none },
   { op := T_PLUS, ret := (mkType T_VEC2), lhs := some (mkType T_VEC2), rhs := some (mkType T_VEC2), expr := none },
   { op := T_PLUS, ret := (mkType T_VEC3), lhs := some (mkType T_VEC3), rhs := some (mkType T_VEC3), expr := none },
   { op := T_PLUS, ret := (mkType T_VEC4), lhs := some (mkType T_VEC4), rhs := some (mkType T_VEC4), expr := none },
   { op := T_PLUS, ret := (mkType T_MAT2), lhs := some (mkType T_MAT2), rhs := some (mkType T_MAT2), expr := none },
   { op := T_PLUS, ret := (mkType T_MAT3), lhs := some (mkType T_MAT3), rhs := some (mkType T_MAT3), expr := none },
   { op := T_PLUS, ret := (mkType T_MAT4), lhs := some (mkType T_MAT4), rhs := some (mkType T_MAT4), expr := none },
   { op := T_PLUS, ret := (mkType T_IVEC2), lhs := some (mkType T_IVEC2), rhs := some (mkType T_IVEC2), expr := none },
   { op := T_PLUS, ret := (mkType T_IVEC3), lhs := some (mkType T_IVEC3), rhs := some (mkType T_IVEC3), expr := none },
   { op := T_PLUS, ret := (mkType T_IVEC4), lhs := some (mkType T_IVEC4), rhs := some (mkType T_IVEC4), expr := none },
   { op := T_DASH, ret := (mkType T_INT), lhs := some (mkType T_INT), rhs := some (mkType T_INT), expr := none },
   { op := T_DASH, ret := (mkType T_FLOAT), lhs := some (mkType T_FLOAT), rhs := some (mkType T_FLOAT), expr := none },
   { op := T_DASH, ret := (mkType T_VEC2), lhs := some (mkType T_VEC2), rhs := some (mkType T_VEC2), expr := none },
   { op := T_DASH, ret := (mkType T_VEC3), lhs := some (mkType T_VEC3), rhs := some (mkType T_VEC3), expr := none },
   { op := T_DASH, ret := (mkType T_VEC4), lhs := some (mkType T_VEC4), rhs := some (mkType T_VEC4), expr := none },
   { op := T_DASH, ret := (mkType T_MAT2), lhs := some (mkType T_MAT2), rhs := some (mkType T_MAT2), expr := none },
   { op := T_DASH, ret := (mkType T_MAT3), lhs := some (mkType T_MAT3), rhs := some (mkType T_MAT3), expr := none },
   { op := T_DASH, ret := (mkType T_MAT4), lhs := some (mkType T_MAT4), rhs := some (mkType T_MAT4), expr := none },
   { op := T_DASH, ret := (mkType T_IVEC2), lhs := some (mkType T_IVEC2), rhs := some (mkType T_IVEC2), expr := none },
   { op := T_DASH, ret := (mkType T_IVEC3), lhs := some (mkType T_IVEC3), rhs := some (mkType T_IVEC3), expr := none },
   { op := T_DASH, ret := (mkType T_IVEC4), lhs := some (mkType T_IVEC4), rhs := some (mkType T_IVEC4), expr := none },
   { op := T_STAR, ret := (mkType T_INT), lhs := some (mkType T_INT), rhs := some (mkType T_INT), expr := none },
   { op := T_STAR, ret := (mkType T_FLOAT), lhs := some (mkType T_FLOAT), rhs := some (mkType T_FLOAT), expr := none },
   { op := T_STAR, ret := (mkType T_VEC2), lhs := some (mkType T_VEC2), rhs := some (mkType T_VEC2), expr := none },
   { op := T_STAR, ret := (mkType T_VEC3), lhs := some (mkType T_VEC3), rhs := some (mkType T_VEC3), expr := none },
   { op := T_STAR, ret := (mkType T_VEC4), lhs := some (mkType T_VEC4), rhs := some (mkType T_VEC4), expr := none },
   { op := T_STAR, ret := (mkType T_MAT2), lhs := some (mkType T_MAT2), rhs := some (mkType T_MAT2), expr := none },
   { op := T_STAR, ret := (mkType T_MAT3), lhs := some (mkType T_MAT3), rhs := some (mkType T_MAT3), expr := none },
   { op := T_STAR, ret := (mkType T_MAT4), lhs := some (mkType T_MAT4), rhs := some (mkType T_MAT4), expr := none },
   { op := T_STAR, ret := (mkType T_IVEC2), lhs := some (mkType T_IVEC2), rhs := some (mkType T_IVEC2), expr := none },
   { op := T_STAR, ret := (mkType T_IVEC3), lhs := some (mkType T_IVEC3), rhs := some (mkType T_IVEC3), expr := none },
   { op := T_STAR, ret := (mkType T_IVEC4), lhs := some (mkType T_IVEC4), rhs := some (mkType T_IVEC4), expr := none },
   { op := T_SLASH, ret := (mkType T_INT), lhs := some (mkType T_INT), rhs := some (mkType T_INT), expr := none },
   { op := T_SLASH, ret := (mkType T_FLOAT), lhs := some (mkType T_FLOAT), rhs := some (mkType T_FLOAT), expr := none },
   { op := T_SLASH, ret := (mkType T_VEC2), lhs := some (mkType T_VEC2), rhs := some (mkType T_VEC2), expr := none },
   { op := T_SLASH, ret := (mkType T_VEC3), lhs := some (mkType T_VEC3), rhs := some (mkType T_VEC3), expr := none },
   { op := T_SLASH, ret := (mkType T_VEC4), lhs := some (mkType T_VEC4), rhs := some (mkType T_VEC4), expr := none },
   { op := T_SLASH, ret := (mkType T_MAT2), lhs := some (mkType T_MAT2), rhs := some (mkType T_MAT2), expr := none },
   { op := T_SLASH, ret := (mkType T_MAT3), lhs := some (mkType T_MAT3), rhs := some (mkType T_MAT3), expr := none }]

/-- Chunk 1 of `OperatorsList` (split to keep list literals small). -/
def OperatorsList_1 : List Operator :=
  [{ op := T_SLASH, ret := (mkType T_MAT4), lhs := some (mkType T_MAT4), rhs := some (mkType T_MAT4), expr := none },
   { op := T_SLASH, ret := (mkType T_IVEC2), lhs := some (mkType T_IVEC2), rhs := some (mkType T_IVEC2), expr := none },
   { op := T_SLASH, ret := (mkType T_IVEC3), lhs := some (mkType T_IVEC3), rhs := some (mkType T_IVEC3), expr := none },
   { op := T_SLASH, ret := (mkType T_IVEC4), lhs := some (mkType T_IVEC4), rhs := some (mkType T_IVEC4), expr := none },
   { op := T_PLUS, ret := (mkType T_VEC2), lhs := some (mkType T_FLOAT), rhs := some (mkType T_VEC2), expr := none },
   { op := T_PLUS, ret := (mkType T_VEC3), lhs := some (mkType T_FLOAT), rhs := some (mkType T_VEC3), expr := none },
   { op := T_PLUS, ret := (mkType T_VEC4), lhs := some (mkType T_FLOAT), rhs := some (mkType T_VEC4), expr := none },
   { op := T_PLUS, ret := (mkType T_MAT2), lhs := some (mkType T_FLOAT), rhs := some (mkType T_MAT2), expr := none },
   { op := T_PLUS, ret := (mkType T_MAT3), lhs := some (mkType T_FLOAT), rhs := some (mkType T_MAT3), expr := none },
   { op := T_PLUS, ret := (mkType T_MAT3), lhs := some (mkType T_FLOAT), rhs := some (mkType T_MAT3), expr := none },
   { op := T_DASH, ret := (mkType T_VEC2), lhs := some (mkType T_FLOAT), rhs := some (mkType T_VEC2), expr := none },
   { op := T_DASH, ret := (mkType T_VEC3), lhs := some (mkType T_FLOAT), rhs := some (mkType T_VEC3), expr := none },
   { op := T_DASH, ret := (mkType T_VEC4), lhs := some (mkType T_FLOAT), rhs := some (mkType T_VEC4), expr := none },
   { op := T_DASH, ret := (mkType T_MAT2), lhs := some (mkType T_FLOAT), rhs := some (mkType T_MAT2), expr := none },
   { op := T_DASH, ret := (mkType T_MAT3), lhs := some (mkType T_FLOAT), rhs := some (mkType T_MAT3), expr := none },
   { op := T_DASH, ret := (mkType T_MAT3), lhs := some (mkType T_FLOAT), rhs := some (mkType T_MAT3), expr := none },
   { op := T_STAR, ret := (mkType T_VEC2), lhs := some (mkType T_FLOAT), rhs := some (mkType T_VEC2), expr := none },
   { op := T_STAR, ret := (mkType T_VEC3), lhs := some (mkType T_FLOAT), rhs := some (mkType T_VEC3), expr := none },
   { op := T_STAR, ret := (mkType T_VEC4), lhs := some (mkType T_FLOAT), rhs := some (mkType T_VEC4), expr := none },
   { op := T_STAR, ret := (mkType T_MAT2), lhs := some (mkType T_FLOAT), rhs := some (mkType T_MAT2), expr := none },
   { op := T_STAR, ret := (mkType T_MAT3), lhs := some (mkType T_FLOAT), rhs := some (mkType T_MAT3), expr := none },
   { op := T_STAR, ret := (mkType T_MAT3), lhs := some (mkType T_FLOAT), rhs := some (mkType T_MAT3), expr := none },
   { op := T_SLASH, ret := (mkType T_VEC2), lhs := some (mkType T_FLOAT), rhs := some (mkType T_VEC2), expr := none },
   { op := T_SLASH, ret := (mkType T_VEC3), lhs := some (mkType T_FLOAT), rhs := some (mkType T_VEC3), expr := none },
   { op := T_SLASH, ret := (mkType T_VEC4), lhs := some (mkType T_FLOAT), rhs := some (mkType T_VEC4), expr := none },
   { op := T_SLASH, ret := (mkType T_MAT2), lhs := some (mkType T_FLOAT), rhs := some (mkType T_MAT2), expr := none },
   { op := T_SLASH, ret := (mkType T_MAT3), lhs := some (mkType T_FLOAT), rhs := some (mkType T_MAT3), expr := none },
   { op := T_SLASH, ret := (mkType T_MAT3), lhs := some (mkType T_FLOAT), rhs := some (mkType T_MAT3), expr := none },
   { op := T_PLUS, ret := (mkType T_VEC2), lhs := some (mkType T_VEC2), rhs := some (mkType T_FLOAT), expr := none },
   { op := T_PLUS, ret := (mkType T_VEC3), lhs := some (mkType T_VEC3), rhs := some (mkType T_FLOAT), expr := none },
   { op := T_PLUS, ret := (mkType T_VEC4), lhs := some (mkType T_VEC4), rhs := some (mkType T_FLOAT), expr := none },
   { op := T_PLUS, ret := (mkType T_MAT2), lhs := some (mkType T_MAT2), rhs := some (mkType T_FLOAT), expr := none },
   { op := T_PLUS, ret := (mkType T_MAT3), lhs := some (mkType T_MAT3), rhs := some (mkType T_FLOAT), expr := none },
   { op := T_PLUS, ret := (mkType T_MAT3), lhs := some (mkType T_MAT3), rhs := some (mkType T_FLOAT), expr := none },
   { op := T_DASH, ret := (mkType T_VEC2), lhs := some (mkType T_VEC2), rhs := some (mkType T_FLOAT), expr := none },
   { op := T_DASH, ret := (mkType T_VEC3), lhs := some (mkType T_VEC3), rhs := some (mkType T_FLOAT), expr := none },
   { op := T_DASH, ret := (mkType T_VEC4), lhs := some (mkType T_VEC4), rhs := some (mkType T_FLOAT), expr := none },
   { op := T_DASH, ret := (mkType T_MAT2), lhs := some (mkType T_MAT2), rhs := some (mkType T_FLOAT), expr := none },
   { op := T_DASH, ret := (mkType T_MAT3), lhs := some (mkType T_MAT3), rhs := some (mkType T_FLOAT), expr := none },
   { op := T_DASH, ret := (mkType T_MAT3), lhs := some (mkType T_MAT3), rhs := some (mkType T_FLOAT), expr := none }]

/-- Chunk 2 of `OperatorsList` (split to keep list literals small). -/
def OperatorsList_2 : List Operator :=
  [{ op := T_STAR, ret := (mkType T_VEC2), lhs := some (mkType T_VEC2), rhs := some (mkType T_FLOAT), expr := none },
   { op := T_STAR, ret := (mkType T_VEC3), lhs := some (mkType T_VEC3), rhs := some (mkType T_FLOAT), expr := none },
   { op := T_STAR, ret := (mkType T_VEC4), lhs := some (mkType T_VEC4), rhs := some (mkType T_FLOAT), expr := none },
   { op := T_STAR, ret := (mkType T_MAT2), lhs := some (mkType T_MAT2), rhs := some (mkType T_FLOAT), expr := none },
   { op := T_STAR, ret := (mkType T_MAT3), lhs := some (mkType T_MAT3), rhs := some (mkType T_FLOAT), expr := none },
   { op := T_STAR, ret := (mkType T_MAT3), lhs := some (mkType T_MAT3), rhs := some (mkType T_FLOAT), expr := none },
   { op := T_SLASH, ret := (mkType T_VEC2), lhs := some (mkType T_VEC2), rhs := some (mkType T_FLOAT), expr := none },
   { op := T_SLASH, ret := (mkType T_VEC3), lhs := some (mkType T_VEC3), rhs := some (mkType T_FLOAT), expr := none },
   { op := T_SLASH, ret := (mkType T_VEC4), lhs := some (mkType T_VEC4), rhs := some (mkType T_FLOAT), expr := none },
   { op := T_SLASH, ret := (mkType T_MAT2), lhs := some (mkType T_MAT2), rhs := some (mkType T_FLOAT), expr := none },
   { op := T_SLASH, ret := (mkType T_MAT3), lhs := some (mkType T_MAT3), rhs := some (mkType T_FLOAT), expr := none },
   { op := T_SLASH, ret := (mkType T_MAT3), lhs := some (mkType T_MAT3), rhs := some (mkType T_FLOAT), expr := none },
   { op := T_PLUS, ret := (mkType T_IVEC2), lhs := some (mkType T_INT), rhs := some (mkType T_IVEC2), expr := none },
   { op := T_PLUS, ret := (mkType T_IVEC3), lhs := some (mkType T_INT), rhs := some (mkType T_IVEC3), expr := none },
   { op := T_PLUS, ret := (mkType T_IVEC4), lhs := some (mkType T_INT), rhs := some (mkType T_IVEC4), expr := none },
   { op := T_DASH, ret := (mkType T_IVEC2), lhs := some (mkType T_INT), rhs := some (mkType T_IVEC2), expr := none },
   { op := T_DASH, ret := (mkType T_IVEC3), lhs := some (mkType T_INT), rhs := some (mkType T_IVEC3), expr := none },
   { op := T_DASH, ret := (mkType T_IVEC4), lhs := some (mkType T_INT), rhs := some (mkType T_IVEC4), expr := none },
   { op := T_STAR, ret := (mkType T_IVEC2), lhs := some (mkType T_INT), rhs := some (mkType T_IVEC2), expr := none },
   { op := T_STAR, ret := (mkType T_IVEC3), lhs := some (mkType T_INT), rhs := some (mkType T_IVEC3), expr := none },
   { op := T_STAR, ret := (mkType T_IVEC4), lhs := some (mkType T_INT), rhs := some (mkType T_IVEC4), expr := none },
   { op := T_SLASH, ret := (mkType T_IVEC2), lhs := some (mkType T_INT), rhs := some (mkType T_IVEC2), expr := none },
   { op := T_SLASH, ret := (mkType T_IVEC3), lhs := some (mkType T_INT), rhs := some (mkType T_IVEC3), expr := none },
   { op := T_SLASH, ret := (mkType T_IVEC4), lhs := some (mkType T_INT), rhs := some (mkType T_IVEC4), expr := none },
   { op := T_PLUS, ret := (mkType T_IVEC2), lhs := some (mkType T_IVEC2), rhs := some (mkType T_INT), expr := none },
   { op := T_PLUS, ret := (mkType T_IVEC3), lhs := some (mkType T_IVEC3), rhs := some (mkType T_INT), expr := none },
   { op := T_PLUS, ret := (mkType T_IVEC4), lhs := some (mkType T_IVEC4), rhs := some (mkType T_INT), expr := none },
   { op := T_DASH, ret := (mkType T_IVEC2), lhs := some (mkType T_IVEC2), rhs := some (mkType T_INT), expr := none },
   { op := T_DASH, ret := (mkType T_IVEC3), lhs := some (mkType T_IVEC3), rhs := some (mkType T_INT), expr := none },
   { op := T_DASH, ret := (mkType T_IVEC4), lhs := some (mkType T_IVEC4), rhs := some (mkType T_INT), expr := none },
   { op := T_STAR, ret := (mkType T_IVEC2), lhs := some (mkType T_IVEC2), rhs := some (mkType T_INT), expr := none },
   { op := T_STAR, ret := (mkType T_IVEC3), lhs := some (mkType T_IVEC3), rhs := some (mkType T_INT), expr := none },
   { op := T_STAR, ret := (mkType T_IVEC4), lhs := some (mkType T_IVEC4), rhs := some (mkType T_INT), expr := none },
   { op := T_SLASH, ret := (mkType T_IVEC2), lhs := some (mkType T_IVEC2), rhs := some (mkType T_INT), expr := none },
   { op := T_SLASH, ret := (mkType T_IVEC3), lhs := some (mkType T_IVEC3), rhs := some (mkType T_INT), expr := none },
   { op := T_SLASH, ret := (mkType T_IVEC4), lhs := some (mkType T_IVEC4), rhs := some (mkType T_INT), expr := none },
   { op := T_STAR, ret := (mkType T_VEC2), lhs := some (mkType T_MAT2), rhs := some (mkType T_VEC2), expr := none },
   { op := T_STAR, ret := (mkType T_VEC3), lhs := some (mkType T_MAT3), rhs := some (mkType T_VEC3), expr := none },
   { op := T_STAR, ret := (mkType T_VEC4), lhs := some (mkType T_MAT4), rhs := some (mkType T_VEC4), expr := none },
   { op := T_STAR, ret := (mkType T_MAT2), lhs := some (mkType T_VEC2), rhs := some (mkType T_MAT2), expr := none }]

/-- Chunk 3 of `OperatorsList` (split to keep list literals small). -/
def OperatorsList_3 : List Operator :=
  [{ op := T_STAR, ret := (mkType T_MAT3), lhs := some (mkType T_VEC3), rhs := some (mkType T_MAT3), expr := none },
   { op := T_STAR, ret := (mkType T_MAT4), lhs := some (mkType T_VEC4), rhs := some (mkType T_MAT4), expr := none },
   { op := T_LEFT_ANGLE_OP, ret := (mkType T_BOOL), lhs := some (mkType T_FLOAT), rhs := some (mkType T_FLOAT), expr := none },
   { op := T_LEFT_ANGLE_OP, ret := (mkType T_BOOL), lhs := some (mkType T_INT), rhs := some (mkType T_INT), expr := none },
   { op := T_RIGHT_ANGLE, ret := (mkType T_BOOL), lhs := some (mkType T_FLOAT), rhs := some (mkType T_FLOAT), expr := none },
   { op := T_RIGHT_ANGLE, ret := (mkType T_BOOL), lhs := some (mkType T_INT), rhs := some (mkType T_INT), expr := none },
   { op := T_LE_OP, ret := (mkType T_BOOL), lhs := some (mkType T_FLOAT), rhs := some (mkType T_FLOAT), expr := none },
   { op := T_LE_OP, ret := (mkType T_BOOL), lhs := some (mkType T_INT), rhs := some (mkType T_INT), expr := none },
   { op := T_GE_OP, ret := (mkType T_BOOL), lhs := some (mkType T_FLOAT), rhs := some (mkType T_FLOAT), expr := none },
   { op := T_GE_OP, ret := (mkType T_BOOL), lhs := some (mkType T_INT), rhs := some (mkType T_INT), expr := none },
   { op := T_EQ_OP, ret := (mkType T_BOOL), lhs := some (mkType T_INT), rhs := some (mkType T_INT), expr := none },
   { op := T_EQ_OP, ret := (mkType T_BOOL), lhs := some (mkType T_FLOAT), rhs := some (mkType T_FLOAT), expr := none },
   { op := T_EQ_OP, ret := (mkType T_BOOL), lhs := some (mkType T_BOOL), rhs := some (mkType T_BOOL), expr := none },
   { op := T_EQ_OP, ret := (mkType T_BOOL), lhs := some (mkType T_VEC2), rhs := some (mkType T_VEC2), expr := none },
   { op := T_EQ_OP, ret := (mkType T_BOOL), lhs := some (mkType T_VEC3), rhs := some (mkType T_VEC3), expr := none },
   { op := T_EQ_OP, ret := (mkType T_BOOL), lhs := some (mkType T_VEC4), rhs := some (mkType T_VEC4), expr := none },
   { op := T_EQ_OP, ret := (mkType T_BOOL), lhs := some (mkType T_MAT2), rhs := some (mkType T_MAT2), expr := none },
   { op := T_EQ_OP, ret := (mkType T_BOOL), lhs := some (mkType T_MAT3), rhs := some (mkType T_MAT3), expr := none },
   { op := T_EQ_OP, ret := (mkType T_BOOL), lhs := some (mkType T_MAT4), rhs := some (mkType T_MAT4), expr := none },
   { op := T_EQ_OP, ret := (mkType T_BOOL), lhs := some (mkType T_IVEC2), rhs := some (mkType T_IVEC2), expr := none },
   { op := T_EQ_OP, ret := (mkType T_BOOL), lhs := some (mkType T_IVEC3), rhs := some (mkType T_IVEC3), expr := none },
   { op := T_EQ_OP, ret := (mkType T_BOOL), lhs := some (mkType T_IVEC4), rhs := some (mkType T_IVEC4), expr := none },
   { op := T_NE_OP, ret := (mkType T_BOOL), lhs := some (mkType T_INT), rhs := some (mkType T_INT), expr := none },
   { op := T_NE_OP, ret := (mkType T_BOOL), lhs := some (mkType T_FLOAT), rhs := some (mkType T_FLOAT), expr := none },
   { op := T_NE_OP, ret := (mkType T_BOOL), lhs := some (mkType T_BOOL), rhs := some (mkType T_BOOL), expr := none },
   { op := T_NE_OP, ret := (mkType T_BOOL), lhs := some (mkType T_VEC2), rhs := some (mkType T_VEC2), expr := none },
   { op := T_NE_OP, ret := (mkType T_BOOL), lhs := some (mkType T_VEC3), rhs := some (mkType T_VEC3), expr := none },
   { op := T_NE_OP, ret := (mkType T_BOOL), lhs := some (mkType T_VEC4), rhs := some (mkType T_VEC4), expr := none },
   { op := T_NE_OP, ret := (mkType T_BOOL), lhs := some (mkType T_MAT2), rhs := some (mkType T_MAT2), expr := none },
   { op := T_NE_OP, ret := (mkType T_BOOL), lhs := some (mkType T_MAT3), rhs := some (mkType T_MAT3), expr := none },
   { op := T_NE_OP, ret := (mkType T_BOOL), lhs := some (mkType T_MAT4), rhs := some (mkType T_MAT4), expr := none },
   { op := T_NE_OP, ret := (mkType T_BOOL), lhs := some (mkType T_IVEC2), rhs := some (mkType T_IVEC2), expr := none },
   { op := T_NE_OP, ret := (mkType T_BOOL), lhs := some (mkType T_IVEC3), rhs := some (mkType T_IVEC3), expr := none },
   { op := T_NE_OP, ret := (mkType T_BOOL), lhs := some (mkType T_IVEC4), rhs := some (mkType T_IVEC4), expr := none },
   { op := T_AND_OP, ret := (mkType T_BOOL), lhs := some (mkType T_BOOL), rhs := some (mkType T_BOOL), expr := none },
   { op := T_OR_OP, ret := (mkType T_BOOL), lhs := some (mkType T_BOOL), rhs := some (mkType T_BOOL), expr := none },
   { op := T_XOR_OP, ret := (mkType T_BOOL), lhs := some (mkType T_BOOL), rhs := some (mkType T_BOOL), expr := none },
   { op := T_DASH, ret := (mkType T_INT), lhs := none, rhs := none, expr := some (mkType T_INT) },
   { op := T_DASH, ret := (mkType T_FLOAT), lhs := none, rhs := none, expr := some (mkType T_FLOAT) },
   { op := T_DASH, ret := (mkType T_VEC2), lhs := none, rhs := none, expr := some (mkType T_VEC2) }]

/-- Chunk 4 of `OperatorsList` (split to keep list literals small). -/
def OperatorsList_4 : List Operator :=
  [{ op := T_DASH, ret := (mkType T_VEC3), lhs := none, rhs := none, expr := some (mkType T_VEC3) },
   { op := T_DASH, ret := (mkType T_VEC4), lhs := none, rhs := none, expr := some (mkType T_VEC4) },
   { op := T_DASH, ret := (mkType T_MAT2), lhs := none, rhs := none, expr := some (mkType T_MAT2) },
   { op := T_DASH, ret := (mkType T_MAT3), lhs := none, rhs := none, expr := some (mkType T_MAT3) },
   { op := T_DASH, ret := (mkType T_MAT4), lhs := none, rhs := none, expr := some (mkType T_MAT4) },
   { op := T_DASH, ret := (mkType T_IVEC2), lhs := none, rhs := none, expr := some (mkType T_IVEC2) },
   { op := T_DASH, ret := (mkType T_IVEC3), lhs := none, rhs := none, expr := some (mkType T_IVEC3) },
   { op := T_DASH, ret := (mkType T_IVEC4), lhs := none, rhs := none, expr := some (mkType T_IVEC4) },
   { op := T_DEC_OP, ret := (mkType T_INT), lhs := none, rhs := none, expr := some (mkType T_INT) },
   { op := T_DEC_OP, ret := (mkType T_FLOAT), lhs := none, rhs := none, expr := some (mkType T_FLOAT) },
   { op := T_DEC_OP, ret := (mkType T_VEC2), lhs := none, rhs := none, expr := some (mkType T_VEC2) },
   { op := T_DEC_OP, ret := (mkType T_VEC3), lhs := none, rhs := none, expr := some (mkType T_VEC3) },
   { op := T_DEC_OP, ret := (mkType T_VEC4), lhs := none, rhs := none, expr := some (mkType T_VEC4) },
   { op := T_DEC_OP, ret := (mkType T_MAT2), lhs := none, rhs := none, expr := some (mkType T_MAT2) },
   { op := T_DEC_OP, ret := (mkType T_MAT3), lhs := none, rhs := none, expr := some (mkType T_MAT3) },
   { op := T_DEC_OP, ret := (mkType T_MAT4), lhs := none, rhs := none, expr := some (mkType T_MAT4) },
   { op := T_DEC_OP, ret := (mkType T_IVEC2), lhs := none, rhs := none, expr := some (mkType T_IVEC2) },
   { op := T_DEC_OP, ret := (mkType T_IVEC3), lhs := none, rhs := none, expr := some (mkType T_IVEC3) },
   { op := T_DEC_OP, ret := (mkType T_IVEC4), lhs := none, rhs := none, expr := some (mkType T_IVEC4) },
   { op := T_INC_OP, ret := (mkType T_INT), lhs := none, rhs := none, expr := some (mkType T_INT) },
   { op := T_INC_OP, ret := (mkType T_FLOAT), lhs := none, rhs := none, expr := some (mkType T_FLOAT) },
   { op := T_INC_OP, ret := (mkType T_VEC2), lhs := none, rhs := none, expr := some (mkType T_VEC2) },
   { op := T_INC_OP, ret := (mkType T_VEC3), lhs := none, rhs := none, expr := some (mkType T_VEC3) },
   { op := T_INC_OP, ret := (mkType T_VEC4), lhs := none, rhs := none, expr := some (mkType T_VEC4) },
   { op := T_INC_OP, ret := (mkType T_MAT2), lhs := none, rhs := none, expr := some (mkType T_MAT2) },
   { op := T_INC_OP, ret := (mkType T_MAT3), lhs := none, rhs := none, expr := some (mkType T_MAT3) },
   { op := T_INC_OP, ret := (mkType T_MAT4), lhs := none, rhs := none, expr := some (mkType T_MAT4) },
   { op := T_INC_OP, ret := (mkType T_IVEC2), lhs := none, rhs := none, expr := some (mkType T_IVEC2) },
   { op := T_INC_OP, ret := (mkType T_IVEC3), lhs := none, rhs := none, expr := some (mkType T_IVEC3) },
   { op := T_INC_OP, ret := (mkType T_IVEC4), lhs := none, rhs := none, expr := some (mkType T_IVEC4) },
   { op := T_BANG, ret := (mkType T_BOOL), lhs := none, rhs := none, expr := some (mkType T_BOOL) }]

/-- The `Operators` table of the built catalogue, materialized (see `builtins_eq`). -/
def OperatorsList : List Operator :=
  OperatorsList_0 ++ OperatorsList_1 ++ OperatorsList_2 ++ OperatorsList_3 ++ OperatorsList_4

/-- Chunk 0 of `OperatorMapList` (split to keep list literals small). -/
def OperatorMapList_0 : List (String × Operator) :=
  [("+(int,int)", { op := T_PLUS, ret := (mkType T_INT), lhs := some (mkType T_INT), rhs := some (mkType T_INT), expr := none }),
   ("+(float,float)", { op := T_PLUS, ret := (mkType T_FLOAT), lhs := some (mkType T_FLOAT), rhs := some (mkType T_FLOAT), expr := none }),
   ("+(vec2,vec2)", { op := T_PLUS, ret := (mkType T_VEC2), lhs := some (mkType T_VEC2), rhs := some (mkType T_VEC2), expr := none }),
   ("+(vec3,vec3)", { op := T_PLUS, ret := (mkType T_VEC3), lhs := some (mkType T_VEC3), rhs := some (mkType T_VEC3), expr := none }),
   ("+(vec4,vec4)", { op := T_PLUS, ret := (mkType T_VEC4), lhs := some (mkType T_VEC4), rhs := some (mkType T_VEC4), expr := none }),
   ("+(mat2,mat2)", { op := T_PLUS, ret := (mkType T_MAT2), lhs := some (mkType T_MAT2), rhs := some (mkType T_MAT2), expr := none }),
   ("+(mat3,mat3)", { op := T_PLUS, ret := (mkType T_MAT3), lhs := some (mkType T_MAT3), rhs := some (mkType T_MAT3), expr := none }),
   ("+(mat4,mat4)", { op := T_PLUS, ret := (mkType T_MAT4), lhs := some (mkType T_MAT4), rhs := some (mkType T_MAT4), expr := none }),
   ("+(ivec2,ivec2)", { op := T_PLUS, ret := (mkType T_IVEC2), lhs := some (mkType T_IVEC2), rhs := some (mkType T_IVEC2), expr := none }),
   ("+(ivec3,ivec3)", { op := T_PLUS, ret := (mkType T_IVEC3), lhs := some (mkType T_IVEC3), rhs := some (mkType T_IVEC3), expr := none }),
   ("+(ivec4,ivec4)", { op := T_PLUS, ret := (mkType T_IVEC4), lhs := some (mkType T_IVEC4), rhs := some (mkType T_IVEC4), expr := none }),
   ("-(int,int)", { op := T_DASH, ret := (mkType T_INT), lhs := some (mkType T_INT), rhs := some (mkType T_INT), expr := none }),
   ("-(float,float)", { op := T_DASH, ret := (mkType T_FLOAT), lhs := some (mkType T_FLOAT), rhs := some (mkType T_FLOAT), expr := none }),
   ("-(vec2,vec2)", { op := T_DASH, ret := (mkType T_VEC2), lhs := some (mkType T_VEC2), rhs := some (mkType T_VEC2), expr := none }),
   ("-(vec3,vec3)", { op := T_DASH, ret := (mkType T_VEC3), lhs := some (mkType T_VEC3), rhs := some (mkType T_VEC3), expr := none }),
   ("-(vec4,vec4)", { op := T_DASH, ret := (mkType T_VEC4), lhs := some (mkType T_VEC4), rhs := some (mkType T_VEC4), expr := none }),
   ("-(mat2,mat2)", { op := T_DASH, ret := (mkType T_MAT2), lhs := some (mkType T_MAT2), rhs := some (mkType T_MAT2), expr := none }),
   ("-(mat3,mat3)", { op := T_DASH, ret := (mkType T_MAT3), lhs := some (mkType T_MAT3), rhs := some (mkType T_MAT3), expr := none }),
   ("-(mat4,mat4)", { op := T_DASH, ret := (mkType T_MAT4), lhs := some (mkType T_MAT4), rhs := some (mkType T_MAT4), expr := none }),
   ("-(ivec2,ivec2)", { op := T_DASH, ret := (mkType T_IVEC2), lhs := some (mkType T_IVEC2), rhs := some (mkType T_IVEC2), expr := none }),
   ("-(ivec3,ivec3)", { op := T_DASH, ret := (mkType T_IVEC3), lhs := some (mkType T_IVEC3), rhs := some (mkType T_IVEC3), expr := none }),
   ("-(ivec4,ivec4)", { op := T_DASH, ret := (mkType T_IVEC4), lhs := some (mkType T_IVEC4), rhs := some (mkType T_IVEC4), expr := none }),
   ("*(int,int)", { op := T_STAR, ret := (mkType T_INT), lhs := some (mkType T_INT), rhs := some (mkType T_INT), expr := none }),
   ("*(float,float)", { op := T_STAR, ret := (mkType T_FLOAT), lhs := some (mkType T_FLOAT), rhs := some (mkType T_FLOAT), expr := none }),
   ("*(vec2,vec2)", { op := T_STAR, ret := (mkType T_VEC2), lhs := some (mkType T_VEC2), rhs := some (mkType T_VEC2), expr := none }),
   ("*(vec3,vec3)", { op := T_STAR, ret := (mkType T_VEC3), lhs := some (mkType T_VEC3), rhs := some (mkType T_VEC3), expr := none }),
   ("*(vec4,vec4)", { op := T_STAR, ret := (mkType T_VEC4), lhs := some (mkType T_VEC4), rhs := some (mkType T_VEC4), expr := none }),
   ("*(mat2,mat2)", { op := T_STAR, ret := (mkType T_MAT2), lhs := some (mkType T_MAT2), rhs := some (mkType T_MAT2), expr := none }),
   ("*(mat3,mat3)", { op := T_STAR, ret := (mkType T_MAT3), lhs := some (mkType T_MAT3), rhs := some (mkType T_MAT3), expr := none }),
   ("*(mat4,mat4)", { op := T_STAR, ret := (mkType T_MAT4), lhs := some (mkType T_MAT4), rhs := some (mkType T_MAT4), expr := none }),
   ("*(ivec2,ivec2)", { op := T_STAR, ret := (mkType T_IVEC2), lhs := some (mkType T_IVEC2), rhs := some (mkType T_IVEC2), expr := none }),
   ("*(ivec3,ivec3)", { op := T_STAR, ret := (mkType T_IVEC3), lhs := some (mkType T_IVEC3), rhs := some (mkType T_IVEC3), expr := none }),
   ("*(ivec4,ivec4)", { op := T_STAR, ret := (mkType T_IVEC4), lhs := some (mkType T_IVEC4), rhs := some (mkType T_IVEC4), expr := none }),
   ("/(int,int)", { op := T_SLASH, ret := (mkType T_INT), lhs := some (mkType T_INT), rhs := some (mkType T_INT), expr := none }),
   ("/(float,float)", { op := T_SLASH, ret := (mkType T_FLOAT), lhs := some (mkType T_FLOAT), rhs := some (mkType T_FLOAT), expr := none }),
   ("/(vec2,vec2)", { op := T_SLASH, ret := (mkType T_VEC2), lhs := some (mkType T_VEC2), rhs := some (mkType T_VEC2), expr := none }),
   ("/(vec3,vec3)", { op := T_SLASH, ret := (mkType T_VEC3), lhs := some (mkType T_VEC3), rhs := some (mkType T_VEC3), expr := none }),
   ("/(vec4,vec4)", { op := T_SLASH, ret := (mkType T_VEC4), lhs := some (mkType T_VEC4), rhs := some (mkType T_VEC4), expr := none }),
   ("/(mat2,mat2)", { op := T_SLASH, ret := (mkType T_MAT2), lhs := some (mkType T_MAT2), rhs := some (mkType T_MAT2), expr := none }),
   ("/(mat3,mat3)", { op := T_SLASH, ret := (mkType T_MAT3), lhs := some (mkType T_MAT3), rhs := some (mkType T_MAT3), expr := none })]

/-- Chunk 1 of `OperatorMapList` (split to keep list literals small). -/
def OperatorMapList_1 : List (String × Operator) :=
  [("/(mat4,mat4)", { op := T_SLASH, ret := (mkType T_MAT4), lhs := some (mkType T_MAT4), rhs := some (mkType T_MAT4), expr := none }),
   ("/(ivec2,ivec2)", { op := T_SLASH, ret := (mkType T_IVEC2), lhs := some (mkType T_IVEC2), rhs := some (mkType T_IVEC2), expr := none }),
   ("/(ivec3,ivec3)", { op := T_SLASH, ret := (mkType T_IVEC3), lhs := some (mkType T_IVEC3), rhs := some (mkType T_IVEC3), expr := none }),
   ("/(ivec4,ivec4)", { op := T_SLASH, ret := (mkType T_IVEC4), lhs := some (mkType T_IVEC4), rhs := some (mkType T_IVEC4), expr := none }),
   ("+(float,vec2)", { op := T_PLUS, ret := (mkType T_VEC2), lhs := some (mkType T_FLOAT), rhs := some (mkType T_VEC2), expr := none }),
   ("+(float,vec3)", { op := T_PLUS, ret := (mkType T_VEC3), lhs := some (mkType T_FLOAT), rhs := some (mkType T_VEC3), expr := none }),
   ("+(float,vec4)", { op := T_PLUS, ret := (mkType T_VEC4), lhs := some (mkType T_FLOAT), rhs := some (mkType T_VEC4), expr := none }),
   ("+(float,mat2)", { op := T_PLUS, ret := (mkType T_MAT2), lhs := some (mkType T_FLOAT), rhs := some (mkType T_MAT2), expr := none }),
   ("+(float,mat3)", { op := T_PLUS, ret := (mkType T_MAT3), lhs := some (mkType T_FLOAT), rhs := some (mkType T_MAT3), expr := none }),
   ("-(float,vec2)", { op := T_DASH, ret := (mkType T_VEC2), lhs := some (mkType T_FLOAT), rhs := some (mkType T_VEC2), expr := none }),
   ("-(float,vec3)", { op := T_DASH, ret := (mkType T_VEC3), lhs := some (mkType T_FLOAT), rhs := some (mkType T_VEC3), expr := none }),
   ("-(float,vec4)", { op := T_DASH, ret := (mkType T_VEC4), lhs := some (mkType T_FLOAT), rhs := some (mkType T_VEC4), expr := none }),
   ("-(float,mat2)", { op := T_DASH, ret := (mkType T_MAT2), lhs := some (mkType T_FLOAT), rhs := some (mkType T_MAT2), expr := none }),
   ("-(float,mat3)", { op := T_DASH, ret := (mkType T_MAT3), lhs := some (mkType T_FLOAT), rhs := some (mkType T_MAT3), expr := none }),
   ("*(float,vec2)", { op := T_STAR, ret := (mkType T_VEC2), lhs := some (mkType T_FLOAT), rhs := some (mkType T_VEC2), expr := none }),
   ("*(float,vec3)", { op := T_STAR, ret := (mkType T_VEC3), lhs := some (mkType T_FLOAT), rhs := some (mkType T_VEC3), expr := none }),
   ("*(float,vec4)", { op := T_STAR, ret := (mkType T_VEC4), lhs := some (mkType T_FLOAT), rhs := some (mkType T_VEC4), expr := none }),
   ("*(float,mat2)", { op := T_STAR, ret := (mkType T_MAT2), lhs := some (mkType T_FLOAT), rhs := some (mkType T_MAT2), expr := none }),
   ("*(float,mat3)", { op := T_STAR, ret := (mkType T_MAT3), lhs := some (mkType T_FLOAT), rhs := some (mkType T_MAT3), expr := none }),
   ("/(float,vec2)", { op := T_SLASH, ret := (mkType T_VEC2), lhs := some (mkType T_FLOAT), rhs := some (mkType T_VEC2), expr := none }),
   ("/(float,vec3)", { op := T_SLASH, ret := (mkType T_VEC3), lhs := some (mkType T_FLOAT), rhs := some (mkType T_VEC3), expr := none }),
   ("/(float,vec4)", { op := T_SLASH, ret := (mkType T_VEC4), lhs := some (mkType T_FLOAT), rhs := some (mkType T_VEC4), expr := none }),
   ("/(float,mat2)", { op := T_SLASH, ret := (mkType T_MAT2), lhs := some (mkType T_FLOAT), rhs := some (mkType T_MAT2), expr := none }),
   ("/(float,mat3)", { op := T_SLASH, ret := (mkType T_MAT3), lhs := some (mkType T_FLOAT), rhs := some (mkType T_MAT3), expr := none }),
   ("+(vec2,float)", { op := T_PLUS, ret := (mkType T_VEC2), lhs := some (mkType T_VEC2), rhs := some (mkType T_FLOAT), expr := none }),
   ("+(vec3,float)", { op := T_PLUS, ret := (mkType T_VEC3), lhs := some (mkType T_VEC3), rhs := some (mkType T_FLOAT), expr := none }),
   ("+(vec4,float)", { op := T_PLUS, ret := (mkType T_VEC4), lhs := some (mkType T_VEC4), rhs := some (mkType T_FLOAT), expr := none }),
   ("+(mat2,float)", { op := T_PLUS, ret := (mkType T_MAT2), lhs := some (mkType T_MAT2), rhs := some (mkType T_FLOAT), expr := none }),
   ("+(mat3,float)", { op := T_PLUS, ret := (mkType T_MAT3), lhs := some (mkType T_MAT3), rhs := some (mkType T_FLOAT), expr := none }),
   ("-(vec2,float)", { op := T_DASH, ret := (mkType T_VEC2), lhs := some (mkType T_VEC2), rhs := some (mkType T_FLOAT), expr := none }),
   ("-(vec3,float)", { op := T_DASH, ret := (mkType T_VEC3), lhs := some (mkType T_VEC3), rhs := some (mkType T_FLOAT), expr := none }),
   ("-(vec4,float)", { op := T_DASH, ret := (mkType T_VEC4), lhs := some (mkType T_VEC4), rhs := some (mkType T_FLOAT), expr := none }),
   ("-(mat2,float)", { op := T_DASH, ret := (mkType T_MAT2), lhs := some (mkType T_MAT2), rhs := some (mkType T_FLOAT), expr := none }),
   ("-(mat3,float)", { op := T_DASH, ret := (mkType T_MAT3), lhs := some (mkType T_MAT3), rhs := some (mkType T_FLOAT), expr := none }),
   ("*(vec2,float)", { op := T_STAR, ret := (mkType T_VEC2), lhs := some (mkType T_VEC2), rhs := some (mkType T_FLOAT), expr := none }),
   ("*(vec3,float)", { op := T_STAR, ret := (mkType T_VEC3), lhs := some (mkType T_VEC3), rhs := some (mkType T_FLOAT), expr := none }),
   ("*(vec4,float)", { op := T_STAR, ret := (mkType T_VEC4), lhs := some (mkType T_VEC4), rhs := some (mkType T_FLOAT), expr := none }),
   ("*(mat2,float)", { op := T_STAR, ret := (mkType T_MAT2), lhs := some (mkType T_MAT2), rhs := some (mkType T_FLOAT), expr := none }),
   ("*(mat3,float)", { op := T_STAR, ret := (mkType T_MAT3), lhs := some (mkType T_MAT3), rhs := some (mkType T_FLOAT), expr := none }),
   ("/(vec2,float)", { op := T_SLASH, ret := (mkType T_VEC2), lhs := some (mkType T_VEC2), rhs := some (mkType T_FLOAT), expr := none })]

/-- Chunk 2 of `OperatorMapList` (split to keep list literals small). -/
def OperatorMapList_2 : List (String × Operator) :=
  [("/(vec3,float)", { op := T_SLASH, ret := (mkType T_VEC3), lhs := some (mkType T_VEC3), rhs := some (mkType T_FLOAT), expr := none }),
   ("/(vec4,float)", { op := T_SLASH, ret := (mkType T_VEC4), lhs := some (mkType T_VEC4), rhs := some (mkType T_FLOAT), expr := none }),
   ("/(mat2,float)", { op := T_SLASH, ret := (mkType T_MAT2), lhs := some (mkType T_MAT2), rhs := some (mkType T_FLOAT), expr := none }),
   ("/(mat3,float)", { op := T_SLASH, ret := (mkType T_MAT3), lhs := some (mkType T_MAT3), rhs := some (mkType T_FLOAT), expr := none }),
   ("+(int,ivec2)", { op := T_PLUS, ret := (mkType T_IVEC2), lhs := some (mkType T_INT), rhs := some (mkType T_IVEC2), expr := none }),
   ("+(int,ivec3)", { op := T_PLUS, ret := (mkType T_IVEC3), lhs := some (mkType T_INT), rhs := some (mkType T_IVEC3), expr := none }),
   ("+(int,ivec4)", { op := T_PLUS, ret := (mkType T_IVEC4), lhs := some (mkType T_INT), rhs := some (mkType T_IVEC4), expr := none }),
   ("-(int,ivec2)", { op := T_DASH, ret := (mkType T_IVEC2), lhs := some (mkType T_INT), rhs := some (mkType T_IVEC2), expr := none }),
   ("-(int,ivec3)", { op := T_DASH, ret := (mkType T_IVEC3), lhs := some (mkType T_INT), rhs := some (mkType T_IVEC3), expr := none }),
   ("-(int,ivec4)", { op := T_DASH, ret := (mkType T_IVEC4), lhs := some (mkType T_INT), rhs := some (mkType T_IVEC4), expr := none }),
   ("*(int,ivec2)", { op := T_STAR, ret := (mkType T_IVEC2), lhs := some (mkType T_INT), rhs := some (mkType T_IVEC2), expr := none }),
   ("*(int,ivec3)", { op := T_STAR, ret := (mkType T_IVEC3), lhs := some (mkType T_INT), rhs := some (mkType T_IVEC3), expr := none }),
   ("*(int,ivec4)", { op := T_STAR, ret := (mkType T_IVEC4), lhs := some (mkType T_INT), rhs := some (mkType T_IVEC4), expr := none }),
   ("/(int,ivec2)", { op := T_SLASH, ret := (mkType T_IVEC2), lhs := some (mkType T_INT), rhs := some (mkType T_IVEC2), expr := none }),
   ("/(int,ivec3)", { op := T_SLASH, ret := (mkType T_IVEC3), lhs := some (mkType T_INT), rhs := some (mkType T_IVEC3), expr := none }),
   ("/(int,ivec4)", { op := T_SLASH, ret := (mkType T_IVEC4), lhs := some (mkType T_INT), rhs := some (mkType T_IVEC4), expr := none }),
   ("+(ivec2,int)", { op := T_PLUS, ret := (mkType T_IVEC2), lhs := some (mkType T_IVEC2), rhs := some (mkType T_INT), expr := none }),
   ("+(ivec3,int)", { op := T_PLUS, ret := (mkType T_IVEC3), lhs := some (mkType T_IVEC3), rhs := some (mkType T_INT), expr := none }),
   ("+(ivec4,int)", { op := T_PLUS, ret := (mkType T_IVEC4), lhs := some (mkType T_IVEC4), rhs := some (mkType T_INT), expr := none }),
   ("-(ivec2,int)", { op := T_DASH, ret := (mkType T_IVEC2), lhs := some (mkType T_IVEC2), rhs := some (mkType T_INT), expr := none }),
   ("-(ivec3,int)", { op := T_DASH, ret := (mkType T_IVEC3), lhs := some (mkType T_IVEC3), rhs := some (mkType T_INT), expr := none }),
   ("-(ivec4,int)", { op := T_DASH, ret := (mkType T_IVEC4), lhs := some (mkType T_IVEC4), rhs := some (mkType T_INT), expr := none }),
   ("*(ivec2,int)", { op := T_STAR, ret := (mkType T_IVEC2), lhs := some (mkType T_IVEC2), rhs := some (mkType T_INT), expr := none }),
   ("*(ivec3,int)", { op := T_STAR, ret := (mkType T_IVEC3), lhs := some (mkType T_IVEC3), rhs := some (mkType T_INT), expr := none }),
   ("*(ivec4,int)", { op := T_STAR, ret := (mkType T_IVEC4), lhs := some (mkType T_IVEC4), rhs := some (mkType T_INT), expr := none }),
   ("/(ivec2,int)", { op := T_SLASH, ret := (mkType T_IVEC2), lhs := some (mkType T_IVEC2), rhs := some (mkType T_INT), expr := none }),
   ("/(ivec3,int)", { op := T_SLASH, ret := (mkType T_IVEC3), lhs := some (mkType T_IVEC3), rhs := some (mkType T_INT), expr := none }),
   ("/(ivec4,int)", { op := T_SLASH, ret := (mkType T_IVEC4), lhs := some (mkType T_IVEC4), rhs := some (mkType T_INT), expr := none }),
   ("*(mat2,vec2)", { op := T_STAR, ret := (mkType T_VEC2), lhs := some (mkType T_MAT2), rhs := some (mkType T_VEC2), expr := none }),
   ("*(mat3,vec3)", { op := T_STAR, ret := (mkType T_VEC3), lhs := some (mkType T_MAT3), rhs := some (mkType T_VEC3), expr := none }),
   ("*(mat4,vec4)", { op := T_STAR, ret := (mkType T_VEC4), lhs := some (mkType T_MAT4), rhs := some (mkType T_VEC4), expr := none }),
   ("*(vec2,mat2)", { op := T_STAR, ret := (mkType T_MAT2), lhs := some (mkType T_VEC2), rhs := some (mkType T_MAT2), expr := none }),
   ("*(vec3,mat3)", { op := T_STAR, ret := (mkType T_MAT3), lhs := some (mkType T_VEC3), rhs := some (mkType T_MAT3), expr := none }),
   ("*(vec4,mat4)", { op := T_STAR, ret := (mkType T_MAT4), lhs := some (mkType T_VEC4), rhs := some (mkType T_MAT4), expr := none }),
   ("<(float,float)", { op := T_LEFT_ANGLE_OP, ret := (mkType T_BOOL), lhs := some (mkType T_FLOAT), rhs := some (mkType T_FLOAT), expr := none }),
   ("<(int,int)", { op := T_LEFT_ANGLE_OP, ret := (mkType T_BOOL), lhs := some (mkType T_INT), rhs := some (mkType T_INT), expr := none }),
   (">(float,float)", { op := T_RIGHT_ANGLE, ret := (mkType T_BOOL), lhs := some (mkType T_FLOAT), rhs := some (mkType T_FLOAT), expr := none }),
   (">(int,int)", { op := T_RIGHT_ANGLE, ret := (mkType T_BOOL), lhs := some (mkType T_INT), rhs := some (mkType T_INT), expr := none }),
   ("<=(float,float)", { op := T_LE_OP, ret := (mkType T_BOOL), lhs := some (mkType T_FLOAT), rhs := some (mkType T_FLOAT), expr := none }),
   ("<=(int,int)", { op := T_LE_OP, ret := (mkType T_BOOL), lhs := some (mkType T_INT), rhs := some (mkType T_INT), expr := none })]

/-- Chunk 3 of `OperatorMapList` (split to keep list literals small). -/
def OperatorMapList_3 : List (String × Operator) :=
  [(">=(float,float)", { op := T_GE_OP, ret := (mkType T_BOOL), lhs := some (mkType T_FLOAT), rhs := some (mkType T_FLOAT), expr := none }),
   (">=(int,int)", { op := T_GE_OP, ret := (mkType T_BOOL), lhs := some (mkType T_INT), rhs := some (mkType T_INT), expr := none }),
   ("==(int,int)", { op := T_EQ_OP, ret := (mkType T_BOOL), lhs := some (mkType T_INT), rhs := some (mkType T_INT), expr := none }),
   ("==(float,float)", { op := T_EQ_OP, ret := (mkType T_BOOL), lhs := some (mkType T_FLOAT), rhs := some (mkType T_FLOAT), expr := none }),
   ("==(bool,bool)", { op := T_EQ_OP, ret := (mkType T_BOOL), lhs := some (mkType T_BOOL), rhs := some (mkType T_BOOL), expr := none }),
   ("==(vec2,vec2)", { op := T_EQ_OP, ret := (mkType T_BOOL), lhs := some (mkType T_VEC2), rhs := some (mkType T_VEC2), expr := none }),
   ("==(vec3,vec3)", { op := T_EQ_OP, ret := (mkType T_BOOL), lhs := some (mkType T_VEC3), rhs := some (mkType T_VEC3), expr := none }),
   ("==(vec4,vec4)", { op := T_EQ_OP, ret := (mkType T_BOOL), lhs := some (mkType T_VEC4), rhs := some (mkType T_VEC4), expr := none }),
   ("==(mat2,mat2)", { op := T_EQ_OP, ret := (mkType T_BOOL), lhs := some (mkType T_MAT2), rhs := some (mkType T_MAT2), expr := none }),
   ("==(mat3,mat3)", { op := T_EQ_OP, ret := (mkType T_BOOL), lhs := some (mkType T_MAT3), rhs := some (mkType T_MAT3), expr := none }),
   ("==(mat4,mat4)", { op := T_EQ_OP, ret := (mkType T_BOOL), lhs := some (mkType T_MAT4), rhs := some (mkType T_MAT4), expr := none }),
   ("==(ivec2,ivec2)", { op := T_EQ_OP, ret := (mkType T_BOOL), lhs := some (mkType T_IVEC2), rhs := some (mkType T_IVEC2), expr := none }),
   ("==(ivec3,ivec3)", { op := T_EQ_OP, ret := (mkType T_BOOL), lhs := some (mkType T_IVEC3), rhs := some (mkType T_IVEC3), expr := none }),
   ("==(ivec4,ivec4)", { op := T_EQ_OP, ret := (mkType T_BOOL), lhs := some (mkType T_IVEC4), rhs := some (mkType T_IVEC4), expr := none }),
   ("!=(int,int)", { op := T_NE_OP, ret := (mkType T_BOOL), lhs := some (mkType T_INT), rhs := some (mkType T_INT), expr := none }),
   ("!=(float,float)", { op := T_NE_OP, ret := (mkType T_BOOL), lhs := some (mkType T_FLOAT), rhs := some (mkType T_FLOAT), expr := none }),
   ("!=(bool,bool)", { op := T_NE_OP, ret := (mkType T_BOOL), lhs := some (mkType T_BOOL), rhs := some (mkType T_BOOL), expr := none }),
   ("!=(vec2,vec2)", { op := T_NE_OP, ret := (mkType T_BOOL), lhs := some (mkType T_VEC2), rhs := some (mkType T_VEC2), expr := none }),
   ("!=(vec3,vec3)", { op := T_NE_OP, ret := (mkType T_BOOL), lhs := some (mkType T_VEC3), rhs := some (mkType T_VEC3), expr := none }),
   ("!=(vec4,vec4)", { op := T_NE_OP, ret := (mkType T_BOOL), lhs := some (mkType T_VEC4), rhs := some (mkType T_VEC4), expr := none }),
   ("!=(mat2,mat2)", { op := T_NE_OP, ret := (mkType T_BOOL), lhs := some (mkType T_MAT2), rhs := some (mkType T_MAT2), expr := none }),
   ("!=(mat3,mat3)", { op := T_NE_OP, ret := (mkType T_BOOL), lhs := some (mkType T_MAT3), rhs := some (mkType T_MAT3), expr := none }),
   ("!=(mat4,mat4)", { op := T_NE_OP, ret := (mkType T_BOOL), lhs := some (mkType T_MAT4), rhs := some (mkType T_MAT4), expr := none }),
   ("!=(ivec2,ivec2)", { op := T_NE_OP, ret := (mkType T_BOOL), lhs := some (mkType T_IVEC2), rhs := some (mkType T_IVEC2), expr := none }),
   ("!=(ivec3,ivec3)", { op := T_NE_OP, ret := (mkType T_BOOL), lhs := some (mkType T_IVEC3), rhs := some (mkType T_IVEC3), expr := none }),
   ("!=(ivec4,ivec4)", { op := T_NE_OP, ret := (mkType T_BOOL), lhs := some (mkType T_IVEC4), rhs := some (mkType T_IVEC4), expr := none }),
   ("&&(bool,bool)", { op := T_AND_OP, ret := (mkType T_BOOL), lhs := some (mkType T_BOOL), rhs := some (mkType T_BOOL), expr := none }),
   ("||(bool,bool)", { op := T_OR_OP, ret := (mkType T_BOOL), lhs := some (mkType T_BOOL), rhs := some (mkType T_BOOL), expr := none }),
   ("^^(bool,bool)", { op := T_XOR_OP, ret := (mkType T_BOOL), lhs := some (mkType T_BOOL), rhs := some (mkType T_BOOL), expr := none }),
   ("-(int)", { op := T_DASH, ret := (mkType T_INT), lhs := none, rhs := none, expr := some (mkType T_INT) }),
   ("-(float)", { op := T_DASH, ret := (mkType T_FLOAT), lhs := none, rhs := none, expr := some (mkType T_FLOAT) }),
   ("-(vec2)", { op := T_DASH, ret := (mkType T_VEC2), lhs := none, rhs := none, expr := some (mkType T_VEC2) }),
   ("-(vec3)", { op := T_DASH, ret := (mkType T_VEC3), lhs := none, rhs := none, expr := some (mkType T_VEC3) }),
   ("-(vec4)", { op := T_DASH, ret := (mkType T_VEC4), lhs := none, rhs := none, expr := some (mkType T_VEC4) }),
   ("-(mat2)", { op := T_DASH, ret := (mkType T_MAT2), lhs := none, rhs := none, expr := some (mkType T_MAT2) }),
   ("-(mat3)", { op := T_DASH, ret := (mkType T_MAT3), lhs := none, rhs := none, expr := some (mkType T_MAT3) }),
   ("-(mat4)", { op := T_DASH, ret := (mkType T_MAT4), lhs := none, rhs := none, expr := some (mkType T_MAT4) }),
   ("-(ivec2)", { op := T_DASH, ret := (mkType T_IVEC2), lhs := none, rhs := none, expr := some (mkType T_IVEC2) }),
   ("-(ivec3)", { op := T_DASH, ret := (mkType T_IVEC3), lhs := none, rhs := none, expr := some (mkType T_IVEC3) }),
   ("-(ivec4)", { op := T_DASH, ret := (mkType T_IVEC4), lhs := none, rhs := none, expr := some (mkType T_IVEC4) })]

/-- Chunk 4 of `OperatorMapList` (split to keep list literals small). -/
def OperatorMapList_4 : List (String × Operator) :=
  [("--(int)", { op := T_DEC_OP, ret := (mkType T_INT), lhs := none, rhs := none, expr := some (mkType T_INT) }),
   ("--(float)", { op := T_DEC_OP, ret := (mkType T_FLOAT), lhs := none, rhs := none, expr := some (mkType T_FLOAT) }),
   ("--(vec2)", { op := T_DEC_OP, ret := (mkType T_VEC2), lhs := none, rhs := none, expr := some (mkType T_VEC2) }),
   ("--(vec3)", { op := T_DEC_OP, ret := (mkType T_VEC3), lhs := none, rhs := none, expr := some (mkType T_VEC3) }),
   ("--(vec4)", { op := T_DEC_OP, ret := (mkType T_VEC4), lhs := none, rhs := none, expr := some (mkType T_VEC4) }),
   ("--(mat2)", { op := T_DEC_OP, ret := (mkType T_MAT2), lhs := none, rhs := none, expr := some (mkType T_MAT2) }),
   ("--(mat3)", { op := T_DEC_OP, ret := (mkType T_MAT3), lhs := none, rhs := none, expr := some (mkType T_MAT3) }),
   ("--(mat4)", { op := T_DEC_OP, ret := (mkType T_MAT4), lhs := none, rhs := none, expr := some (mkType T_MAT4) }),
   ("--(ivec2)", { op := T_DEC_OP, ret := (mkType T_IVEC2), lhs := none, rhs := none, expr := some (mkType T_IVEC2) }),
   ("--(ivec3)", { op := T_DEC_OP, ret := (mkType T_IVEC3), lhs := none, rhs := none, expr := some (mkType T_IVEC3) }),
   ("--(ivec4)", { op := T_DEC_OP, ret := (mkType T_IVEC4), lhs := none, rhs := none, expr := some (mkType T_IVEC4) }),
   ("++(int)", { op := T_INC_OP, ret := (mkType T_INT), lhs := none, rhs := none, expr := some (mkType T_INT) }),
   ("++(float)", { op := T_INC_OP, ret := (mkType T_FLOAT), lhs := none, rhs := none, expr := some (mkType T_FLOAT) }),
   ("++(vec2)", { op := T_INC_OP, ret := (mkType T_VEC2), lhs := none, rhs := none, expr := some (mkType T_VEC2) }),
   ("++(vec3)", { op := T_INC_OP, ret := (mkType T_VEC3), lhs := none, rhs := none, expr := some (mkType T_VEC3) }),
   ("++(vec4)", { op := T_INC_OP, ret := (mkType T_VEC4), lhs := none, rhs := none, expr := some (mkType T_VEC4) }),
   ("++(mat2)", { op := T_INC_OP, ret := (mkType T_MAT2), lhs := none, rhs := none, expr := some (mkType T_MAT2) }),
   ("++(mat3)", { op := T_INC_OP, ret := (mkType T_MAT3), lhs := none, rhs := none, expr := some (mkType T_MAT3) }),
   ("++(mat4)", { op := T_INC_OP, ret := (mkType T_MAT4), lhs := none, rhs := none, expr := some (mkType T_MAT4) }),
   ("++(ivec2)", { op := T_INC_OP, ret := (mkType T_IVEC2), lhs := none, rhs := none, expr := some (mkType T_IVEC2) }),
   ("++(ivec3)", { op := T_INC_OP, ret := (mkType T_IVEC3), lhs := none, rhs := none, expr := some (mkType T_IVEC3) }),
   ("++(ivec4)", { op := T_INC_OP, ret := (mkType T_IVEC4), lhs := none, rhs := none, expr := some (mkType T_IVEC4) }),
   ("!(bool)", { op := T_BANG, ret := (mkType T_BOOL), lhs := none, rhs := none, expr := some (mkType T_BOOL) })]

/-- The `OperatorMap` table of the built catalogue, materialized (see `builtins_eq`). -/
def OperatorMapList : List (String × Operator) :=
  OperatorMapList_0 ++ OperatorMapList_1 ++ OperatorMapList_2 ++ OperatorMapList_3 ++ OperatorMapList_4


/-! ### JavaScript runtime-error location extraction (`js/app/app.js`)

`src/unnamed/part_000` holds two revisions of app.js.  The first
(lines 56-93) checks `lines[1]` against the Chrome pattern and `lines[0]`
against the Firefox pattern, but tests `if (func)` — the regex object,
always truthy — instead of `if (m)`, so a non-matching stack dereferences
the `null` match result.  The second revision (lines 733-780) scans every
line, tests `if (m)` on both patterns, and returns `null` when nothing
matches.

The two anchored regexes are modelled as suffix parsers:
`/, <anonymous>:([0-9]+):([0-9]+)\)$/` matches exactly the lines ending in
the literal `, <anonymous>:`, one-or-more digits, `:`, one-or-more digits
and `)`; `/> Function:([0-9]+):([0-9]+)$/` those ending in `> Function:`,
digits, `:`, digits.  Since the capture groups are delimited by non-digit
characters the decomposition is unique, so suffix parsing from the end of
the line is equivalent to the regex match. -/

/-- JavaScript `stack.split('\n')` on the character list (splitting on a
single separator; the empty string splits to `[""]`). -/
def splitNl : List Char → List (List Char)
  | [] => [[]]
  | c :: rest =>
    match splitNl rest with
    | [] => [[]]
    | l :: ls => if c = '\n' then [] :: l :: ls else (c :: l) :: ls

/-- The lines of a stack trace (`stack.split('\n')`). -/
def stackLines (s : String) : List String :=
  (splitNl s.data).map (fun cs => String.mk cs)

/-- `parseInt` on a captured digit run. -/
def digitsVal (ds : List Char) : Nat :=
  ds.foldl (fun n c => 10 * n + (c.toNat - 48)) 0

/-- Decision procedure for `/, <anonymous>:([0-9]+):([0-9]+)\)$/` applied
to one stack line: returns the two captured numbers. -/
def matchChromeSuffix (line : String) : Option (Nat × Nat) :=
  match line.data.reverse with
  | ')' :: rest =>
    match rest.span Char.isDigit with
    | ([], _) => none
    | (d2r, rest2) =>
      match rest2 with
      | ':' :: rest3 =>
        match rest3.span Char.isDigit with
        | ([], _) => none
        | (d1r, rest4) =>
          if (String.data ", <anonymous>:").reverse.isPrefixOf rest4 then
            some (digitsVal d1r.reverse, digitsVal d2r.reverse)
          else none
      | _ => none
  | _ => none

/-- Decision procedure for `/> Function:([0-9]+):([0-9]+)$/` applied to
one stack line. -/
def matchFirefoxSuffix (line : String) : Option (Nat × Nat) :=
  match line.data.reverse.span Char.isDigit with
  | ([], _) => none
  | (d2r, rest2) =>
    match rest2 with
    | ':' :: rest3 =>
      match rest3.span Char.isDigit with
      | ([], _) => none
      | (d1r, rest4) =>
        if (String.data "> Function:").reverse.isPrefixOf rest4 then
          some (digitsVal d1r.reverse, digitsVal d2r.reverse)
        else none
    | _ => none

/-- An editor position `{line, column}`; the Chrome branch subtracts 1
from the reported line (JavaScript numbers, so the line may go negative),
the Firefox branch takes it as is. -/
structure Loc where
  line : Int
  column : Nat
  deriving DecidableEq

/-- `App.prototype._extract_js_error_loc`, second revision (part_000
lines 733-766): split the stack on newlines and return the position of
the first line matching the Chrome and then the Firefox pattern; `null`
(`none`) when no line matches either. -/
def extract_js_error_loc (stack : String) : Option Loc :=
  (stackLines stack).findSome? (fun line =>
    match matchChromeSuffix line with
    | some (l, c) => some { line := (l : Int) - 1, column := c }
    | none =>
      match matchFirefoxSuffix line with
      | some (l, c) => some { line := (l : Int), column := c }
      | none => none)

/-- Result of calling the first-revision extractor: a JavaScript return
value, or an uncaught `TypeError`. -/
inductive JsOutcome where
  | returns (loc : Option Loc)
  | throws
  deriving DecidableEq

/-- `App.prototype._extract_js_error_loc`, first revision (part_000
lines 56-83), including its control-flow slip: `lines[1]` is matched
against the Chrome pattern (a `TypeError` if the stack has a single line),
then `lines[0]` against the Firefox pattern, but the guard is
`if (func)` — the regex object, always truthy — so when the Firefox match
also fails the code reads `m[1]` from `null` and throws a `TypeError`
(`Except.error ()`); the trailing `return null` is unreachable. -/
def extract_js_error_loc_v1 (stack : String) : JsOutcome :=
  let lines := stackLines stack
  match lines.get? 1 with
  | none => JsOutcome.throws
  | some l1 =>
    match matchChromeSuffix l1 with
    | some (l, c) => JsOutcome.returns (some { line := (l : Int) - 1, column := c })
    | none =>
      match matchFirefoxSuffix (lines.headD "") with
      | some (l, c) => JsOutcome.returns (some { line := (l : Int), column := c })
      | none => JsOutcome.throws

/-- How a runtime error reaches the user: a located `runtime_error` sent
to the editor, or an unlocated dump (`console.error(e.stack)`). -/
inductive Surfaced where
  | located (message : String) (loc : Loc)
  | unlocated (stack : String)
  deriving DecidableEq

/-- `App.prototype._handle_js_error`, second revision (part_000
lines 768-780): report a located `runtime_error` exactly when extraction
produced a location, otherwise surface the raw stack unlocated. -/
def handle_js_error (message stack : String) : Surfaced :=
  match extract_js_error_loc stack with
  | some loc => Surfaced.located message loc
  | none => Surfaced.unlocated stack


/-! ### Document store (`src/js/app/store.js`)

The store wraps an IndexedDB object store `documents` created with
`{ autoIncrement: true, keyPath: 'id' }` and an index on
`modification_time`.  The IndexedDB behaviour store.js relies on is
modelled explicitly: an auto-increment key generator, `add`/`put`
upserts, key `delete`, and `openCursor(null, 'prev')` iteration in
decreasing (index key, primary key) order. -/

/-- A document as stored: the `id` primary key (absent until first saved),
the `modification_time` index key, and the remaining payload collapsed
into `data`. -/
structure Doc where
  id : Option Nat
  modification_time : Int
  data : String
  deriving DecidableEq

/-- The `documents` object store: records plus the auto-increment key
generator state. -/
structure DB where
  docs : List Doc
  nextKey : Nat
  deriving DecidableEq

/-- Observable outcome of one `Store.delete` call: the arguments passed to
`cb` in order (`none` models the JavaScript `null`), the key of the
`store.delete` request if one was issued (`some none` = a request with an
`undefined` key, which IndexedDB rejects with a synchronous `DataError`),
whether an exception escaped, and the records afterwards. -/
structure DeleteOutcome where
  cbCalls : List (Option Doc)
  requested : Option (Option Nat)
  threw : Bool
  docsAfter : List Doc
  deriving DecidableEq

/-- `Store.prototype.delete` (store.js lines 15-33).  When `doc` has no
`id` the code calls `cb(this, null)` but does not return: it falls through
and still issues `store.delete(doc.id)` with `doc.id` undefined, which
IndexedDB rejects with a synchronous `DataError`.  With an `id`, the
delete request succeeds and `cb(this, doc)` runs from `onsuccess`. -/
def Store_delete (db : List Doc) (doc : Doc) : DeleteOutcome :=
  match doc.id with
  | none =>
      { cbCalls := [none], requested := some none, threw := true, docsAfter := db }
  | some k =>
      { cbCalls := [some doc], requested := some (some k), threw := false,
        docsAfter := db.filter (fun d => d.id != some k) }

/-- Observable outcome of one `Store.save` call: the arguments passed to
`cb` and the store afterwards. -/
structure SaveOutcome where
  cbCalls : List (Option Doc)
  dbAfter : DB
  deriving DecidableEq

/-- `Store.prototype.save` (store.js lines 82-111), success path.  Without
an `id` the document is `add`ed: the auto-increment generator yields the
new key (`ev.target.result`), which `onsuccess` assigns onto `doc.id`
before calling `cb(this, doc)`.  With an `id` the document is `put`
(stored under its existing key, inserting or replacing) and passed to the
callback untouched. -/
def Store_save (db : DB) (doc : Doc) : SaveOutcome :=
  match doc.id with
  | none =>
      let k := db.nextKey
      let stored := { doc with id := some k }
      { cbCalls := [some stored],
        dbAfter := { docs := db.docs ++ [stored], nextKey := k + 1 } }
  | some k =>
      { cbCalls := [some doc],
        dbAfter := { docs :=
                       if db.docs.any (fun d => d.id == some k) then
                         db.docs.map (fun d => if d.id == some k then doc else d)
                       else
                         db.docs ++ [doc],
                     nextKey := db.nextKey } }

/-- The cursor order of `idx.openCursor(null, 'prev')` on the
`modification_time` index: records sorted by decreasing index key, ties by
decreasing primary key (the IndexedDB contract store.js relies on). -/
def cursorGE (a b : Doc) : Prop :=
  b.modification_time < a.modification_time ∨
    (a.modification_time = b.modification_time ∧ b.id.getD 0 ≤ a.id.getD 0)

instance : DecidableRel cursorGE := fun a b => by
  unfold cursorGE; infer_instance

instance : IsTotal Doc cursorGE where
  total a b := by
    unfold cursorGE
    rcases lt_trichotomy a.modification_time b.modification_time with h | h | h
    · exact Or.inr (Or.inl h)
    · rcases le_total (b.id.getD 0) (a.id.getD 0) with h2 | h2
      · exact Or.inl (Or.inr ⟨h, h2⟩)
      · exact Or.inr (Or.inr ⟨h.symm, h2⟩)
    · exact Or.inl (Or.inl h)

instance : IsTrans Doc cursorGE where
  trans a b c hab hbc := by
    unfold cursorGE at hab hbc ⊢
    rcases hab with h1 | ⟨e1, k1⟩
    · rcases hbc with h2 | ⟨e2, _⟩
      · exact Or.inl (h2.trans h1)
      · exact Or.inl (e2 ▸ h1)
    · rcases hbc with h2 | ⟨e2, k2⟩
      · exact Or.inl (e1 ▸ h2)
      · exact Or.inr ⟨e1.trans e2, k2.trans k1⟩

/-- The record sequence visited by the descending cursor. -/
def openCursorPrev (docs : List Doc) : List Doc :=
  docs.insertionSort cursorGE

/-- `Store.prototype.all` (store.js lines 56-80): the cursor `onsuccess`
handler pushes each visited value onto `ret` and continues; once the
cursor is exhausted `cb(this, ret)` delivers the accumulated list, so the
callback receives the records in cursor order. -/
def Store_all (db : DB) : List Doc :=
  openCursorPrev db.docs

/-- `Store.prototype.last` (store.js lines 35-54): the first record the
descending cursor yields, or `null` (`none`) when the cursor is empty. -/
def Store_last (db : DB) : Option Doc :=
  (openCursorPrev db.docs).head?



/-! ### Claim-support definitions -/

/-- The concrete gentype list of `define_builtin_gentype_function`
(`var gentypes = [Tn.T_FLOAT, Tn.T_VEC2, Tn.T_VEC3, Tn.T_VEC4]`). -/
def gentypes : List Tok := [T_FLOAT, T_VEC2, T_VEC3, T_VEC4]

/-- The function instance a gentype registration produces for one concrete
generic type `g`: `g` substituted for the generic marker in every `null`
parameter slot and in a `null` return type. -/
def genEntry (rt : Option Tok) (name : String) (ps : List (Option Tok × String)) (g : Tok) : BFunc :=
  { name := name, ret := rt.getD g, params := ps.map (fun p => (p.1.getD g, p.2)) }

/-- The gentype registrations of the build, extracted from `buildCalls`. -/
def gentypeCalls : List (Option Tok × String × List (Option Tok × String)) :=
  buildCalls.filterMap (fun c =>
    match c with
    | Call.gentype rt name ps => some (rt, name, ps)
    | _ => none)

/-- All function instances the gentype registrations with a given name
generate. -/
def gentypeInstancesOf (name : String) : List BFunc :=
  (gentypeCalls.map (fun t =>
    if t.2.1 = name then gentypes.map (genEntry t.1 t.2.1 t.2.2) else [])).flatten

/-- The function instance a relvec registration produces at arity index
`i`: every family marker resolved to the member of its own family at that
index. -/
def relvecEntry (rt : RV) (name : String) (ps : List (RV × String)) (i : Nat) : BFunc :=
  { name := name, ret := resolveRV rt i, params := ps.map (fun p => (resolveRV p.1 i, p.2)) }

/-- The relvec registrations of the build, extracted from `buildCalls`. -/
def relvecCalls : List (RV × String × List (RV × String)) :=
  buildCalls.filterMap (fun c =>
    match c with
    | Call.relvec rt name ps => some (rt, name, ps)
    | _ => none)

/-- All function instances the relvec registrations with a given name
generate. -/
def relvecInstancesOf (name : String) : List BFunc :=
  (relvecCalls.map (fun t =>
    if t.2.1 = name then (List.range 3).map (relvecEntry t.1 t.2.1 t.2.2) else [])).flatten

/-- A one-function catalogue used to exercise duplicate registration:
`sin(float)` is already registered. -/
def dupRegState : Catalogue :=
  define_builtin_function T_FLOAT "sin" [(T_FLOAT, "angle")] initCatalogue


/-- The catalogue state reached between two build registrations: prefixes
of the materialized tables (`Functions` and `FunctionMap` always grow in
lockstep). -/
def stepState (f o m : Nat) : Catalogue :=
  { Functions := FunctionsList.take f, FunctionMap := FunctionMapList.take f,
    Operators := OperatorsList.take o, OperatorMap := OperatorMapList.take m }

/-- Build registration 0 evaluated on the state it is reached with. -/
theorem buildStep_0 :
    execCall initCatalogue (Call.gentype none "radians" [(none, "degrees")]) = stepState 4 0 0 := by
  decide

/-- Build registration 1 evaluated on the state it is reached with. -/
theorem buildStep_1 :
    execCall (stepState 4 0 0) (Call.gentype none "degrees" [(none, "radians")]) = stepState 8 0 0 := by
  decide

/-- Build registration 2 evaluated on the state it is reached with. -/
theorem buildStep_2 :
    execCall (stepState 8 0 0) (Call.gentype none "sin" [(none, "angle")]) = stepState 12 0 0 := by
  decide

/-- Build registration 3 evaluated on the state it is reached with. -/
theorem buildStep_3 :
    execCall (stepState 12 0 0) (Call.gentype none "cos" [(none, "angle")]) = stepState 16 0 0 := by
  decide

/-- Build registration 4 evaluated on the state it is reached with. -/
theorem buildStep_4 :
    execCall (stepState 16 0 0) (Call.gentype none "tan" [(none, "angle")]) = stepState 20 0 0 := by
  decide

/-- Build registration 5 evaluated on the state it is reached with. -/
theorem buildStep_5 :
    execCall (stepState 20 0 0) (Call.gentype none "asin" [(none, "x")]) = stepState 24 0 0 := by
  decide

/-- Build registration 6 evaluated on the state it is reached with. -/
theorem buildStep_6 :
    execCall (stepState 24 0 0) (Call.gentype none "acos" [(none, "x")]) = stepState 28 0 0 := by
  decide

/-- Build registration 7 evaluated on the state it is reached with. -/
theorem buildStep_7 :
    execCall (stepState 28 0 0) (Call.gentype none "atan" [(none, "y"), (none, "x")]) = stepState 32 0 0 := by
  decide

/-- Build registration 8 evaluated on the state it is reached with. -/
theorem buildStep_8 :
    execCall (stepState 32 0 0) (Call.gentype none "atan" [(none, "y_over_x")]) = stepState 36 0 0 := by
  decide

/-- Build registration 9 evaluated on the state it is reached with. -/
theorem buildStep_9 :
    execCall (stepState 36 0 0) (Call.gentype none "pow" [(none, "x"), (none, "y")]) = stepState 40 0 0 := by
  decide

/-- Build registration 10 evaluated on the state it is reached with. -/
theorem buildStep_10 :
    execCall (stepState 40 0 0) (Call.gentype none "exp" [(none, "x")]) = stepState 44 0 0 := by
  decide

/-- Build registration 11 evaluated on the state it is reached with. -/
theorem buildStep_11 :
    execCall (stepState 44 0 0) (Call.gentype none "log" [(none, "x")]) = stepState 48 0 0 := by
  decide

/-- Build registration 12 evaluated on the state it is reached with. -/
theorem buildStep_12 :
    execCall (stepState 48 0 0) (Call.gentype none "exp2" [(none, "x")]) = stepState 52 0 0 := by
  decide

/-- Build registration 13 evaluated on the state it is reached with. -/
theorem buildStep_13 :
    execCall (stepState 52 0 0) (Call.gentype none "log2" [(none, "x")]) = stepState 56 0 0 := by
  decide

/-- Build registration 14 evaluated on the state it is reached with. -/
theorem buildStep_14 :
    execCall (stepState 56 0 0) (Call.gentype none "sqrt" [(none, "x")]) = stepState 60 0 0 := by
  decide

/-- Build registration 15 evaluated on the state it is reached with. -/
theorem buildStep_15 :
    execCall (stepState 60 0 0) (Call.gentype none "inversesqrt" [(none, "x")]) = stepState 64 0 0 := by
  decide

/-- Build registration 16 evaluated on the state it is reached with. -/
theorem buildStep_16 :
    execCall (stepState 64 0 0) (Call.gentype none "abs" [(none, "x")]) = stepState 68 0 0 := by
  decide

/-- Build registration 17 evaluated on the state it is reached with. -/
theorem buildStep_17 :
    execCall (stepState 68 0 0) (Call.gentype none "sign" [(none, "x")]) = stepState 72 0 0 := by
  decide

/-- Build registration 18 evaluated on the state it is reached with. -/
theorem buildStep_18 :
    execCall (stepState 72 0 0) (Call.gentype none "floor" [(none, "x")]) = stepState 76 0 0 := by
  decide

/-- Build registration 19 evaluated on the state it is reached with. -/
theorem buildStep_19 :
    execCall (stepState 76 0 0) (Call.gentype none "ceil" [(none, "x")]) = stepState 80 0 0 := by
  decide

/-- Build registration 20 evaluated on the state it is reached with. -/
theorem buildStep_20 :
    execCall (stepState 80 0 0) (Call.gentype none "fract" [(none, "x")]) = stepState 84 0 0 := by
  decide

/-- Build registration 21 evaluated on the state it is reached with. -/
theorem buildStep_21 :
    execCall (stepState 84 0 0) (Call.gentype none "mod" [(none, "x"), (none, "y")]) = stepState 88 0 0 := by
  decide

/-- Build registration 22 evaluated on the state it is reached with. -/
theorem buildStep_22 :
    execCall (stepState 88 0 0) (Call.gentype none "min" [(none, "x"), (none, "y")]) = stepState 92 0 0 := by
  decide

/-- Build registration 23 evaluated on the state it is reached with. -/
theorem buildStep_23 :
    execCall (stepState 92 0 0) (Call.gentype none "min" [(none, "x"), (some T_FLOAT, "y")]) = stepState 95 0 0 := by
  decide

/-- Build registration 24 evaluated on the state it is reached with. -/
theorem buildStep_24 :
    execCall (stepState 95 0 0) (Call.gentype none "max" [(none, "x"), (none, "y")]) = stepState 99 0 0 := by
  decide

/-- Build registration 25 evaluated on the state it is reached with. -/
theorem buildStep_25 :
    execCall (stepState 99 0 0) (Call.gentype none "max" [(none, "x"), (some T_FLOAT, "y")]) = stepState 102 0 0 := by
  decide

/-- Build registration 26 evaluated on the state it is reached with. -/
theorem buildStep_26 :
    execCall (stepState 102 0 0) (Call.gentype none "clamp" [(none, "x"), (none, "minVal"), (none, "maxVal")]) = stepState 106 0 0 := by
  decide

/-- Build registration 27 evaluated on the state it is reached with. -/
theorem buildStep_27 :
    execCall (stepState 106 0 0) (Call.gentype none "clamp" [(none, "x"), (some T_FLOAT, "minVal"), (some T_FLOAT, "maxVal")]) = stepState 109 0 0 := by
  decide

/-- Build registration 28 evaluated on the state it is reached with. -/
theorem buildStep_28 :
    execCall (stepState 109 0 0) (Call.gentype none "mix" [(none, "x"), (none, "y"), (none, "a")]) = stepState 113 0 0 := by
  decide

/-- Build registration 29 evaluated on the state it is reached with. -/
theorem buildStep_29 :
    execCall (stepState 113 0 0) (Call.gentype none "mix" [(none, "x"), (none, "y"), (some T_FLOAT, "a")]) = stepState 116 0 0 := by
  decide

/-- Build registration 30 evaluated on the state it is reached with. -/
theorem buildStep_30 :
    execCall (stepState 116 0 0) (Call.gentype none "step" [(none, "edge"), (none, "x")]) = stepState 120 0 0 := by
  decide

/-- Build registration 31 evaluated on the state it is reached with. -/
theorem buildStep_31 :
    execCall (stepState 120 0 0) (Call.gentype none "step" [(some T_FLOAT, "edge"), (none, "x")]) = stepState 123 0 0 := by
  decide

/-- Build registration 32 evaluated on the state it is reached with. -/
theorem buildStep_32 :
    execCall (stepState 123 0 0) (Call.gentype none "smoothstep" [(none, "edge0"), (none, "edge1"), (none, "x")]) = stepState 127 0 0 := by
  decide

/-- Build registration 33 evaluated on the state it is reached with. -/
theorem buildStep_33 :
    execCall (stepState 127 0 0) (Call.gentype none "smoothstep" [(some T_FLOAT, "edge0"), (some T_FLOAT, "edge1"), (none, "x")]) = stepState 130 0 0 := by
  decide

/-- Build registration 34 evaluated on the state it is reached with. -/
theorem buildStep_34 :
    execCall (stepState 130 0 0) (Call.gentype (some T_FLOAT) "length" [(none, "x")]) = stepState 134 0 0 := by
  decide

/-- Build registration 35 evaluated on the state it is reached with. -/
theorem buildStep_35 :
    execCall (stepState 134 0 0) (Call.gentype (some T_FLOAT) "distance" [(none, "p0"), (none, "p1")]) = stepState 138 0 0 := by
  decide

/-- Build registration 36 evaluated on the state it is reached with. -/
theorem buildStep_36 :
    execCall (stepState 138 0 0) (Call.gentype (some T_FLOAT) "dot" [(none, "x"), (none, "y")]) = stepState 142 0 0 := by
  decide

/-- Build registration 37 evaluated on the state it is reached with. -/
theorem buildStep_37 :
    execCall (stepState 142 0 0) (Call.fn T_VEC3 "cross" [(T_VEC3, "x"), (T_VEC3, "y")]) = stepState 143 0 0 := by
  decide

/-- Build registration 38 evaluated on the state it is reached with. -/
theorem buildStep_38 :
    execCall (stepState 143 0 0) (Call.gentype none "normalize" [(none, "x")]) = stepState 147 0 0 := by
  decide

/-- Build registration 39 evaluated on the state it is reached with. -/
theorem buildStep_39 :
    execCall (stepState 147 0 0) (Call.gentype none "faceforward" [(none, "N"), (none, "I"), (none, "Nref")]) = stepState 151 0 0 := by
  decide

/-- Build registration 40 evaluated on the state it is reached with. -/
theorem buildStep_40 :
    execCall (stepState 151 0 0) (Call.gentype none "reflect" [(none, "I"), (none, "N")]) = stepState 155 0 0 := by
  decide

/-- Build registration 41 evaluated on the state it is reached with. -/
theorem buildStep_41 :
    execCall (stepState 155 0 0) (Call.gentype none "refract" [(none, "I"), (none, "N"), (some T_FLOAT, "eta")]) = stepState 159 0 0 := by
  decide

/-- Build registration 42 evaluated on the state it is reached with. -/
theorem buildStep_42 :
    execCall (stepState 159 0 0) (Call.matfn none "matrixCompMult" [(none, "x"), (none, "y")]) = stepState 162 0 0 := by
  decide

/-- Build registration 43 evaluated on the state it is reached with. -/
theorem buildStep_43 :
    execCall (stepState 162 0 0) (Call.relvec (RV.fam Fam.bvec) "lessThan" [(RV.fam Fam.vec, "x"), (RV.fam Fam.vec, "y")]) = stepState 165 0 0 := by
  decide

/-- Build registration 44 evaluated on the state it is reached with. -/
theorem buildStep_44 :
    execCall (stepState 165 0 0) (Call.relvec (RV.fam Fam.bvec) "lessThan" [(RV.fam Fam.ivec, "x"), (RV.fam Fam.ivec, "y")]) = stepState 168 0 0 := by
  decide

/-- Build registration 45 evaluated on the state it is reached with. -/
theorem buildStep_45 :
    execCall (stepState 168 0 0) (Call.relvec (RV.fam Fam.bvec) "lessThanEqual" [(RV.fam Fam.vec, "x"), (RV.fam Fam.vec, "y")]) = stepState 171 0 0 := by
  decide

/-- Build registration 46 evaluated on the state it is reached with. -/
theorem buildStep_46 :
    execCall (stepState 171 0 0) (Call.relvec (RV.fam Fam.bvec) "lessThanEqual" [(RV.fam Fam.ivec, "x"), (RV.fam Fam.ivec, "y")]) = stepState 174 0 0 := by
  decide

/-- Build registration 47 evaluated on the state it is reached with. -/
theorem buildStep_47 :
    execCall (stepState 174 0 0) (Call.relvec (RV.fam Fam.bvec) "greaterThan" [(RV.fam Fam.vec, "x"), (RV.fam Fam.vec, "y")]) = stepState 177 0 0 := by
  decide

/-- Build registration 48 evaluated on the state it is reached with. -/
theorem buildStep_48 :
    execCall (stepState 177 0 0) (Call.relvec (RV.fam Fam.bvec) "greaterThan" [(RV.fam Fam.ivec, "x"), (RV.fam Fam.ivec, "y")]) = stepState 180 0 0 := by
  decide

/-- Build registration 49 evaluated on the state it is reached with. -/
theorem buildStep_49 :
    execCall (stepState 180 0 0) (Call.relvec (RV.fam Fam.bvec) "greaterThanEqual" [(RV.fam Fam.vec, "x"), (RV.fam Fam.vec, "y")]) = stepState 183 0 0 := by
  decide

/-- Build registration 50 evaluated on the state it is reached with. -/
theorem buildStep_50 :
    execCall (stepState 183 0 0) (Call.relvec (RV.fam Fam.bvec) "greaterThanEqual" [(RV.fam Fam.ivec, "x"), (RV.fam Fam.ivec, "y")]) = stepState 186 0 0 := by
  decide

/-- Build registration 51 evaluated on the state it is reached with. -/
theorem buildStep_51 :
    execCall (stepState 186 0 0) (Call.relvec (RV.fam Fam.bvec) "equal" [(RV.fam Fam.vec, "x"), (RV.fam Fam.vec, "y")]) = stepState 189 0 0 := by
  decide

/-- Build registration 52 evaluated on the state it is reached with. -/
theorem buildStep_52 :
    execCall (stepState 189 0 0) (Call.relvec (RV.fam Fam.bvec) "equal" [(RV.fam Fam.ivec, "x"), (RV.fam Fam.ivec, "y")]) = stepState 192 0 0 := by
  decide

/-- Build registration 53 evaluated on the state it is reached with. -/
theorem buildStep_53 :
    execCall (stepState 192 0 0) (Call.relvec (RV.fam Fam.bvec) "notEqual" [(RV.fam Fam.vec, "x"), (RV.fam Fam.vec, "y")]) = stepState 195 0 0 := by
  decide

/-- Build registration 54 evaluated on the state it is reached with. -/
theorem buildStep_54 :
    execCall (stepState 195 0 0) (Call.relvec (RV.fam Fam.bvec) "notEqual" [(RV.fam Fam.ivec, "x"), (RV.fam Fam.ivec, "y")]) = stepState 198 0 0 := by
  decide

/-- Build registration 55 evaluated on the state it is reached with. -/
theorem buildStep_55 :
    execCall (stepState 198 0 0) (Call.relvec (RV.fam Fam.bvec) "notEqual" [(RV.fam Fam.bvec, "x"), (RV.fam Fam.bvec, "y")]) = stepState 201 0 0 := by
  decide

/-- Build registration 56 evaluated on the state it is reached with. -/
theorem buildStep_56 :
    execCall (stepState 201 0 0) (Call.relvec (RV.tok T_BOOL) "any" [(RV.fam Fam.bvec, "x")]) = stepState 204 0 0 := by
  decide

/-- Build registration 57 evaluated on the state it is reached with. -/
theorem buildStep_57 :
    execCall (stepState 204 0 0) (Call.relvec (RV.tok T_BOOL) "all" [(RV.fam Fam.bvec, "x")]) = stepState 207 0 0 := by
  decide

/-- Build registration 58 evaluated on the state it is reached with. -/
theorem buildStep_58 :
    execCall (stepState 207 0 0) (Call.relvec (RV.fam Fam.bvec) "not" [(RV.fam Fam.bvec, "x")]) = stepState 210 0 0 := by
  decide

/-- Build registration 59 evaluated on the state it is reached with. -/
theorem buildStep_59 :
    execCall (stepState 210 0 0) (Call.fn T_VEC4 "texture2D" [(T_SAMPLER2D, "sampler"), (T_VEC2, "coord")]) = stepState 211 0 0 := by
  decide

/-- Build registration 60 evaluated on the state it is reached with. -/
theorem buildStep_60 :
    execCall (stepState 211 0 0) (Call.fn T_VEC4 "texture2D" [(T_SAMPLER2D, "sampler"), (T_VEC2, "coord"), (T_FLOAT, "bias")]) = stepState 212 0 0 := by
  decide

/-- Build registration 61 evaluated on the state it is reached with. -/
theorem buildStep_61 :
    execCall (stepState 212 0 0) (Call.fn T_VEC4 "texture2DProj" [(T_SAMPLER2D, "sampler"), (T_VEC3, "coord")]) = stepState 213 0 0 := by
  decide

/-- Build registration 62 evaluated on the state it is reached with. -/
theorem buildStep_62 :
    execCall (stepState 213 0 0) (Call.fn T_VEC4 "texture2DProj" [(T_SAMPLER2D, "sampler"), (T_VEC3, "coord"), (T_FLOAT, "bias")]) = stepState 214 0 0 := by
  decide

/-- Build registration 63 evaluated on the state it is reached with. -/
theorem buildStep_63 :
    execCall (stepState 214 0 0) (Call.fn T_VEC4 "texture2DProj" [(T_SAMPLER2D, "sampler"), (T_VEC4, "coord")]) = stepState 215 0 0 := by
  decide

/-- Build registration 64 evaluated on the state it is reached with. -/
theorem buildStep_64 :
    execCall (stepState 215 0 0) (Call.fn T_VEC4 "texture2DProj" [(T_SAMPLER2D, "sampler"), (T_VEC4, "coord"), (T_FLOAT, "bias")]) = stepState 216 0 0 := by
  decide

/-- Build registration 65 evaluated on the state it is reached with. -/
theorem buildStep_65 :
    execCall (stepState 216 0 0) (Call.fn T_VEC4 "texture2DLod" [(T_SAMPLER2D, "sampler"), (T_VEC2, "coord"), (T_FLOAT, "lod")]) = stepState 217 0 0 := by
  decide

/-- Build registration 66 evaluated on the state it is reached with. -/
theorem buildStep_66 :
    execCall (stepState 217 0 0) (Call.fn T_VEC4 "texture2DProjLod" [(T_SAMPLER2D, "sampler"), (T_VEC3, "coord"), (T_FLOAT, "lod")]) = stepState 218 0 0 := by
  decide

/-- Build registration 67 evaluated on the state it is reached with. -/
theorem buildStep_67 :
    execCall (stepState 218 0 0) (Call.fn T_VEC4 "texture2DProjLod" [(T_SAMPLER2D, "sampler"), (T_VEC4, "coord"), (T_FLOAT, "lod")]) = stepState 219 0 0 := by
  decide

/-- Build registration 68 evaluated on the state it is reached with. -/
theorem buildStep_68 :
    execCall (stepState 219 0 0) (Call.fn T_VEC4 "textureCube" [(T_SAMPLERCUBE, "sampler"), (T_VEC3, "coord")]) = stepState 220 0 0 := by
  decide

/-- Build registration 69 evaluated on the state it is reached with. -/
theorem buildStep_69 :
    execCall (stepState 220 0 0) (Call.fn T_VEC4 "textureCube" [(T_SAMPLERCUBE, "sampler"), (T_VEC3, "coord"), (T_FLOAT, "bias")]) = stepState 221 0 0 := by
  decide

/-- Build registration 70 evaluated on the state it is reached with. -/
theorem buildStep_70 :
    execCall (stepState 221 0 0) (Call.fn T_VEC4 "textureCubeLod" [(T_SAMPLERCUBE, "sampler"), (T_VEC3, "coord"), (T_FLOAT, "lod")]) = stepState 222 0 0 := by
  decide

/-- Build registration 71 evaluated on the state it is reached with. -/
theorem buildStep_71 :
    execCall (stepState 222 0 0) (Call.binop none [T_PLUS, T_DASH, T_STAR, T_SLASH] none none [T_INT, T_FLOAT, T_VEC2, T_VEC3, T_VEC4, T_MAT2, T_MAT3, T_MAT4, T_IVEC2, T_IVEC3, T_IVEC4]) = stepState 222 44 44 := by
  decide

/-- Build registration 72 evaluated on the state it is reached with. -/
theorem buildStep_72 :
    execCall (stepState 222 44 44) (Call.binop none [T_PLUS, T_DASH, T_STAR, T_SLASH] (some T_FLOAT) none [T_VEC2, T_VEC3, T_VEC4, T_MAT2, T_MAT3, T_MAT3]) = stepState 222 68 64 := by
  decide

/-- Build registration 73 evaluated on the state it is reached with. -/
theorem buildStep_73 :
    execCall (stepState 222 68 64) (Call.binop none [T_PLUS, T_DASH, T_STAR, T_SLASH] none (some T_FLOAT) [T_VEC2, T_VEC3, T_VEC4, T_MAT2, T_MAT3, T_MAT3]) = stepState 222 92 84 := by
  decide

/-- Build registration 74 evaluated on the state it is reached with. -/
theorem buildStep_74 :
    execCall (stepState 222 92 84) (Call.binop none [T_PLUS, T_DASH, T_STAR, T_SLASH] (some T_INT) none [T_IVEC2, T_IVEC3, T_IVEC4]) = stepState 222 104 96 := by
  decide

/-- Build registration 75 evaluated on the state it is reached with. -/
theorem buildStep_75 :
    execCall (stepState 222 104 96) (Call.binop none [T_PLUS, T_DASH, T_STAR, T_SLASH] none (some T_INT) [T_IVEC2, T_IVEC3, T_IVEC4]) = stepState 222 116 108 := by
  decide

/-- Build registration 76 evaluated on the state it is reached with. -/
theorem buildStep_76 :
    execCall (stepState 222 116 108) (Call.binop none [T_STAR] (some T_MAT2) none [T_VEC2]) = stepState 222 117 109 := by
  decide

/-- Build registration 77 evaluated on the state it is reached with. -/
theorem buildStep_77 :
    execCall (stepState 222 117 109) (Call.binop none [T_STAR] (some T_MAT3) none [T_VEC3]) = stepState 222 118 110 := by
  decide

/-- Build registration 78 evaluated on the state it is reached with. -/
theorem buildStep_78 :
    execCall (stepState 222 118 110) (Call.binop none [T_STAR] (some T_MAT4) none [T_VEC4]) = stepState 222 119 111 := by
  decide

/-- Build registration 79 evaluated on the state it is reached with. -/
theorem buildStep_79 :
    execCall (stepState 222 119 111) (Call.binop none [T_STAR] (some T_VEC2) none [T_MAT2]) = stepState 222 120 112 := by
  decide

/-- Build registration 80 evaluated on the state it is reached with. -/
theorem buildStep_80 :
    execCall (stepState 222 120 112) (Call.binop none [T_STAR] (some T_VEC3) none [T_MAT3]) = stepState 222 121 113 := by
  decide

/-- Build registration 81 evaluated on the state it is reached with. -/
theorem buildStep_81 :
    execCall (stepState 222 121 113) (Call.binop none [T_STAR] (some T_VEC4) none [T_MAT4]) = stepState 222 122 114 := by
  decide

/-- Build registration 82 evaluated on the state it is reached with. -/
theorem buildStep_82 :
    execCall (stepState 222 122 114) (Call.binop (some T_BOOL) [T_LEFT_ANGLE_OP, T_RIGHT_ANGLE, T_LE_OP, T_GE_OP] none none [T_FLOAT, T_INT]) = stepState 222 130 122 := by
  decide

/-- Build registration 83 evaluated on the state it is reached with. -/
theorem buildStep_83 :
    execCall (stepState 222 130 122) (Call.binop (some T_BOOL) [T_EQ_OP, T_NE_OP] none none [T_INT, T_FLOAT, T_BOOL, T_VEC2, T_VEC3, T_VEC4, T_MAT2, T_MAT3, T_MAT4, T_IVEC2, T_IVEC3, T_IVEC4]) = stepState 222 154 146 := by
  decide

/-- Build registration 84 evaluated on the state it is reached with. -/
theorem buildStep_84 :
    execCall (stepState 222 154 146) (Call.binop none [T_AND_OP, T_OR_OP, T_XOR_OP] none none [T_BOOL]) = stepState 222 157 149 := by
  decide

/-- Build registration 85 evaluated on the state it is reached with. -/
theorem buildStep_85 :
    execCall (stepState 222 157 149) (Call.unop none [T_DASH, T_DEC_OP, T_INC_OP] none [T_INT, T_FLOAT, T_VEC2, T_VEC3, T_VEC4, T_MAT2, T_MAT3, T_MAT4, T_IVEC2, T_IVEC3, T_IVEC4]) = stepState 222 190 182 := by
  decide

/-- Build registration 86 evaluated on the state it is reached with. -/
theorem buildStep_86 :
    execCall (stepState 222 190 182) (Call.unop none [T_BANG] none [T_BOOL]) = stepState 222 191 183 := by
  decide

/-- Chaining the build registrations: the catalogue `builtins` is the
final step state. -/
theorem builtins_steps : builtins = stepState 222 191 183 := by
  unfold builtins buildCalls
  simp only [List.foldl_cons, List.foldl_nil, buildStep_0, buildStep_1, buildStep_2, buildStep_3, buildStep_4, buildStep_5, buildStep_6, buildStep_7, buildStep_8, buildStep_9, buildStep_10, buildStep_11, buildStep_12, buildStep_13, buildStep_14, buildStep_15, buildStep_16, buildStep_17, buildStep_18, buildStep_19, buildStep_20, buildStep_21, buildStep_22, buildStep_23, buildStep_24, buildStep_25, buildStep_26, buildStep_27, buildStep_28, buildStep_29, buildStep_30, buildStep_31, buildStep_32, buildStep_33, buildStep_34, buildStep_35, buildStep_36, buildStep_37, buildStep_38, buildStep_39, buildStep_40, buildStep_41, buildStep_42, buildStep_43, buildStep_44, buildStep_45, buildStep_46, buildStep_47, buildStep_48, buildStep_49, buildStep_50, buildStep_51, buildStep_52, buildStep_53, buildStep_54, buildStep_55, buildStep_56, buildStep_57, buildStep_58, buildStep_59, buildStep_60, buildStep_61, buildStep_62, buildStep_63, buildStep_64, buildStep_65, buildStep_66, buildStep_67, buildStep_68, buildStep_69, buildStep_70, buildStep_71, buildStep_72, buildStep_73, buildStep_74, buildStep_75, buildStep_76, buildStep_77, buildStep_78, buildStep_79, buildStep_80, buildStep_81, buildStep_82, buildStep_83, buildStep_84, buildStep_85, buildStep_86]

/-- The `Functions` list of the built catalogue evaluates to the
materialized `FunctionsList`. -/
theorem builtins_Functions_eq : builtins.Functions = FunctionsList := by
  rw [builtins_steps]
  decide

/-- The `FunctionMap` of the built catalogue evaluates to the materialized
`FunctionMapList`. -/
theorem builtins_FunctionMap_eq : builtins.FunctionMap = FunctionMapList := by
  rw [builtins_steps]
  decide

/-- The `Operators` list of the built catalogue evaluates to the
materialized `OperatorsList`. -/
theorem builtins_Operators_eq : builtins.Operators = OperatorsList := by
  rw [builtins_steps]
  decide

/-- The `OperatorMap` of the built catalogue evaluates to the materialized
`OperatorMapList` (183 bindings: 191 assignments, 8 of which overwrote an
existing signature). -/
theorem builtins_OperatorMap_eq : builtins.OperatorMap = OperatorMapList := by
  rw [builtins_steps]
  decide



/-! ### Claim theorems -/

/-- C7: every builtin type constructed from a type token carries the
classification flags, element count, element kind and display name of its
GLSL keyword: float/int/bool are scalars of length 1, vecN/ivecN/bvecN are
vectors of length N, matN are matrices of length N; float/vec/mat types
are float-kinded, int/ivec int-kinded, bool/bvec bool-kinded; and the
`name` field is the GLSL keyword. -/
theorem builtin_type_classification :
    ([(T_FLOAT, "float"), (T_INT, "int"), (T_BOOL, "bool")].all (fun p =>
      (mkType p.1).is_scalar && !(mkType p.1).is_vec && !(mkType p.1).is_mat &&
        (mkType p.1).length == 1 && (mkType p.1).name == some p.2)) = true ∧
    ([(T_VEC2, 2, "vec2"), (T_VEC3, 3, "vec3"), (T_VEC4, 4, "vec4"),
      (T_IVEC2, 2, "ivec2"), (T_IVEC3, 3, "ivec3"), (T_IVEC4, 4, "ivec4"),
      (T_BVEC2, 2, "bvec2"), (T_BVEC3, 3, "bvec3"), (T_BVEC4, 4, "bvec4")].all (fun p =>
      (mkType p.1).is_vec && !(mkType p.1).is_scalar && !(mkType p.1).is_mat &&
        (mkType p.1).length == p.2.1 && (mkType p.1).name == some p.2.2)) = true ∧
    ([(T_MAT2, 2, "mat2"), (T_MAT3, 3, "mat3"), (T_MAT4, 4, "mat4")].all (fun p =>
      (mkType p.1).is_mat && !(mkType p.1).is_scalar && !(mkType p.1).is_vec &&
        (mkType p.1).length == p.2.1 && (mkType p.1).name == some p.2.2)) = true ∧
    ([T_FLOAT, T_VEC2, T_VEC3, T_VEC4, T_MAT2, T_MAT3, T_MAT4].all (fun t =>
      (mkType t).is_float && !(mkType t).is_int && !(mkType t).is_bool)) = true ∧
    ([T_INT, T_IVEC2, T_IVEC3, T_IVEC4].all (fun t =>
      (mkType t).is_int && !(mkType t).is_float && !(mkType t).is_bool)) = true ∧
    ([T_BOOL, T_BVEC2, T_BVEC3, T_BVEC4].all (fun t =>
      (mkType t).is_bool && !(mkType t).is_float && !(mkType t).is_int)) = true := by
  decide

/-- C1: the catalogue holds separately registered `*` entries for matN*vecN
and vecN*matN for every N in 2,3,4.  The matN*vecN entries return vecN as
the spec states, but each vecN*matN entry returns matN — the generated
operand's own type, since the registration at part_000 lines 2537-2539
passes the matrix as the gen type with no explicit return type — refuting
the claim that its return type is vecN. -/
theorem star_matvec_operator_entries :
    ((builtins.OperatorMap.lookup "*(mat2,vec2)").map (fun o => (o.lhs, o.rhs, o.ret)) =
        some (some (mkType T_MAT2), some (mkType T_VEC2), mkType T_VEC2)) ∧
    ((builtins.OperatorMap.lookup "*(mat3,vec3)").map (fun o => (o.lhs, o.rhs, o.ret)) =
        some (some (mkType T_MAT3), some (mkType T_VEC3), mkType T_VEC3)) ∧
    ((builtins.OperatorMap.lookup "*(mat4,vec4)").map (fun o => (o.lhs, o.rhs, o.ret)) =
        some (some (mkType T_MAT4), some (mkType T_VEC4), mkType T_VEC4)) ∧
    ((builtins.OperatorMap.lookup "*(vec2,mat2)").map (fun o => (o.lhs, o.rhs, o.ret)) =
        some (some (mkType T_VEC2), some (mkType T_MAT2), mkType T_MAT2)) ∧
    ((builtins.OperatorMap.lookup "*(vec3,mat3)").map (fun o => (o.lhs, o.rhs, o.ret)) =
        some (some (mkType T_VEC3), some (mkType T_MAT3), mkType T_MAT3)) ∧
    ((builtins.OperatorMap.lookup "*(vec4,mat4)").map (fun o => (o.lhs, o.rhs, o.ret)) =
        some (some (mkType T_VEC4), some (mkType T_MAT4), mkType T_MAT4)) ∧
    ((builtins.OperatorMap.lookup "*(vec3,mat3)").map (fun o => o.ret) ≠
        some (mkType T_VEC3)) := by
  simp only [builtins_OperatorMap_eq]
  decide

/-- C2 is false as stated: operator registration performs no duplicate
check, so registering the very same operator signature twice appends a
second entry — `Operators` grows from 1 to 2 — and the actual build does
register `*(float,mat3)` twice (the duplicated `T_MAT3` in the gens list
at part_000 line 2514), leaving two copies in `Operators`. -/
theorem duplicate_operator_registration_grows_table :
    (define_builtin_bin_operator_gen none [T_STAR] (some T_FLOAT) none [T_MAT3]
        initCatalogue).Operators.length = 1 ∧
    (define_builtin_bin_operator_gen none [T_STAR] (some T_FLOAT) none [T_MAT3]
        (define_builtin_bin_operator_gen none [T_STAR] (some T_FLOAT) none [T_MAT3]
          initCatalogue)).Operators.length = 2 ∧
    (builtins.Operators.filter (fun o => binOpSig o == "*(float,mat3)")).length = 2 := by
  refine ⟨rfl, rfl, ?_⟩
  simp only [builtins_Operators_eq]
  decide

/-- C2 (amended): duplicate registration is idempotent for builtin
functions only — re-registering an existing function signature leaves the
state unchanged (first registration wins) — while operator registration
never checks the map: it always appends `optypes × gens` new entries to
`Operators` (overwriting `OperatorMap` bindings rather than skipping). -/
theorem builtin_registration_idempotence_amended
    (st : Catalogue) (rt : Tok) (name : String) (ps : List (Tok × String))
    (rt2 : Option Tok) (ots : List Tok) (lhs rhs : Option Tok) (gens : List Tok)
    (h : (st.FunctionMap.lookup (fnSig name (ps.map Prod.fst))).isSome = true) :
    define_builtin_function rt name ps st = st ∧
    (define_builtin_bin_operator_gen rt2 ots lhs rhs gens st).Operators.length =
      st.Operators.length + ots.length * gens.length := by
  constructor
  · simp only [define_builtin_function, h, if_true]
  · simp only [define_builtin_bin_operator_gen, List.length_append,
      List.length_flatten, List.map_map, Function.comp_def, List.length_map,
      List.map_const', List.sum_const_nat]

/-- Witness for the amended C2 theorem at `sin(float)` and a concrete
operator registration. -/
theorem builtin_registration_idempotence_amended_witness :
    define_builtin_function T_FLOAT "sin" [(T_FLOAT, "angle")] dupRegState = dupRegState ∧
    (define_builtin_bin_operator_gen none [T_STAR] (some T_FLOAT) none [T_MAT3]
        dupRegState).Operators.length = dupRegState.Operators.length + 1 * 1 :=
  builtin_registration_idempotence_amended dupRegState T_FLOAT "sin" [(T_FLOAT, "angle")]
    none [T_STAR] (some T_FLOAT) none [T_MAT3] (by decide)

set_option maxRecDepth 1000000 in
set_option maxHeartbeats 40000000 in
/-- C3: every gentype registration of the build yields, for each concrete
generic type (float, vec2, vec3, vec4), exactly one function-table entry —
the one with the generic marker substituted by that type in every generic
parameter slot and in a generic return type — and every table entry
carrying a gentype-registered name is one of these instances (so no
`sin(mat2)`-style entry exists). -/
theorem gentype_expansion_complete :
    (gentypeCalls.all (fun t =>
      gentypes.all (fun g =>
        builtins.Functions.filter (fun f =>
            f.name == t.2.1 && f.params.map Prod.fst == t.2.2.map (fun p => p.1.getD g)) ==
          [genEntry t.1 t.2.1 t.2.2 g]) &&
      builtins.Functions.all (fun f =>
        f.name != t.2.1 || (gentypeInstancesOf t.2.1).contains f))) = true := by
  simp only [builtins_Functions_eq]
  decide

set_option maxRecDepth 1000000 in
set_option maxHeartbeats 40000000 in
/-- C4: every relvec registration of the build yields exactly three
function-table entries, one per arity index, in which every family marker
(return and parameter slots) is resolved to the member of its own family
at that same index; and every table entry carrying a relvec-registered
name is one of these lockstep instances, so no entry mixes arities. -/
theorem relvec_lockstep_expansion :
    (relvecCalls.all (fun t =>
      [0, 1, 2].all (fun i =>
        builtins.Functions.filter (fun f =>
            f.name == t.2.1 && f.params.map Prod.fst == t.2.2.map (fun p => resolveRV p.1 i)) ==
          [relvecEntry t.1 t.2.1 t.2.2 i]) &&
      builtins.Functions.all (fun f =>
        f.name != t.2.1 || (relvecInstancesOf t.2.1).contains f))) = true := by
  simp only [builtins_Functions_eq]
  decide

/-- C5: operator generation with no explicit return type gives every
generated entry the generated operand's own type as return type (binary
and unary), and every relational (`<`, `>`, `<=`, `>=`) and equality
(`==`, `!=`) entry in the operator table returns bool. -/
theorem operator_return_type_policy :
    (∀ ots lhs rhs gens st,
      (define_builtin_bin_operator_gen none ots lhs rhs gens st).Operators =
        st.Operators ++ (ots.map (fun op => gens.map (fun g =>
          { op := op, ret := mkType g, lhs := some (mkType (lhs.getD g)),
            rhs := some (mkType (rhs.getD g)), expr := none }))).flatten) ∧
    (∀ ots expr gens st,
      (define_builtin_unary_operator_gen none ots expr gens st).Operators =
        st.Operators ++ (ots.map (fun op => gens.map (fun g =>
          { op := op, ret := mkType g, lhs := none, rhs := none,
            expr := some (mkType (expr.getD g)) }))).flatten) ∧
    (builtins.Operators.all (fun o =>
      !([T_LEFT_ANGLE_OP, T_RIGHT_ANGLE, T_LE_OP, T_GE_OP, T_EQ_OP, T_NE_OP].contains o.op) ||
        o.ret == mkType T_BOOL)) = true := by
  refine ⟨fun ots lhs rhs gens st => rfl, fun ots expr gens st => rfl, ?_⟩
  simp only [builtins_Operators_eq]
  decide

/-- C6: the second-revision extractor maps a Chrome-shaped stack line to
the (line-1, column) editor position and a Firefox-shaped one to (line,
column); on a stack matching neither shape it returns `none` and the
handler surfaces the error without a located `runtime_error`.  The first
revision however, on that same non-matching stack, throws a `TypeError`
(`if (func)` instead of `if (m)`) instead of returning `null`. -/
theorem js_error_loc_two_shapes_and_divergence :
    (extract_js_error_loc "e\n    at eval (eval at f (http://x), <anonymous>:3:7)" =
      some { line := 2, column := 7 }) ∧
    (extract_js_error_loc "anonymous@http://x line 2 > Function:5:11" =
      some { line := 5, column := 11 }) ∧
    (extract_js_error_loc "TypeError: x is not a function\n    at foo (http://e.com/a.js:10:5)" =
      none) ∧
    (handle_js_error "TypeError: x is not a function"
        "TypeError: x is not a function\n    at foo (http://e.com/a.js:10:5)" =
      Surfaced.unlocated "TypeError: x is not a function\n    at foo (http://e.com/a.js:10:5)") ∧
    (extract_js_error_loc_v1 "TypeError: x is not a function\n    at foo (http://e.com/a.js:10:5)" =
      JsOutcome.throws) := by
  decide

/-- C8: deleting a document that has no `id` field does call the callback
with `null`, but — missing an early return — the code then still issues
`store.delete(doc.id)` with an undefined key (rejected with a synchronous
`DataError`), refuting the claim that no delete request is issued; the
stored documents are indeed unchanged. -/
theorem store_delete_missing_id_divergence :
    Store_delete [{ id := some 1, modification_time := 5, data := "a" }]
        { id := none, modification_time := 0, data := "x" } =
      { cbCalls := [none], requested := some none, threw := true,
        docsAfter := [{ id := some 1, modification_time := 5, data := "a" }] } := by
  decide

/-- C9: on the success path `Store.save` hands the callback the same
document with every field other than `id` unchanged, where `id` is the
freshly generated key exactly when the document had none before the call,
and is untouched when it already had one. -/
theorem store_save_callback_doc (db : DB) (doc : Doc) :
    (Store_save db doc).cbCalls =
      [some { doc with id := some (doc.id.getD db.nextKey) }] := by
  cases doc with
  | mk i m d => cases i <;> rfl

/-- C10: `Store.all` delivers the stored documents in descending
modification-time order (a permutation of the store), `Store.last` is
exactly the head of that sequence, and on an empty store `all` delivers
the empty array while `last` delivers `null`. -/
theorem store_all_last_ordering (db : DB) :
    (Store_all db).Pairwise (fun a b => b.modification_time ≤ a.modification_time) ∧
    (Store_all db).Perm db.docs ∧
    Store_last db = (Store_all db).head? ∧
    Store_all { docs := [], nextKey := 0 } = [] ∧
    Store_last { docs := [], nextKey := 0 } = none := by
  refine ⟨?_, List.perm_insertionSort _ _, rfl, rfl, rfl⟩
  exact List.Pairwise.imp
    (fun hab => by
      rcases hab with h | ⟨e, _⟩
      · exact le_of_lt h
      · exact le_of_eq e.symm)
    (List.sorted_insertionSort cursorGE db.docs)


end WebglPlay
